import Mathlib

/-!
Shallow embedding of the ai-co-scientist multi-agent pipeline
(src/agents/*.py, src/utils/models.py, src/main.py).

Python values that flow between the agents (results of json.loads,
hypothesis dictionaries, critique dictionaries, ...) are modelled by the
inductive type `Json`.  Python floats are modelled by exact rationals.
Python exceptions are modelled by `Except PyErr`; a stage's
`try ... except (...)` block is modelled by running the body and
catching exactly the exception classes named in the source's tuple.
-/

/-- Python exception classes that the agent code can raise or catch. -/
inductive PyErr where
  | jsonDecodeError
  | keyError
  | valueError
  | typeError
  | attributeError
  | zeroDivisionError
  deriving DecidableEq, Repr

/-- A Python value as returned by `json.loads` (plus `None`, used as a
`dict.get` default).  Numbers (Python int and float) are exact rationals;
objects are insertion-ordered association lists, as Python dicts are. -/
inductive Json where
  | null : Json
  | bool (b : Bool) : Json
  | num (q : ℚ) : Json
  | str (s : String) : Json
  | arr (elems : List Json) : Json
  | obj (fields : List (String × Json)) : Json

/-- Is this value a Python dict? -/
def Json.isObj : Json → Bool
  | .obj _ => true
  | _ => false

/-- Is this value a Python list? -/
def Json.isArr : Json → Bool
  | .arr _ => true
  | _ => false

/-- Association-list lookup, first match (Python dicts have unique keys;
the JSON parser below resolves duplicates before building an `obj`). -/
def assocFind (k : String) : List (String × Json) → Option Json
  | [] => none
  | (k', v) :: rest => if k' = k then some v else assocFind k rest

/-- Set a key in an insertion-ordered dict: replace in place if the key is
present, else append — Python dict assignment semantics. -/
def assocSet (k : String) (v : Json) : List (String × Json) → List (String × Json)
  | [] => [(k, v)]
  | (k', v') :: rest =>
      if k' = k then (k, v) :: rest else (k', v') :: assocSet k v rest

/-- `d.get(key, default)` — raises AttributeError when `d` is not a dict,
exactly as Python does for lists, strings, numbers, `None`. -/
def dictGet (j : Json) (k : String) (dflt : Json) : Except PyErr Json :=
  match j with
  | .obj fields => .ok ((assocFind k fields).getD dflt)
  | _ => .error .attributeError

/-- `d[key]` with a string key — KeyError when missing from a dict,
TypeError when `d` is not a dict. -/
def dictItem (j : Json) (k : String) : Except PyErr Json :=
  match j with
  | .obj fields =>
      match assocFind k fields with
      | some v => .ok v
      | none => .error .keyError
  | _ => .error .typeError

/-- `d.copy()` followed by `d.update({...})`: fold the updates into the
dict.  AttributeError when the receiver is not a dict. -/
def dictUpdate (j : Json) (upds : List (String × Json)) : Except PyErr Json :=
  match j with
  | .obj fields => .ok (.obj (upds.foldl (fun fs (k, v) => assocSet k v fs) fields))
  | _ => .error .attributeError

mutual

/-- Python `==` between JSON-shaped values.  Numbers and booleans compare
by numeric value (`True == 1`); lists compare pointwise; dicts are
compared pointwise here, which agrees with Python on the id-to-id
comparisons the agents perform. -/
def pyEq : Json → Json → Bool
  | .null, .null => true
  | .bool a, .bool b => a = b
  | .bool a, .num q => (if a then (1 : ℚ) else 0) = q
  | .num q, .bool b => q = (if b then (1 : ℚ) else 0)
  | .num a, .num b => a = b
  | .str a, .str b => a = b
  | .arr a, .arr b => pyEqList a b
  | .obj a, .obj b => pyEqFields a b
  | _, _ => false

/-- Pointwise Python `==` on lists. -/
def pyEqList : List Json → List Json → Bool
  | [], [] => true
  | x :: xs, y :: ys => pyEq x y && pyEqList xs ys
  | _, _ => false

/-- Pointwise Python `==` on dict field lists. -/
def pyEqFields : List (String × Json) → List (String × Json) → Bool
  | [], [] => true
  | (k, v) :: xs, (k', v') :: ys => decide (k = k') && pyEq v v' && pyEqFields xs ys
  | _, _ => false

end

/-- Python truthiness: `bool(x)` as used by `if critiques:` and
`if not citations:`. -/
def pyTruthy : Json → Bool
  | .null => false
  | .bool b => b
  | .num q => decide (q ≠ 0)
  | .str s => decide (s ≠ "")
  | .arr l => !l.isEmpty
  | .obj f => !f.isEmpty

/-- Python `<` on values, as invoked by `list.sort`: numbers/booleans by
value, strings lexicographically, anything else is a TypeError. -/
def pyLt : Json → Json → Except PyErr Bool
  | .num a, .num b => .ok (a < b)
  | .num a, .bool b => .ok (a < if b then (1 : ℚ) else 0)
  | .bool a, .num b => .ok ((if a then (1 : ℚ) else 0) < b)
  | .bool a, .bool b => .ok ((if a then (1 : ℚ) else 0) < if b then (1 : ℚ) else 0)
  | .str a, .str b => .ok (a < b)
  | _, _ => .error .typeError

/-! ### Python string primitives used by the agents -/

/-- Whitespace for `str.strip()` / JSON / `float()` purposes. -/
def isWs (c : Char) : Bool :=
  c = ' ' || c = '\t' || c = '\n' || c = '\r'

/-- Does `pat` occur at the head of the list? -/
def leadsWith : List Char → List Char → Bool
  | [], _ => true
  | _ :: _, [] => false
  | p :: ps, c :: cs => p = c && leadsWith ps cs

/-- First index at which `pat` occurs, scanning from offset `i`. -/
def findIdxAux (pat : List Char) : List Char → Nat → Option Nat
  | [], i => if pat.isEmpty then some i else none
  | c :: cs, i =>
      if leadsWith pat (c :: cs) then some i else findIdxAux pat cs (i + 1)

/-- Python `s.find(pat)`: first index of the substring, `-1` if absent. -/
def pyFind (s pat : List Char) : Int :=
  match findIdxAux pat s 0 with
  | some i => (i : Int)
  | none => -1

/-- Python `s.find(pat, start)` with a non-negative start offset. -/
def pyFindFrom (s pat : List Char) (start : Nat) : Int :=
  match findIdxAux pat (s.drop start) 0 with
  | some i => ((start + i : Nat) : Int)
  | none => -1

/-- Last index at which `pat` occurs, or `none`. -/
def rfindIdxAux (pat : List Char) : List Char → Nat → Option Nat → Option Nat
  | [], i, best => if pat.isEmpty then some i else best
  | c :: cs, i, best =>
      rfindIdxAux pat cs (i + 1) (if leadsWith pat (c :: cs) then some i else best)

/-- Python `s.rfind(pat)`: last index of the substring, `-1` if absent. -/
def pyRfind (s pat : List Char) : Int :=
  match rfindIdxAux pat s 0 none with
  | some i => (i : Int)
  | none => -1

/-- Clamp a (possibly negative) Python slice index into `[0, n]`. -/
def clampIdx (n : Nat) (i : Int) : Nat :=
  let j := if i < 0 then i + n else i
  if j < 0 then 0 else if j > (n : Int) then n else j.toNat

/-- Python `s[a:b]` (step 1) with full negative-index and clamping rules. -/
def pySlice (s : List Char) (a b : Int) : List Char :=
  (s.take (clampIdx s.length b)).drop (clampIdx s.length a)

/-- Python `s.strip()`. -/
def pyStrip (s : List Char) : List Char :=
  ((s.dropWhile isWs).reverse.dropWhile isWs).reverse

/-- Collect leading decimal digits. -/
def takeDigits : List Char → (List Char × List Char)
  | [] => ([], [])
  | c :: cs =>
      if c.isDigit then
        let (ds, rest) := takeDigits cs
        (c :: ds, rest)
      else ([], c :: cs)

/-- Numeric value of a digit string. -/
def digitsToNat (ds : List Char) : Nat :=
  ds.foldl (fun acc c => acc * 10 + (c.toNat - 48)) 0

/-- Assemble a rational from sign, integer digits, fraction digits and a
decimal exponent. -/
def ratOfParts (neg : Bool) (intDs fracDs : List Char) (ex : Int) : ℚ :=
  let mant : ℚ := (digitsToNat (intDs ++ fracDs) : ℚ) / (10 : ℚ) ^ fracDs.length
  let scaled := if ex ≥ 0 then mant * (10 : ℚ) ^ ex.toNat else mant / (10 : ℚ) ^ (-ex).toNat
  if neg then -scaled else scaled

/-- Parse the optional exponent part `e[+-]digits`; returns the exponent
and the rest, or `none` when an `e` is present but malformed. -/
def parseExpPart : List Char → Option (Int × List Char)
  | c :: cs =>
      if c = 'e' || c = 'E' then
        match cs with
        | '+' :: cs' =>
            let (ds, rest) := takeDigits cs'
            if ds.isEmpty then none else some ((digitsToNat ds : Int), rest)
        | '-' :: cs' =>
            let (ds, rest) := takeDigits cs'
            if ds.isEmpty then none else some (-(digitsToNat ds : Int), rest)
        | _ =>
            let (ds, rest) := takeDigits cs
            if ds.isEmpty then none else some ((digitsToNat ds : Int), rest)
      else some (0, c :: cs)
  | [] => some (0, [])

/-- Parse a Python `float()` literal body (sign, digits, optional point,
optional exponent); the whole input must be consumed. -/
def pyFloatBody (s : List Char) : Option ℚ :=
  let (neg, s₁) :=
    match s with
    | '-' :: rest => (true, rest)
    | '+' :: rest => (false, rest)
    | _ => (false, s)
  let (intDs, s₂) := takeDigits s₁
  match s₂ with
  | '.' :: s₃ =>
      let (fracDs, s₄) := takeDigits s₃
      if intDs.isEmpty && fracDs.isEmpty then none
      else
        match parseExpPart s₄ with
        | some (ex, rest) => if rest.isEmpty then some (ratOfParts neg intDs fracDs ex) else none
        | none => none
  | _ =>
      if intDs.isEmpty then none
      else
        match parseExpPart s₂ with
        | some (ex, rest) => if rest.isEmpty then some (ratOfParts neg intDs [] ex) else none
        | none => none

/-- Python `float(x)` on a JSON-shaped value: numbers and booleans
convert, numeric strings parse (ValueError otherwise), and `None`, lists
and dicts raise TypeError — which the critique/ranking/review stages do
NOT catch. -/
def pyFloat : Json → Except PyErr ℚ
  | .num q => .ok q
  | .bool b => .ok (if b then 1 else 0)
  | .str s =>
      match pyFloatBody (pyStrip s.toList) with
      | some q => .ok q
      | none => .error .valueError
  | _ => .error .typeError

/-! ### json.loads -/

/-- Hex digit value, for `\u` escapes. -/
def hexVal (c : Char) : Option Nat :=
  if c.isDigit then some (c.toNat - 48)
  else if 'a' ≤ c && c ≤ 'f' then some (c.toNat - 87)
  else if 'A' ≤ c && c ≤ 'F' then some (c.toNat - 55)
  else none

/-- Parse the body of a JSON string after the opening quote; returns the
content and the remainder after the closing quote. -/
def parseJString : Nat → List Char → Option (List Char × List Char)
  | 0, _ => none
  | _, [] => none
  | fuel + 1, c :: cs =>
      if c = '"' then some ([], cs)
      else if c = '\\' then
        match cs with
        | [] => none
        | e :: cs' =>
            let cont (ch : Char) (rest : List Char) : Option (List Char × List Char) :=
              match parseJString fuel rest with
              | some (body, rem) => some (ch :: body, rem)
              | none => none
            if e = '"' then cont '"' cs'
            else if e = '\\' then cont '\\' cs'
            else if e = '/' then cont '/' cs'
            else if e = 'b' then cont (Char.ofNat 8) cs'
            else if e = 'f' then cont (Char.ofNat 12) cs'
            else if e = 'n' then cont '\n' cs'
            else if e = 'r' then cont '\r' cs'
            else if e = 't' then cont '\t' cs'
            else if e = 'u' then
              match cs' with
              | h₁ :: h₂ :: h₃ :: h₄ :: cs'' =>
                  match hexVal h₁, hexVal h₂, hexVal h₃, hexVal h₄ with
                  | some a, some b, some c', some d =>
                      cont (Char.ofNat (((a * 16 + b) * 16 + c') * 16 + d)) cs''
                  | _, _, _, _ => none
              | _ => none
            else none
      else
        match parseJString fuel cs with
        | some (body, rem) => some (c :: body, rem)
        | none => none

/-- Parse a JSON number (integer or float, optional exponent). -/
def parseJNum (s : List Char) : Option (ℚ × List Char) :=
  let (neg, s₁) :=
    match s with
    | '-' :: rest => (true, rest)
    | _ => (false, s)
  let (intDs, s₂) := takeDigits s₁
  if intDs.isEmpty then none
  else
    match s₂ with
    | '.' :: s₃ =>
        let (fracDs, s₄) := takeDigits s₃
        if fracDs.isEmpty then none
        else
          match parseExpPart s₄ with
          | some (ex, rest) => some (ratOfParts neg intDs fracDs ex, rest)
          | none => none
    | _ =>
        match parseExpPart s₂ with
        | some (ex, rest) => some (ratOfParts neg intDs [] ex, rest)
        | none => none

/-- Skip JSON whitespace. -/
def skipWs : List Char → List Char
  | c :: cs => if isWs c then skipWs cs else c :: cs
  | [] => []

/-- Duplicate keys in a parsed JSON object: Python keeps the position of
the first occurrence and the value of the last. -/
def dedupFields : List (String × Json) → List (String × Json)
  | [] => []
  | (k, v) :: rest =>
      let v' := (assocFind k rest).getD v
      (k, v') :: dedupFields (rest.filter (fun kv => kv.1 ≠ k))
termination_by l => l.length
decreasing_by
  simp only [List.length_cons]
  exact Nat.lt_succ_of_le (List.length_filter_le _ _)

mutual

/-- Parse one JSON value from (whitespace-skipped) input. -/
def parseJVal : Nat → List Char → Option (Json × List Char)
  | 0, _ => none
  | _, [] => none
  | fuel + 1, c :: cs =>
      if c = '"' then
        match parseJString (fuel + 1) cs with
        | some (body, rest) => some (.str (String.mk body), rest)
        | none => none
      else if c = '[' then
        match skipWs cs with
        | ']' :: rest => some (.arr [], rest)
        | cs' =>
            match parseJElems fuel cs' with
            | some (elems, rest) => some (.arr elems, rest)
            | none => none
      else if c = Char.ofNat 123 then
        match skipWs cs with
        | c' :: rest =>
            if c' = Char.ofNat 125 then some (.obj [], rest)
            else
              match parseJMembers fuel (c' :: rest) with
              | some (fields, rest') => some (.obj (dedupFields fields), rest')
              | none => none
        | [] => none
      else if leadsWith "true".toList (c :: cs) then some (.bool true, cs.drop 3)
      else if leadsWith "false".toList (c :: cs) then some (.bool false, cs.drop 4)
      else if leadsWith "null".toList (c :: cs) then some (.null, cs.drop 3)
      else
        match parseJNum (c :: cs) with
        | some (q, rest) => some (.num q, rest)
        | none => none

/-- Parse comma-separated array elements up to the closing bracket. -/
def parseJElems : Nat → List Char → Option (List Json × List Char)
  | 0, _ => none
  | fuel + 1, cs =>
      match parseJVal fuel cs with
      | some (v, rest) =>
          match skipWs rest with
          | ',' :: rest' =>
              match parseJElems fuel (skipWs rest') with
              | some (vs, rest'') => some (v :: vs, rest'')
              | none => none
          | ']' :: rest' => some ([v], rest')
          | _ => none
      | none => none

/-- Parse comma-separated object members up to the closing brace. -/
def parseJMembers : Nat → List Char → Option (List (String × Json) × List Char)
  | 0, _ => none
  | fuel + 1, cs =>
      match cs with
      | '"' :: cs' =>
          match parseJString (fuel + 1) cs' with
          | some (key, afterKey) =>
              match skipWs afterKey with
              | ':' :: afterColon =>
                  match parseJVal fuel (skipWs afterColon) with
                  | some (v, rest) =>
                      match skipWs rest with
                      | ',' :: rest' =>
                          match parseJMembers fuel (skipWs rest') with
                          | some (fields, rest'') =>
                              some ((String.mk key, v) :: fields, rest'')
                          | none => none
                      | c' :: rest' =>
                          if c' = Char.ofNat 125 then some ([(String.mk key, v)], rest')
                          else none
                      | [] => none
                  | none => none
              | _ => none
          | none => none
      | _ => none

end

/-- `json.loads`: exactly one JSON value, with surrounding whitespace,
must span the whole input. -/
def jsonLoads (s : List Char) : Option Json :=
  match parseJVal (2 * s.length + 2) (skipWs s) with
  | some (v, rest) => if (skipWs rest).isEmpty then some v else none
  | none => none

/-! ### More Python operations -/

/-- The two brace characters, kept out of string literals. -/
def lbrace : Char := Char.ofNat 123

/-- Closing brace character. -/
def rbrace : Char := Char.ofNat 125

/-- Single-quote character, for Python `repr` of strings. -/
def sqc : Char := Char.ofNat 39

/-- Python `key in x`: dict key membership, list element membership,
substring test on strings; TypeError on numbers, booleans, `None`. -/
def pyContains (container : Json) (k : String) : Except PyErr Bool :=
  match container with
  | .obj fs => .ok (assocFind k fs).isSome
  | .arr l => .ok (l.any (fun x => pyEq x (.str k)))
  | .str s => .ok (decide (pyFind s.toList k.toList ≠ -1))
  | _ => .error .typeError

/-- Python iteration (`for x in v`): lists yield elements, strings yield
one-character strings, dicts yield their keys; TypeError otherwise. -/
def pyIterate : Json → Except PyErr (List Json)
  | .arr l => .ok l
  | .str s => .ok (s.toList.map (fun c => .str (String.mk [c])))
  | .obj fs => .ok (fs.map (fun kv => Json.str kv.1))
  | _ => .error .typeError

/-- Python `v[:n]` on an arbitrary value: lists and strings slice,
everything else raises TypeError. -/
def pyTakeVal (n : Nat) : Json → Except PyErr Json
  | .arr l => .ok (.arr (l.take n))
  | .str s => .ok (.str (String.mk (s.toList.take n)))
  | _ => .error .typeError

mutual

/-- Python `repr` of a JSON-shaped value (used through `str` for
container rendering inside f-strings). -/
def pyRepr : Json → String
  | .null => "None"
  | .bool b => if b then "True" else "False"
  | .num q => if q.den = 1 then toString q.num else toString q.num ++ "/" ++ toString q.den
  | .str s => String.mk (sqc :: s.toList ++ [sqc])
  | .arr l => "[" ++ pyReprList l ++ "]"
  | .obj fs => String.mk [lbrace] ++ pyReprFields fs ++ String.mk [rbrace]

/-- Comma-separated `repr`s of list elements. -/
def pyReprList : List Json → String
  | [] => ""
  | [x] => pyRepr x
  | x :: xs => pyRepr x ++ ", " ++ pyReprList xs

/-- Comma-separated `repr`s of dict items. -/
def pyReprFields : List (String × Json) → String
  | [] => ""
  | [(k, v)] => String.mk (sqc :: k.toList ++ [sqc]) ++ ": " ++ pyRepr v
  | (k, v) :: fs => String.mk (sqc :: k.toList ++ [sqc]) ++ ": " ++ pyRepr v ++ ", " ++ pyReprFields fs

end

/-- Python `str(v)`, as interpolated by f-strings. -/
def pyStr : Json → String
  | .str s => s
  | j => pyRepr j

/-- Error-propagating map over a list (a Python `for` loop that appends
to an accumulator). -/
def mapME (f : α → Except PyErr β) : List α → Except PyErr (List β)
  | [] => .ok []
  | x :: xs => do
      let y ← f x
      let ys ← mapME f xs
      pure (y :: ys)

/-- Error-propagating map with a running index (`enumerate`). -/
def mapMEIdx (f : Nat → α → Except PyErr β) : Nat → List α → Except PyErr (List β)
  | _, [] => .ok []
  | i, x :: xs => do
      let y ← f i x
      let ys ← mapMEIdx f (i + 1) xs
      pure (y :: ys)

/-- Python `next((x for x in l if p x), None)` — lazy, so a predicate
error beyond the first match never surfaces. -/
def pyFirstMatch (p : Json → Except PyErr Bool) : List Json → Except PyErr (Option Json)
  | [] => .ok none
  | x :: xs => do
      if ← p x then pure (some x) else pyFirstMatch p xs

/-- The id-match predicate of the `next((x for x in xs if
x.get(key) == hyp.get("id")), None)` searches performed throughout the
agents and the orchestrator. -/
def idMatch (key : String) (hyp : Json) (x : Json) : Except PyErr Bool := do
  let a ← dictGet x key .null
  let b ← dictGet hyp "id" .null
  pure (pyEq a b)

/-- `d.get(key, default)` where the default expression is evaluated
eagerly (Python evaluates call arguments after the attribute lookup but
before the lookup of the key). -/
def dictGetEager (j : Json) (k : String) (dflt : Except PyErr Json) : Except PyErr Json :=
  match j with
  | .obj fields => do
      let d ← dflt
      pure ((assocFind k fields).getD d)
  | _ => .error .attributeError

/-- `try: body except (caught...): fallback` — exception classes outside
the caught tuple propagate. -/
def runCatching (caught : List PyErr) (body fallback : Except PyErr α) : Except PyErr α :=
  match body with
  | .ok v => .ok v
  | .error e => if e ∈ caught then fallback else .error e

/-- Multiplication `x * q` between a scraped critique score and a float
weight, as the ranking fallback performs without a `float()` guard. -/
def pyMulQ (x : Json) (q : ℚ) : Except PyErr ℚ :=
  match x with
  | .num a => .ok (a * q)
  | .bool b => .ok ((if b then (1 : ℚ) else 0) * q)
  | _ => .error .typeError

/-! ### JSON extraction from raw model text (the shared parsing idiom) -/

/-- The fenced-block / brace-scan extraction used identically by the
reflection, ranking, evolution, proximity and meta-review agents:
if the text contains a ```json fence, slice from after the fence tag to
the next fence (note: when the closing fence is missing, `find` returns
`-1` and the Python slice drops the final character); otherwise slice
from the first brace to the last one. -/
def extractContentObj (output : List Char) : List Char :=
  if pyFind output "```json".toList ≠ -1 then
    let jsonStart : Int := pyFind output "```json".toList + 7
    let jsonEnd : Int := pyFindFrom output "```".toList jsonStart.toNat
    pyStrip (pySlice output jsonStart jsonEnd)
  else
    let startIdx : Int := pyFind output [lbrace]
    let endIdx : Int := pyRfind output [rbrace]
    pySlice output startIdx (endIdx + 1)

/-- The generation agent's variant: falls back to square brackets when no
brace is found on the corresponding side. -/
def extractContentGen (output : List Char) : List Char :=
  if pyFind output "```json".toList ≠ -1 then
    let jsonStart : Int := pyFind output "```json".toList + 7
    let jsonEnd : Int := pyFindFrom output "```".toList jsonStart.toNat
    pyStrip (pySlice output jsonStart jsonEnd)
  else
    let startIdx : Int := pyFind output [lbrace]
    let startIdx : Int := if startIdx = -1 then pyFind output ['['] else startIdx
    let endIdx : Int := pyRfind output [rbrace]
    let endIdx : Int := if endIdx = -1 then pyRfind output [']'] else endIdx
    pySlice output startIdx (endIdx + 1)

/-- Extraction + `json.loads` for the object-only agents; `none` models a
raised `json.JSONDecodeError`. -/
def extractObj (output : String) : Option Json :=
  jsonLoads (extractContentObj output.toList)

/-- Extraction + `json.loads` for the generation agent. -/
def extractGen (output : String) : Option Json :=
  jsonLoads (extractContentGen output.toList)

/-- Lift an extraction result into the exception monad. -/
def toParsed (o : Option Json) : Except PyErr Json :=
  match o with
  | some v => .ok v
  | none => .error .jsonDecodeError

/-! ### ReflectionAgent.critique_hypotheses (src/agents/reflection_agent.py) -/

/-- Lines 78-90: normalize the `i`-th critique element from the parsed
model output, defaulting each missing field; `float(...)` conversions can
raise (ValueError is caught by the surrounding handler, TypeError is
not).  The `hypothesis_id` default expression `hypotheses[i]["id"]` is
evaluated eagerly, as Python evaluates call arguments. -/
def reflProcessOne (hypotheses : List Json) (meta : Json) (i : Nat) (critique : Json) :
    Except PyErr Json := do
  let hid ← dictGetEager critique "hypothesis_id"
      (if h : i < hypotheses.length then dictItem (hypotheses.get ⟨i, h⟩) "id"
       else .ok (.str ("unknown_" ++ toString i)))
  let oa ← dictGet critique "overall_assessment" (.str "Assessment pending")
  let vs ← pyFloat (← dictGet critique "validity_score" (.num 0.5))
  let ns ← pyFloat (← dictGet critique "novelty_score" (.num 0.5))
  let fs ← pyFloat (← dictGet critique "feasibility_score" (.num 0.5))
  let ims ← pyFloat (← dictGet critique "impact_score" (.num 0.5))
  let sc ← dictGet critique "specific_critiques" (.arr [])
  let sg ← dictGet critique "suggestions" (.arr [])
  pure (.obj [("hypothesis_id", hid), ("overall_assessment", oa),
    ("validity_score", .num vs), ("novelty_score", .num ns),
    ("feasibility_score", .num fs), ("impact_score", .num ims),
    ("specific_critiques", sc), ("suggestions", sg), ("agent_metadata", meta)])

/-- Lines 51-92: the `try` body — extract JSON, unwrap the `critiques`
collection key, and normalize each element. -/
def reflTryBody (hypotheses : List Json) (output : String) (meta : Json) :
    Except PyErr (List Json) := do
  let parsed ← toParsed (extractObj output)
  let critiquesVal ←
    (do if ← pyContains parsed "critiques" then dictItem parsed "critiques"
        else if parsed.isArr then pure parsed
        else pure (.arr [parsed]))
  let critiques ← pyIterate critiquesVal
  mapMEIdx (reflProcessOne hypotheses meta) 0 critiques

/-- Lines 96-108: one fallback critique per input hypothesis. -/
def reflFallbackOne (meta : Json) (hyp : Json) : Except PyErr Json := do
  let hid ← dictGet hyp "id" (.str "unknown")
  pure (.obj [("hypothesis_id", hid),
    ("overall_assessment", .str "Automated critique analysis needed"),
    ("validity_score", .num 0.7), ("novelty_score", .num 0.6),
    ("feasibility_score", .num 0.8), ("impact_score", .num 0.7),
    ("specific_critiques", .arr [.str "Detailed analysis pending"]),
    ("suggestions", .arr [.str "Refine experimental methodology"]),
    ("agent_metadata", meta)])

/-- `ReflectionAgent.critique_hypotheses`, lines 27-109, as a function of
the raw model response text and the run metadata.  The handler catches
exactly `(json.JSONDecodeError, KeyError, ValueError)`. -/
def critiqueHypotheses (hypotheses : List Json) (output : String) (meta : Json) :
    Except PyErr (List Json) :=
  runCatching [.jsonDecodeError, .keyError, .valueError]
    (reflTryBody hypotheses output meta)
    (mapME (reflFallbackOne meta) hypotheses)

/-! ### RankingAgent.rank_hypotheses (src/agents/ranking_agent.py) -/

/-- Lines 93-107: merge one model ranking entry onto a copy of the
matching original hypothesis; entries whose `hypothesis_id` matches no
hypothesis are dropped. -/
def rankMergeOne (hypotheses : List Json) (meta : Json) (ranking : Json) :
    Except PyErr (Option Json) := do
  let hid ← dictGet ranking "hypothesis_id" .null
  let origOpt ← pyFirstMatch (fun h => do
      let i ← dictGet h "id" .null
      pure (pyEq i hid)) hypotheses
  match origOpt with
  | none => pure none
  | some orig => do
      let rank ← dictGet ranking "rank" (.num 999)
      let fsco ← pyFloat (← dictGet ranking "final_score" (.num 0.5))
      let cs ← dictGet ranking "criterion_scores" (.obj [])
      let just ← dictGet ranking "justification" (.str "")
      let conf ← pyFloat (← dictGet ranking "confidence" (.num 0.5))
      let merged ← dictUpdate orig [("rank", rank), ("final_score", .num fsco),
        ("criterion_scores", cs), ("ranking_justification", just),
        ("ranking_confidence", .num conf), ("ranking_metadata", meta)]
      pure (some merged)

/-- The merge loop over all ranking entries. -/
def rankMergeAll (hypotheses : List Json) (meta : Json) :
    List Json → Except PyErr (List Json)
  | [] => .ok []
  | r :: rs => do
      match ← rankMergeOne hypotheses meta r with
      | some x => do pure (x :: (← rankMergeAll hypotheses meta rs))
      | none => rankMergeAll hypotheses meta rs

/-- Stable insertion into a key-sorted list: the new element goes before
the first strictly greater key (Python `list.sort` is stable). -/
def insertKeyed (kv : Json × Json) : List (Json × Json) → Except PyErr (List (Json × Json))
  | [] => .ok [kv]
  | hd :: tl => do
      if ← pyLt kv.1 hd.1 then pure (kv :: hd :: tl)
      else do pure (hd :: (← insertKeyed kv tl))

/-- Left fold of stable insertions. -/
def insSortKeyed (acc : List (Json × Json)) : List (Json × Json) →
    Except PyErr (List (Json × Json))
  | [] => .ok acc
  | x :: xs => do insSortKeyed (← insertKeyed x acc) xs

/-- Line 110: `ranked_hypotheses.sort(key=lambda x: x.get("rank", 999))`. -/
def pySortByRankKey (l : List Json) : Except PyErr (List Json) := do
  let keyed ← mapME (fun x => do pure ((← dictGet x "rank" (.num 999)), x)) l
  let sorted ← insSortKeyed [] keyed
  pure (sorted.map Prod.snd)

/-- Lines 67-112: the ranking `try` body. -/
def rankTryBody (hypotheses : List Json) (output : String) (meta : Json) :
    Except PyErr (List Json) := do
  let parsed ← toParsed (extractObj output)
  let rankingsVal ←
    (do if ← pyContains parsed "rankings" then dictItem parsed "rankings"
        else if parsed.isArr then pure parsed
        else pure (.arr [parsed]))
  let rankings ← pyIterate rankingsVal
  let merged ← rankMergeAll hypotheses meta rankings
  pySortByRankKey merged

/-- Lines 118-135: the fallback score — the weighted blend of raw
critique scores plus the fixed `0.8 * 0.10` term when a critique
matches, `0.6` when critiques exist but none matches, and the decreasing
sequence `0.7 - i*0.1` when no critiques were supplied at all. -/
def rankFallbackScore (critiques : List Json) (hyp : Json) (i : Nat) : Except PyErr ℚ := do
  if !critiques.isEmpty then do
    let copt ← pyFirstMatch (idMatch "hypothesis_id" hyp) critiques
    match copt with
    | some critique => do
        let validity ← dictGet critique "validity_score" (.num 0.5)
        let novelty ← dictGet critique "novelty_score" (.num 0.5)
        let feasibility ← dictGet critique "feasibility_score" (.num 0.5)
        let impact ← dictGet critique "impact_score" (.num 0.5)
        let t1 ← pyMulQ validity 0.25
        let t2 ← pyMulQ novelty 0.25
        let t3 ← pyMulQ feasibility 0.20
        let t4 ← pyMulQ impact 0.20
        pure (t1 + t2 + t3 + t4 + 0.8 * 0.10)
    | none => pure 0.6
  else pure (0.7 - (i : ℚ) * 0.1)

/-- Lines 137-152: one fallback-ranked hypothesis. -/
def rankFallbackOne (critiques : List Json) (meta : Json) (i : Nat) (hyp : Json) :
    Except PyErr Json := do
  let fsco ← rankFallbackScore critiques hyp i
  dictUpdate hyp [("rank", .num ((i : ℚ) + 1)), ("final_score", .num fsco),
    ("criterion_scores", .obj [("validity", .num 0.7), ("novelty", .num 0.6),
      ("feasibility", .num 0.8), ("impact", .num 0.7), ("clarity", .num 0.8)]),
    ("ranking_justification", .str "Fallback ranking based on available data"),
    ("ranking_confidence", .num 0.6), ("ranking_metadata", meta)]

/-- `RankingAgent.rank_hypotheses`, lines 27-154.  The orchestrator
always passes the critique list (possibly empty; `None` and `[]` are
both falsy in the `if critiques:` guards). -/
def rankHypotheses (hypotheses critiques : List Json) (output : String) (meta : Json) :
    Except PyErr (List Json) :=
  runCatching [.jsonDecodeError, .keyError, .valueError]
    (rankTryBody hypotheses output meta)
    (mapMEIdx (rankFallbackOne critiques meta) 0 hypotheses)

/-! ### GenerationAgent.generate_hypotheses (src/agents/generation_agent.py) -/

/-- Lines 79-89: one processed hypothesis, with a fresh id drawn from the
id supply (modelling `str(uuid.uuid4())`). -/
def genProcessOne (ids : Nat → String) (meta : Json) (k : Nat) (i : Nat) (hyp : Json) :
    Except PyErr Json := do
  let t ← dictGet hyp "title" (.str ("Hypothesis " ++ toString (i + 1)))
  let d ← dictGet hyp "description" (.str "")
  let r ← dictGet hyp "reasoning" (.str "")
  let na ← dictGet hyp "novelty_assessment" (.str "")
  let ra ← dictGet hyp "research_approach" (.str "")
  pure (.obj [("id", .str (ids (k + i))), ("title", t), ("description", d),
    ("reasoning", r), ("novelty_assessment", na), ("research_approach", ra),
    ("agent_metadata", meta)])

/-- Lines 48-91: the generation `try` body; the parsed collection is
truncated to `max_hypotheses` before processing. -/
def genTryBody (ids : Nat → String) (k : Nat) (maxH : Nat) (output : String) (meta : Json) :
    Except PyErr (List Json × Nat) := do
  let parsed ← toParsed (extractGen output)
  let hypsVal ←
    (do if ← pyContains parsed "hypotheses" then dictItem parsed "hypotheses"
        else if parsed.isArr then pure parsed
        else pure (.arr [parsed]))
  let sliced ← pyTakeVal maxH hypsVal
  let hyps ← pyIterate sliced
  let processed ← mapMEIdx (genProcessOne ids meta k) 0 hyps
  pure (processed, k + hyps.length)

/-- Lines 95-103: the single fallback hypothesis built from the raw
model text. -/
def genFallback (ids : Nat → String) (k : Nat) (query : String) (output : String)
    (meta : Json) : List Json × Nat :=
  ([.obj [("id", .str (ids k)),
    ("title", .str ("Generated Hypothesis for: " ++ String.mk (pySlice query.toList 0 50) ++ "...")),
    ("description", .str (String.mk (pySlice output.toList 0 500))),
    ("reasoning", .str "Generated using AI reasoning"),
    ("novelty_assessment", .str "Novel approach to research question"),
    ("research_approach", .str "Requires further experimental design"),
    ("agent_metadata", meta)]], k + 1)

/-- `GenerationAgent.generate_hypotheses`, lines 33-103; the handler
catches `(json.JSONDecodeError, KeyError)`.  The returned counter
records how many ids were consumed. -/
def generateHypotheses (ids : Nat → String) (k : Nat) (query : String) (maxH : Nat)
    (output : String) (meta : Json) : Except PyErr (List Json × Nat) :=
  runCatching [.jsonDecodeError, .keyError]
    (genTryBody ids k maxH output meta)
    (.ok (genFallback ids k query output meta))

/-! ### Prompt templates and run metadata

The prompt text bodies live in src/prompts.py and are pure data; the
pipeline is parametric in them. -/

/-- The six prompt-template functions of `PromptTemplates`. -/
structure Prompts where
  generationTemplate : String → Nat → String
  knowledgeTemplate : String → String
  critiqueTemplate : String → String
  rankingTemplate : String → String
  evolutionTemplate : String → Nat → String
  metaReviewTemplate : String → String

/-- The metadata dict `BaseCoScientistAgent.run` attaches to a successful
call (src/agents/base_agent.py lines 129-137). -/
def mkRunMeta (model input output : String) : Json :=
  .obj [("model_used", .str model), ("input_length", .num input.length),
    ("output_length", .num output.length)]

/-- Python `s.lower()`. -/
def pyLower (s : String) : String :=
  String.mk (s.toList.map Char.toLower)

/-- Python `str.split()` — split on whitespace runs, dropping empties. -/
def pySplitWs (s : List Char) : List (List Char) :=
  (s.splitOnP isWs).map id |>.filter (fun w => !w.isEmpty)

/-! ### EvolutionAgent (src/agents/evolution_agent.py) -/

/-- Lines 73-86: one evolved hypothesis from the parsed model output,
with a fresh id. -/
def evoProcessOne (ids : Nat → String) (meta : Json) (roundNum : Nat) (k : Nat)
    (i : Nat) (evo : Json) : Except PyErr Json := do
  let oid ← dictGet evo "original_id" (.str "unknown")
  let t ← dictGet evo "title" (.str "Evolved Hypothesis")
  let d ← dictGet evo "description" (.str "")
  let r ← dictGet evo "reasoning" (.str "")
  let et ← dictGet evo "evolution_type" (.str "refinement")
  let imp ← dictGet evo "improvements" (.arr [])
  let ej ← dictGet evo "evolution_justification" (.str "")
  pure (.obj [("id", .str (ids (k + i))), ("original_id", oid), ("title", t),
    ("description", d), ("reasoning", r), ("evolution_type", et),
    ("improvements", imp), ("evolution_justification", ej),
    ("evolution_round", .num (roundNum + 1)), ("agent_metadata", meta)])

/-- Lines 47-86: one evolution round's `try` body. -/
def evoTryBody (ids : Nat → String) (k : Nat) (roundNum : Nat) (output : String)
    (meta : Json) : Except PyErr (List Json × Nat) := do
  let parsed ← toParsed (extractObj output)
  let evolvedVal ←
    (do if ← pyContains parsed "evolved_hypotheses" then dictItem parsed "evolved_hypotheses"
        else if parsed.isArr then pure parsed
        else pure (.arr [parsed]))
  let evolved ← pyIterate evolvedVal
  let processed ← mapMEIdx (evoProcessOne ids meta roundNum k) 0 evolved
  pure (processed, k + evolved.length)

/-- Lines 90-104: the per-hypothesis fallback of an evolution round. -/
def evoFallbackOne (ids : Nat → String) (meta : Json) (roundNum : Nat) (k : Nat)
    (i : Nat) (hyp : Json) : Except PyErr Json := do
  let origId ← dictGet hyp "id" (.str "unknown")
  let title ← dictGet hyp "title" (.str "Hypothesis")
  dictUpdate hyp [("id", .str (ids (k + i))), ("original_id", origId),
    ("title", .str ("Evolved: " ++ pyStr title)),
    ("evolution_type", .str "refinement"),
    ("improvements", .arr [.str "Enhanced specificity", .str "Improved testability"]),
    ("evolution_justification", .str "Systematic refinement applied"),
    ("evolution_round", .num (roundNum + 1)), ("agent_metadata", meta)]

/-- One round of the evolution loop (the `try`/`except` of lines
47-104); catches exactly `(json.JSONDecodeError, KeyError)`. -/
def evolveOneRound (ids : Nat → String) (k : Nat) (roundNum : Nat)
    (current : List Json) (output : String) (meta : Json) :
    Except PyErr (List Json × Nat) :=
  runCatching [.jsonDecodeError, .keyError]
    (evoTryBody ids k roundNum output meta)
    (do
      let l ← mapMEIdx (evoFallbackOne ids meta roundNum k) 0 current
      pure (l, k + current.length))

/-- Lines 129-137 of `_format_evolution_input`: the critique-feedback
section for one hypothesis. -/
def formatEvoCritique (critiques : List Json) (hyp : Json) : Except PyErr String := do
  if !critiques.isEmpty then do
    let copt ← pyFirstMatch (idMatch "hypothesis_id" hyp) critiques
    match copt with
    | some critique => do
        let v ← dictGet critique "validity_score" (.str "N/A")
        let n ← dictGet critique "novelty_score" (.str "N/A")
        let f ← dictGet critique "feasibility_score" (.str "N/A")
        let sc ← dictGet critique "specific_critiques" (.arr [])
        let sg ← dictGet critique "suggestions" (.arr [])
        pure ("\nCRITIQUE FEEDBACK:\n" ++ "Validity Score: " ++ pyStr v ++ "\n" ++
          "Novelty Score: " ++ pyStr n ++ "\n" ++ "Feasibility Score: " ++ pyStr f ++ "\n" ++
          "Specific Critiques: " ++ pyStr sc ++ "\n" ++ "Suggestions: " ++ pyStr sg ++ "\n")
    | none => pure ""
  else pure ""

/-- One hypothesis block of `_format_evolution_input` (the loop body,
lines 112-139). -/
def formatEvolutionOne (critiques : List Json) (i : Nat) (hyp : Json) : Except PyErr String := do
  let idv ← dictGet hyp "id" (.str "unknown")
  let t ← dictGet hyp "title" (.str "N/A")
  let d ← dictGet hyp "description" (.str "N/A")
  let r ← dictGet hyp "reasoning" (.str "N/A")
  let evoHist ←
    (do if ← pyContains hyp "evolution_type" then do
          let et ← dictGet hyp "evolution_type" (.str "N/A")
          let imp ← dictGet hyp "improvements" (.arr [])
          pure ("Previous Evolution: " ++ pyStr et ++ "\n" ++
            "Previous Improvements: " ++ pyStr imp ++ "\n")
        else pure "")
  let critSec ← formatEvoCritique critiques hyp
  pure ("Hypothesis " ++ toString (i + 1) ++ " (ID: " ++ pyStr idv ++ "):\n" ++
    "Title: " ++ pyStr t ++ "\n" ++ "Description: " ++ pyStr d ++ "\n" ++
    "Reasoning: " ++ pyStr r ++ "\n" ++ evoHist ++ critSec ++
    String.mk (List.replicate 70 '-') ++ "\n")

/-- `_format_evolution_input`, lines 108-141. -/
def formatEvolutionInput (hypotheses critiques : List Json) : Except PyErr String := do
  let chunks ← mapMEIdx (formatEvolutionOne critiques) 0 hypotheses
  pure ("HYPOTHESES TO EVOLVE:\n\n" ++ String.join chunks)

/-- The `for round_num in range(evolution_rounds)` loop of
`evolve_hypotheses` (lines 38-106): `remaining` counts rounds still to
run, `roundNum` is the 0-based index of the next round, and `resps`
supplies the model response of each round's `run` call. -/
def evolveLoop (P : Prompts) (ids : Nat → String) (critiques : List Json)
    (resps : Nat → String) : Nat → Nat → List Json → Nat →
    Except PyErr (List Json × Nat)
  | 0, _, current, k => .ok (current, k)
  | remaining + 1, roundNum, current, k => do
      let fmt ← formatEvolutionInput current critiques
      let q := P.evolutionTemplate fmt (roundNum + 1)
      let out := resps roundNum
      let meta := mkRunMeta "llama-3.3-70b-versatile" q out
      let (next, k') ← evolveOneRound ids k roundNum current out meta
      evolveLoop P ids critiques resps remaining (roundNum + 1) next k'

/-- `EvolutionAgent.evolve_hypotheses`, lines 21-106. -/
def evolveHypotheses (P : Prompts) (ids : Nat → String) (hypotheses critiques : List Json)
    (rounds : Nat) (resps : Nat → String) (k : Nat) : Except PyErr (List Json × Nat) :=
  evolveLoop P ids critiques resps rounds 0 hypotheses k

/-! ### ProximityAgent (src/agents/proximity_agent.py) -/

/-- The Tavily search collaborator: present or not, and when present an
oracle from the query list to raw results (external interface, §6 of the
spec). -/
structure SearchCfg where
  hasService : Bool
  serviceSearch : Json → Json

/-- Python string concatenation `title + " " + description`, which raises
TypeError unless both operands are strings. -/
def pyConcatWithSpace (a b : Json) : Except PyErr String :=
  match a, b with
  | .str x, .str y => .ok (x ++ " " ++ y)
  | _, _ => .error .typeError

/-- The fixed keyword vocabulary of `_extract_key_concepts` (lines
168-172). -/
def scientificKeywords : List String :=
  ["machine learning", "artificial intelligence", "quantum", "biomarker",
   "genetic", "protein", "algorithm", "neural network", "optimization",
   "modeling", "simulation", "experimental", "computational", "analysis"]

/-- `_extract_key_concepts`, lines 165-186: vocabulary scan over the
lower-cased text, plus up to 3 long purely-alphabetic words, truncated
to 5 concepts. -/
def extractKeyConcepts (text : String) : List String :=
  let textLower := pyLower text
  let found := scientificKeywords.filter
    (fun kw => pyFind textLower.toList kw.toList ≠ -1)
  let words := pySplitWs text.toList
  let important := (words.filter
      (fun w => w.length > 6 && !w.isEmpty && w.all Char.isAlpha)).map
    (fun w => String.mk ((w.dropWhile (fun c => c ∈ ['.', ',', '!', '?'])).reverse.dropWhile
      (fun c => c ∈ ['.', ',', '!', '?']) |>.reverse))
  (found ++ important.take 3).take 5

/-- `_perform_web_search`, lines 188-207: the Tavily service when
available, otherwise the deterministic placeholder results. -/
def performWebSearch (cfg : SearchCfg) (queries : Json) : Except PyErr Json := do
  if cfg.hasService then pure (cfg.serviceSearch queries)
  else do
    let qs ← pyIterate queries
    let results ← mapME (fun q => do
        pure (Json.obj [("query", q), ("title", .str ("Research on " ++ pyStr q)),
          ("summary", .str ("Recent developments in " ++ pyStr q ++
            " show promising advances in the field.")),
          ("source", .str "academic-search-engine.com"),
          ("relevance", .str "high")])) qs
    pure (.arr results)

/-- Lines 93-112: normalize one knowledge analysis and optionally attach
web search results. -/
def proxProcessOne (cfg : SearchCfg) (hypotheses : List Json) (meta : Json)
    (performSearch : Bool) (i : Nat) (analysis : Json) : Except PyErr Json := do
  let hid ← dictGetEager analysis "hypothesis_id"
      (if h : i < hypotheses.length then dictItem (hypotheses.get ⟨i, h⟩) "id"
       else .ok (.str ("unknown_" ++ toString i)))
  let kc ← dictGet analysis "key_concepts" (.arr [])
  let rf ← dictGet analysis "related_fields" (.arr [])
  let er ← dictGet analysis "existing_research" (.str "Research landscape analysis pending")
  let kg ← dictGet analysis "knowledge_gaps" (.str "Knowledge gap analysis pending")
  let mc ← dictGet analysis "methodological_connections" (.arr [])
  let ec ← dictGet analysis "expert_communities" (.arr [])
  let lr ← dictGet analysis "literature_recommendations" (.arr [])
  let sq ← dictGet analysis "search_queries" (.arr [])
  let base : Json := .obj [("hypothesis_id", hid), ("key_concepts", kc),
    ("related_fields", rf), ("existing_research", er), ("knowledge_gaps", kg),
    ("methodological_connections", mc), ("expert_communities", ec),
    ("literature_recommendations", lr), ("search_queries", sq), ("agent_metadata", meta)]
  if performSearch && pyTruthy sq then do
    let sliced ← pyTakeVal 3 sq
    let results ← performWebSearch cfg sliced
    dictUpdate base [("web_search_results", results)]
  else pure base

/-- Lines 67-114: the knowledge-retrieval `try` body. -/
def proxTryBody (cfg : SearchCfg) (hypotheses : List Json) (output : String)
    (meta : Json) (performSearch : Bool) : Except PyErr (List Json) := do
  let parsed ← toParsed (extractObj output)
  let analysesVal ←
    (do if ← pyContains parsed "knowledge_analysis" then dictItem parsed "knowledge_analysis"
        else if parsed.isArr then pure parsed
        else pure (.arr [parsed]))
  let analyses ← pyIterate analysesVal
  mapMEIdx (proxProcessOne cfg hypotheses meta performSearch) 0 analyses

/-- Lines 118-144: the per-hypothesis fallback knowledge analysis. -/
def proxFallbackOne (cfg : SearchCfg) (meta : Json) (performSearch : Bool)
    (hyp : Json) : Except PyErr Json := do
  let title ← dictGet hyp "title" (.str "")
  let description ← dictGet hyp "description" (.str "")
  let hid ← dictGet hyp "id" (.str "unknown")
  let text ← pyConcatWithSpace title description
  let t50 ← pyTakeVal 50 title
  let t30 ← pyTakeVal 30 title
  let sq : Json := .arr [t50, .str ("research methodology " ++ pyStr t30)]
  let base : Json := .obj [("hypothesis_id", hid),
    ("key_concepts", .arr ((extractKeyConcepts text).map Json.str)),
    ("related_fields", .arr [.str "Interdisciplinary research", .str "Applied sciences"]),
    ("existing_research", .str "Comprehensive literature review recommended"),
    ("knowledge_gaps", .str "Novel approach requiring further investigation"),
    ("methodological_connections", .arr [.str "Experimental validation", .str "Computational modeling"]),
    ("expert_communities", .arr [.str "Academic research institutions", .str "Industry R&D"]),
    ("literature_recommendations", .arr [.str "Recent peer-reviewed literature"]),
    ("search_queries", sq), ("agent_metadata", meta)]
  if performSearch && pyTruthy sq then do
    let sliced ← pyTakeVal 3 sq
    let results ← performWebSearch cfg sliced
    dictUpdate base [("web_search_results", results)]
  else pure base

/-- `ProximityAgent.retrieve_knowledge`, lines 45-144; the handler
catches `(json.JSONDecodeError, KeyError)`. -/
def retrieveKnowledge (cfg : SearchCfg) (hypotheses : List Json) (output : String)
    (meta : Json) (performSearch : Bool) : Except PyErr (List Json) :=
  runCatching [.jsonDecodeError, .keyError]
    (proxTryBody cfg hypotheses output meta performSearch)
    (mapME (proxFallbackOne cfg meta performSearch) hypotheses)

/-- One hypothesis block of `_format_knowledge_input` (the loop body,
lines 148-161). -/
def formatKnowledgeOne (i : Nat) (hyp : Json) : Except PyErr String := do
  let idv ← dictGet hyp "id" (.str "unknown")
  let t ← dictGet hyp "title" (.str "N/A")
  let d ← dictGet hyp "description" (.str "N/A")
  let r ← dictGet hyp "reasoning" (.str "N/A")
  let ra ←
    (do if ← pyContains hyp "research_approach" then do
          let v ← dictGet hyp "research_approach" (.str "N/A")
          pure ("Research Approach: " ++ pyStr v ++ "\n")
        else pure "")
  pure ("Hypothesis " ++ toString (i + 1) ++ " (ID: " ++ pyStr idv ++ "):\n" ++
    "Title: " ++ pyStr t ++ "\n" ++ "Description: " ++ pyStr d ++ "\n" ++
    "Reasoning: " ++ pyStr r ++ "\n" ++ ra ++
    String.mk (List.replicate 60 '-') ++ "\n")

/-- `_format_knowledge_input`, lines 146-163. -/
def formatKnowledgeInput (hypotheses : List Json) : Except PyErr String := do
  let chunks ← mapMEIdx formatKnowledgeOne 0 hypotheses
  pure ("HYPOTHESES FOR KNOWLEDGE GROUNDING:\n\n" ++ String.join chunks)

/-! ### MetaReviewAgent (src/agents/meta_review_agent.py) -/

/-- Lines 72-85: normalize one final review from the parsed output. -/
def metaProcessOne (hypotheses : List Json) (meta : Json) (i : Nat) (review : Json) :
    Except PyErr Json := do
  let hid ← dictGetEager review "hypothesis_id"
      (if h : i < hypotheses.length then dictItem (hypotheses.get ⟨i, h⟩) "id"
       else .ok (.str ("unknown_" ++ toString i)))
  let fa ← dictGet review "final_assessment" (.str "Comprehensive review pending")
  let cr ← pyFloat (← dictGet review "confidence_rating" (.num 0.7))
  let ep ← dictGet review "experimental_plan" (.obj [])
  let rr ← dictGet review "resource_requirements" (.obj [])
  let tl ← dictGet review "timeline" (.str "Timeline to be determined")
  let rf ← dictGet review "risk_factors" (.arr [])
  let sm ← dictGet review "success_metrics" (.arr [])
  let cc ← dictGet review "collaboration_recommendations" (.arr [])
  pure (.obj [("hypothesis_id", hid), ("final_assessment", fa),
    ("confidence_rating", .num cr), ("experimental_plan", ep),
    ("resource_requirements", rr), ("timeline", tl), ("risk_factors", rf),
    ("success_metrics", sm), ("collaboration_recommendations", cc),
    ("agent_metadata", meta)])

/-- Lines 51-92: the meta-review `try` body; note `parsed.get` raises
AttributeError (uncaught) when the parsed value is not a dict. -/
def metaTryBody (hypotheses : List Json) (output : String) (meta : Json) :
    Except PyErr Json := do
  let parsed ← toParsed (extractObj output)
  let finalReviewsVal ← dictGet parsed "final_reviews" (.arr [])
  let finalReviews ← pyIterate finalReviewsVal
  let processed ← mapMEIdx (metaProcessOne hypotheses meta) 0 finalReviews
  let rp ← dictGet parsed "research_priorities" (.str "Prioritization analysis pending")
  let oa ← dictGet parsed "overall_assessment" (.str "Overall portfolio assessment pending")
  pure (.obj [("final_reviews", .arr processed), ("research_priorities", rp),
    ("overall_assessment", oa), ("meta_review_metadata", meta)])

/-- Lines 96-117: one fallback final review. -/
def metaFallbackOne (meta : Json) (hyp : Json) : Except PyErr Json := do
  let hid ← dictGet hyp "id" (.str "unknown")
  pure (.obj [("hypothesis_id", hid),
    ("final_assessment", .str "Comprehensive meta-review analysis needed"),
    ("confidence_rating", .num 0.7),
    ("experimental_plan", .obj [
      ("phase_1", .str "Literature review and preliminary validation"),
      ("phase_2", .str "Experimental design and pilot studies"),
      ("phase_3", .str "Full implementation and validation")]),
    ("resource_requirements", .obj [
      ("personnel", .arr [.str "Research scientists", .str "Technical specialists"]),
      ("equipment", .arr [.str "Standard laboratory equipment"]),
      ("funding", .str "Medium-scale research budget")]),
    ("timeline", .str "12-24 months for initial validation"),
    ("risk_factors", .arr [.str "Technical challenges", .str "Resource constraints"]),
    ("success_metrics", .arr [.str "Proof of concept demonstration", .str "Peer review publication"]),
    ("collaboration_recommendations", .arr [.str "Academic partnerships", .str "Industry collaboration"]),
    ("agent_metadata", meta)])

/-- `MetaReviewAgent.final_review`, lines 27-124; the handler catches
`(json.JSONDecodeError, KeyError, ValueError)`. -/
def finalReview (hypotheses : List Json) (output : String) (meta : Json) :
    Except PyErr Json :=
  runCatching [.jsonDecodeError, .keyError, .valueError]
    (metaTryBody hypotheses output meta)
    (do
      let l ← mapME (metaFallbackOne meta) hypotheses
      pure (.obj [("final_reviews", .arr l),
        ("research_priorities", .str "All hypotheses show promise and warrant investigation"),
        ("overall_assessment", .str "Solid portfolio of research directions with good potential"),
        ("meta_review_metadata", meta)]))

/-- Lines 143-148 of `_format_meta_review_input`: the ranking section
(note: keyed by the ranking's `id`, not `hypothesis_id`). -/
def formatMetaRanking (rankings : List Json) (hyp : Json) : Except PyErr String := do
  if !rankings.isEmpty then do
    let ropt ← pyFirstMatch (idMatch "id" hyp) rankings
    match ropt with
    | some ranking => do
        let rk ← dictGet ranking "rank" (.str "N/A")
        let fsco ← dictGet ranking "final_score" (.str "N/A")
        let rj ← dictGet ranking "ranking_justification" (.str "N/A")
        pure ("Rank: " ++ pyStr rk ++ "\n" ++ "Final Score: " ++ pyStr fsco ++ "\n" ++
          "Ranking Justification: " ++ pyStr rj ++ "\n")
    | none => pure ""
  else pure ""

/-- Lines 151-160 of `_format_meta_review_input`: the critique section. -/
def formatMetaCritique (critiques : List Json) (hyp : Json) : Except PyErr String := do
  if !critiques.isEmpty then do
    let copt ← pyFirstMatch (idMatch "hypothesis_id" hyp) critiques
    match copt with
    | some critique => do
        let oa ← dictGet critique "overall_assessment" (.str "N/A")
        let v ← dictGet critique "validity_score" (.str "N/A")
        let n ← dictGet critique "novelty_score" (.str "N/A")
        let f ← dictGet critique "feasibility_score" (.str "N/A")
        let im ← dictGet critique "impact_score" (.str "N/A")
        let sg ← dictGet critique "suggestions" (.arr [])
        pure ("\nCRITIQUE ANALYSIS:\n" ++ "Overall Assessment: " ++ pyStr oa ++ "\n" ++
          "Scores - Validity: " ++ pyStr v ++ ", " ++ "Novelty: " ++ pyStr n ++ ", " ++
          "Feasibility: " ++ pyStr f ++ ", " ++ "Impact: " ++ pyStr im ++ "\n" ++
          "Suggestions: " ++ pyStr sg ++ "\n")
    | none => pure ""
  else pure ""

/-- One hypothesis block of `_format_meta_review_input` (the loop body,
lines 130-169). -/
def formatMetaReviewOne (critiques rankings : List Json) (i : Nat) (hyp : Json) :
    Except PyErr String := do
  let idv ← dictGet hyp "id" (.str "unknown")
  let t ← dictGet hyp "title" (.str "N/A")
  let d ← dictGet hyp "description" (.str "N/A")
  let r ← dictGet hyp "reasoning" (.str "N/A")
  let rankSec ← formatMetaRanking rankings hyp
  let critSec ← formatMetaCritique critiques hyp
  let evoSec ←
    (do if ← pyContains hyp "evolution_type" then do
          let et ← dictGet hyp "evolution_type" (.str "N/A")
          let imp ← dictGet hyp "improvements" (.arr [])
          let ej ← dictGet hyp "evolution_justification" (.str "N/A")
          pure ("\nEVOLUTION HISTORY:\n" ++ "Evolution Type: " ++ pyStr et ++ "\n" ++
            "Improvements: " ++ pyStr imp ++ "\n" ++
            "Evolution Justification: " ++ pyStr ej ++ "\n")
        else pure "")
  pure ("Hypothesis " ++ toString (i + 1) ++ " (ID: " ++ pyStr idv ++ "):\n" ++
    "Title: " ++ pyStr t ++ "\n" ++ "Description: " ++ pyStr d ++ "\n" ++
    "Reasoning: " ++ pyStr r ++ "\n" ++ rankSec ++ critSec ++ evoSec ++
    String.mk (List.replicate 80 '=') ++ "\n")

/-- `_format_meta_review_input`, lines 126-171. -/
def formatMetaReviewInput (hypotheses critiques rankings : List Json) :
    Except PyErr String := do
  let chunks ← mapMEIdx (formatMetaReviewOne critiques rankings) 0 hypotheses
  pure ("HYPOTHESES FOR FINAL META-REVIEW:\n\n" ++ String.join chunks)

/-- The hypothesis formatting of `ReflectionAgent.critique_hypotheses`,
lines 38-45. -/
def formatReflectionOne (i : Nat) (hyp : Json) : Except PyErr String := do
  let idv ← dictGet hyp "id" (.str "unknown")
  let t ← dictGet hyp "title" (.str "N/A")
  let d ← dictGet hyp "description" (.str "N/A")
  let r ← dictGet hyp "reasoning" (.str "N/A")
  let ra ← dictGet hyp "research_approach" (.str "N/A")
  pure ("\nHypothesis " ++ toString (i + 1) ++ " (ID: " ++ pyStr idv ++ "):\n" ++
    "Title: " ++ pyStr t ++ "\n" ++ "Description: " ++ pyStr d ++ "\n" ++
    "Reasoning: " ++ pyStr r ++ "\n" ++ "Research Approach: " ++ pyStr ra ++ "\n" ++
    String.mk (List.replicate 50 '-'))

/-- The chunk loop of the reflection input formatting. -/
def formatReflectionInput (hypotheses : List Json) : Except PyErr String := do
  let chunks ← mapMEIdx formatReflectionOne 0 hypotheses
  pure (String.join chunks)

/-- The critique-scores section of the ranking input, lines 52-59. -/
def formatRankCritique (critiques : List Json) (hyp : Json) : Except PyErr String := do
  if !critiques.isEmpty then do
    let copt ← pyFirstMatch (idMatch "hypothesis_id" hyp) critiques
    match copt with
    | some critique => do
        let v ← dictGet critique "validity_score" (.str "N/A")
        let n ← dictGet critique "novelty_score" (.str "N/A")
        let f ← dictGet critique "feasibility_score" (.str "N/A")
        let im ← dictGet critique "impact_score" (.str "N/A")
        let oa ← dictGet critique "overall_assessment" (.str "N/A")
        pure ("Critique Scores: Validity=" ++ pyStr v ++ ", " ++ "Novelty=" ++ pyStr n ++
          ", " ++ "Feasibility=" ++ pyStr f ++ ", " ++ "Impact=" ++ pyStr im ++ "\n" ++
          "Assessment: " ++ pyStr oa ++ "\n")
    | none => pure ""
  else pure ""

/-- The ranking input formatting of `RankingAgent.rank_hypotheses`,
lines 43-61. -/
def formatRankingOne (critiques : List Json) (i : Nat) (hyp : Json) : Except PyErr String := do
  let idv ← dictGet hyp "id" (.str "unknown")
  let t ← dictGet hyp "title" (.str "N/A")
  let d ← dictGet hyp "description" (.str "N/A")
  let r ← dictGet hyp "reasoning" (.str "N/A")
  let critSec ← formatRankCritique critiques hyp
  pure ("Hypothesis " ++ toString (i + 1) ++ " (ID: " ++ pyStr idv ++ "):\n" ++
    "Title: " ++ pyStr t ++ "\n" ++ "Description: " ++ pyStr d ++ "\n" ++
    "Reasoning: " ++ pyStr r ++ "\n" ++ critSec ++
    String.mk (List.replicate 60 '-') ++ "\n")

/-- The chunk loop of the ranking input formatting. -/
def formatRankingInput (hypotheses critiques : List Json) : Except PyErr String := do
  let chunks ← mapMEIdx (formatRankingOne critiques) 0 hypotheses
  pure ("HYPOTHESES TO RANK:\n\n" ++ String.join chunks)

/-! ### BaseCoScientistAgent (src/agents/base_agent.py) -/

/-- The model-invocation collaborators visible to `generate_response`:
availability of the deployed-Gemma helper and the GROQ client, and the
outcome of each possible outbound call (an error value models a raised
exception). -/
structure LLMEnv where
  askGemmaAvailable : Bool
  groqAvailable : Bool
  gemmaCall : String → Except String String
  groqCall : String → String → String → Except String String
  adkCall : String → Except String String

/-- The statically configured identity of one agent. -/
structure AgentCfg where
  name : String
  sysPrompt : String
  model : String

/-- `generate_response`, lines 49-106: route to the model backend named
by `self._actual_model`; any exception falls back to GROQ Llama, and a
failing fallback yields the error-text string (never an exception). -/
def generateResponse (a : AgentCfg) (env : LLMEnv) (prompt : String) : String :=
  let primary : Except String String :=
    if a.model = "gemma3:12b" then
      if !env.askGemmaAvailable then
        .ok ("[TEST MODE] Would use deployed Gemma 12B for: " ++
          String.mk (pySlice prompt.toList 0 50) ++ "...")
      else
        env.gemmaCall (if a.sysPrompt ≠ "" then
          "System: " ++ a.sysPrompt ++ "\n\nUser: " ++ prompt else prompt)
    else if leadsWith "llama-".toList a.model.toList ||
        leadsWith "gemma2-".toList a.model.toList ||
        leadsWith "qwen/".toList a.model.toList then
      if !env.groqAvailable then
        .ok ("[TEST MODE] Would use GROQ " ++ a.model ++ " for: " ++
          String.mk (pySlice prompt.toList 0 50) ++ "...")
      else env.groqCall a.sysPrompt prompt a.model
    else
      .ok (match env.adkCall prompt with
        | .ok r => r
        | .error _ => "[TEST MODE] Would use ADK default model for: " ++
            String.mk (pySlice prompt.toList 0 50) ++ "...")
  match primary with
  | .ok r => r
  | .error e =>
      if !env.groqAvailable then
        "[TEST MODE] Fallback would use GROQ Llama for: " ++
          String.mk (pySlice prompt.toList 0 50) ++ "..."
      else
        match env.groqCall a.sysPrompt prompt "llama-3.3-70b-versatile" with
        | .ok r => r
        | .error _ => "[TEST MODE] Error: Unable to generate response - " ++ e

/-- The result dictionary of `BaseCoScientistAgent.run`. -/
structure RunResult where
  agent_name : String
  output : String
  metadata : Json

/-- `run`, lines 108-145: optional context prefixing, then
`generate_response`; the body cannot raise (every exception inside
`generate_response` is already converted to a string), so the
`except` arm of lines 139-145 is dead code and the result always carries
the three-key metadata of lines 129-137. -/
def agentRun (a : AgentCfg) (env : LLMEnv) (inputData : String) (context : Option Json) :
    RunResult :=
  let enhanced :=
    match context with
    | some ctx => "Context: " ++ pyStr ctx ++ "\n\nInput: " ++ inputData
    | none => inputData
  let response := generateResponse a env enhanced
  { agent_name := a.name
    output := response
    metadata := .obj [("model_used", .str a.model),
      ("input_length", .num inputData.length), ("output_length", .num response.length)] }

/-! ### SmartOrchestrator (src/agents/smart_orchestrator.py) -/

/-- Modelled from the spec: the `MODEL_STRENGTHS` registry is imported
from `utils/config.py`, but that file (in src/utils/config.py) does not
define it; §2 of the spec describes it as "a static table mapping a
model identifier to a human-readable capability description", and §4.3
requires the static rule table's models (and the default recommendation)
to exist in it.  The identifiers are the ones the source's fallback
table and default use. -/
def MODEL_STRENGTHS : List (String × String) :=
  [("llama-3.3-70b", "complex reasoning and creative hypothesis generation"),
   ("mistral-7b", "specialized analysis and critical evaluation"),
   ("qwen-3-32b", "advanced mathematical and logical reasoning"),
   ("llama-4-scout", "exploration and discovery for knowledge search"),
   ("claude-opus-4", "comprehensive analysis and synthesis"),
   ("gpt-o3-mini", "workflow orchestration and task coordination"),
   ("gemini-2.5-pro", "advanced multimodal reasoning and visual analysis"),
   ("gemma-3-12b", "efficient processing with optimized performance"),
   ("deepseek-r1", "deep reasoning and reflection")]

/-- A model recommendation as assembled by the orchestrator. -/
structure Recommendation where
  task_type : String
  task_description : String
  task_analysis : String
  recommended_model : String
  reasoning : String
  confidence : ℚ
  alternatives : Json
  fallback_used : Bool

/-- `_get_fallback_recommendation`, lines 177-248: the static rule table
keyed by task type, defaulting to the generation entry. -/
def fallbackMappings : List (String × String × String) :=
  [("hypothesis_generation", "llama-3.3-70b", "Complex reasoning and creative hypothesis generation capabilities"),
   ("hypothesis_critique", "mistral-7b", "Specialized analysis and critical evaluation skills"),
   ("hypothesis_ranking", "qwen-3-32b", "Advanced mathematical and logical reasoning for ranking criteria"),
   ("hypothesis_evolution", "llama-3.3-70b", "Complex reasoning needed for hypothesis refinement"),
   ("knowledge_retrieval", "llama-4-scout", "Exploration and discovery capabilities for knowledge search"),
   ("meta_review", "claude-opus-4", "Comprehensive analysis and synthesis capabilities"),
   ("workflow_coordination", "gpt-o3-mini", "Workflow orchestration and task coordination strengths"),
   ("mathematical_analysis", "qwen-3-32b", "Strong mathematical and quantitative reasoning capabilities"),
   ("multimodal_processing", "gemini-2.5-pro", "Advanced multimodal reasoning and visual analysis"),
   ("fast_processing", "gemma-3-12b", "Efficient processing with optimized performance"),
   ("deep_reasoning", "deepseek-r1", "Deep reasoning and reflection capabilities")]

/-- Association lookup in the rule table. -/
def lookupMapping (taskType : String) : List (String × String × String) → Option (String × String)
  | [] => none
  | (t, m, r) :: rest => if t = taskType then some (m, r) else lookupMapping taskType rest

/-- `_get_fallback_recommendation`: `fallback_mappings.get(task_type,
fallback_mappings["hypothesis_generation"])`. -/
def getFallbackRecommendation (taskType taskDescription : String) : Recommendation :=
  let (m, r) := (lookupMapping taskType fallbackMappings).getD
    ("llama-3.3-70b", "Complex reasoning and creative hypothesis generation capabilities")
  { task_type := taskType
    task_description := taskDescription
    task_analysis := "Fallback analysis for " ++ taskType ++ ": " ++
      String.mk (pySlice taskDescription.toList 0 100) ++ "..."
    recommended_model := m
    reasoning := "Fallback recommendation: " ++ r
    confidence := 0.7
    alternatives := .arr [
      .obj [("model", .str "llama-3.3-70b"), ("reason", .str "General-purpose alternative with strong reasoning")],
      .obj [("model", .str "claude-opus-4"), ("reason", .str "Comprehensive analysis alternative")]]
    fallback_used := true }

/-- `_validate_recommendation`, lines 149-175: fill defaults, then
replace the whole recommendation with the static fallback when the
recommended model is not in the registry. -/
def validateRecommendation (recommendation : Json) (taskType taskDescription : String) :
    Except PyErr Recommendation := do
  let ta ← dictGet recommendation "task_analysis" (.str "Analysis pending")
  let rm ← dictGet recommendation "recommended_model" (.str "llama-3.3-70b")
  let rs ← dictGet recommendation "reasoning" (.str "Default selection based on task type")
  let conf ← pyFloat (← dictGet recommendation "confidence" (.num 0.8))
  let alts ← dictGet recommendation "alternatives" (.arr [])
  let validated : Recommendation :=
    { task_type := taskType, task_description := taskDescription
      task_analysis := pyStr ta, recommended_model := pyStr rm, reasoning := pyStr rs
      confidence := conf, alternatives := alts, fallback_used := false }
  if (MODEL_STRENGTHS.map Prod.fst).contains validated.recommended_model then
    pure validated
  else
    pure { getFallbackRecommendation taskType taskDescription with fallback_used := true }

/-- `analyze_and_assign_model`, lines 63-113: call the advisor model,
extract and validate; `except Exception` routes every failure (call
error, parse error, bad field types) to the static fallback. -/
def analyzeAndAssignModel (callResult : Except PyErr String)
    (taskType taskDescription : String) : Recommendation :=
  let body : Except PyErr Recommendation := do
    let response ← callResult
    let parsed ← toParsed (extractObj response)
    validateRecommendation parsed taskType taskDescription
  match body with
  | .ok r => r
  | .error _ => getFallbackRecommendation taskType taskDescription

/-! ### Pydantic models (src/utils/models.py) and response assembly -/

/-- Pydantic lax coercion into a `str` field (no number-to-string
coercion; a failure is a `ValidationError`, a `ValueError` subclass). -/
def pydStr : Json → Except PyErr String
  | .str s => .ok s
  | _ => .error .valueError

/-- Pydantic lax coercion into a `float` field (numbers and numeric
strings; booleans and everything else are rejected). -/
def pydFloat : Json → Except PyErr ℚ
  | .num q => .ok q
  | .str s =>
      match pyFloatBody (pyStrip s.toList) with
      | some q => .ok q
      | none => .error .valueError
  | _ => .error .valueError

/-- Pydantic lax coercion into a `List[str]` field. -/
def pydStrList : Json → Except PyErr (List String)
  | .arr l => mapME pydStr l
  | _ => .error .valueError

/-- The `Hypothesis` pydantic model (src/utils/models.py lines 17-26);
timestamps and durations are wall-clock effects and are not modelled. -/
structure HypothesisM where
  id : String
  title : String
  description : String
  reasoning : String
  novelty_score : ℚ
  feasibility_score : ℚ
  confidence_score : ℚ
  experimental_plan : String
  citations : List String

/-- The `AgentOutput` pydantic model. -/
structure AgentOutputM where
  agent_name : String
  output : String
  metadata : Json

/-- The `ProcessingStep` pydantic model (start/end times and durations
are wall-clock effects, not modelled). -/
structure ProcessingStepM where
  step_name : String
  status : String
  agent_outputs : List AgentOutputM

/-- The `QueryResponse` pydantic model (`total_processing_time` is a
wall-clock effect, not modelled). -/
structure QueryResponseM where
  query_id : String
  original_query : String
  hypotheses : List HypothesisM
  processing_steps : List ProcessingStepM
  summary : String
  recommendations : List String

/-! ### AICoScientistWorkflow (src/agents/workflow_orchestrator.py) -/

/-- `_convert_to_hypothesis_objects`, lines 276-324, for one hypothesis
dict: match up critique/review/knowledge by id, build the experimental
plan text and citations, and construct the pydantic `Hypothesis`.  The
`id` default `str(uuid.uuid4())` is evaluated eagerly per iteration. -/
def convertOne (ids : Nat → String) (critiquesData knowledgeData reviewsData : List Json)
    (k : Nat) (i : Nat) (hypData : Json) : Except PyErr HypothesisM := do
  let copt ← pyFirstMatch (idMatch "hypothesis_id" hypData) critiquesData
  let critique := copt.getD (.obj [])
  let ropt ← pyFirstMatch (idMatch "hypothesis_id" hypData) reviewsData
  let review := ropt.getD (.obj [])
  let kopt ← pyFirstMatch (idMatch "hypothesis_id" hypData) knowledgeData
  let knowledge := kopt.getD (.obj [])
  let plan ←
    (do if ← pyContains review "experimental_plan" then do
          let planD ← dictItem review "experimental_plan"
          match planD with
          | .obj fs => pure ("Step-by-step experimental plan:\n" ++
              String.join (fs.map (fun kv => kv.1 ++ ": " ++ pyStr kv.2 ++ "\n")))
          | other => pure ("Step-by-step experimental plan:\n" ++ pyStr other)
        else do
          let ra ← dictGet hypData "research_approach"
            (.str "Experimental approach to be determined")
          match ra with
          | .str s => pure ("Step-by-step experimental plan:\n" ++ s)
          | _ => .error .typeError)
  let citationsJ ← dictGet knowledge "literature_recommendations" (.arr [])
  let citationsJ := if !(pyTruthy citationsJ) then
      Json.arr [.str "Literature review pending", .str "Domain-specific references needed"]
    else citationsJ
  let idJ ← dictGetEager hypData "id" (.ok (.str (ids (k + i))))
  let titleJ ← dictGet hypData "title" (.str "Untitled Hypothesis")
  let descJ ← dictGet hypData "description" (.str "")
  let reasJ ← dictGet hypData "reasoning" (.str "")
  let novJ ← dictGet critique "novelty_score" (.num 0.7)
  let feaJ ← dictGet critique "feasibility_score" (.num 0.7)
  let confJ ← dictGet review "confidence_rating" (.num 0.7)
  let idS ← pydStr idJ
  let titleS ← pydStr titleJ
  let descS ← pydStr descJ
  let reasS ← pydStr reasJ
  let novQ ← pydFloat novJ
  let feaQ ← pydFloat feaJ
  let confQ ← pydFloat confJ
  let cits ← pydStrList citationsJ
  pure (HypothesisM.mk idS titleS descS reasS novQ feaQ confQ plan cits)

/-- `_convert_to_hypothesis_objects`, lines 265-326. -/
def convertToHypothesisObjects (ids : Nat → String) (k : Nat)
    (hypothesesData critiquesData knowledgeData reviewsData : List Json) :
    Except PyErr (List HypothesisM × Nat) := do
  let objs ← mapMEIdx (convertOne ids critiquesData knowledgeData reviewsData k) 0 hypothesesData
  pure (objs, k + hypothesesData.length)

/-- Python `format(x, ".2f")` on an exact rational (round to two
decimal places). -/
def formatQ2 (q : ℚ) : String :=
  let n : Int := ⌊q * 100 + 1 / 2⌋
  let whole := n / 100
  let frac := (n % 100).toNat
  toString whole ++ "." ++ (if frac < 10 then "0" else "") ++ toString frac

/-- `_generate_summary`, lines 328-339: the summary sentence, whose
average-confidence term divides by `len(hypotheses)` — a
ZeroDivisionError when the final hypothesis list is empty. -/
def generateSummary (query : String) (hyps : List HypothesisM) (reviews : List Json) :
    Except PyErr String :=
  if hyps.length = 0 then .error .zeroDivisionError
  else .ok ("Generated " ++ toString hyps.length ++ " novel hypotheses addressing: " ++
    query ++ ". " ++
    "Hypotheses underwent multi-agent analysis including generation (Gemma 3 12B), " ++
    "critique (OpenAI o3-mini), ranking (Gemma 2 9B), evolution (Llama 3.3 70B), " ++
    "and final meta-review (o3-mini). Average confidence: " ++
    formatQ2 ((hyps.map (fun h => h.confidence_score)).sum / hyps.length))

/-- The six fixed boilerplate recommendations of
`AICoScientistWorkflow._generate_recommendations`, lines 347-354. -/
def baseRecommendations : List String :=
  ["Conduct comprehensive literature review for each hypothesis",
   "Prioritize hypotheses based on confidence scores and feasibility",
   "Seek domain expert validation and feedback",
   "Design pilot studies for highest-ranked hypotheses",
   "Consider interdisciplinary collaboration opportunities",
   "Plan iterative hypothesis refinement based on initial results"]

/-- Lines 357-360: collect up to 2 collaboration recommendations per
review, in review order. -/
def collabRecsLoop : List Json → Except PyErr (List String)
  | [] => .ok []
  | review :: rest => do
      let cr ← dictGet review "collaboration_recommendations" (.arr [])
      let sliced ← pyTakeVal 2 cr
      let items ← pyIterate sliced
      let strs := items.map (fun rec => "Consider collaboration: " ++ pyStr rec)
      let more ← collabRecsLoop rest
      pure (strs ++ more)

/-- `_generate_recommendations`, lines 341-362 (the trailing `[:8]` caps
the list at 8 entries). -/
def generateRecommendations (hyps : List HypothesisM) (reviews : List Json) :
    Except PyErr (List String) := do
  let extra ← collabRecsLoop reviews
  pure ((baseRecommendations ++ extra).take 8)

/-- The seven fixed boilerplate recommendations of
`EnhancedAICoScientistWorkflow._generate_recommendations`
(src/agents/enhanced_workflow_orchestrator.py lines 566-574). -/
def enhancedBaseRecommendations : List String :=
  baseRecommendations ++ ["Leverage intelligent model assignment for future analyses"]

/-- `EnhancedAICoScientistWorkflow._generate_recommendations`, lines
564-582: identical shape with the seven-entry boilerplate. -/
def enhancedGenerateRecommendations (hyps : List HypothesisM) (reviews : List Json) :
    Except PyErr (List String) := do
  let extra ← collabRecsLoop reviews
  pure ((enhancedBaseRecommendations ++ extra).take 8)

/-- Extract the element list from a value that is an array by
construction (the step-metadata round-trips of the orchestrator store
lists and immediately read them back). -/
def jsonElems (j : Json) : List Json :=
  match j with
  | .arr l => l
  | other => [other]

/-- The per-stage model responses of one pipeline run: one raw text per
`run` call (the evolution stage makes one call per round). -/
structure StageResponses where
  gen : String
  prox : String
  crit : String
  rank1 : String
  evo : Nat → String
  rank2 : String
  metaRev : String

/-- Workflow configuration (lines 33-35 of workflow_orchestrator.py set
`evolution_rounds = 1` and `enable_knowledge_retrieval = True`). -/
structure WorkflowCfg where
  evolutionRounds : Nat
  enableKnowledgeRetrieval : Bool
  search : SearchCfg

/-- `_run_generation_step`, lines 112-133.  The stage data is returned
directly alongside the step record; the source stores it in the step's
metadata and immediately reads it back (an identity round-trip). -/
def runGenerationStep (P : Prompts) (ids : Nat → String) (k : Nat) (query : String)
    (maxH : Nat) (resp : String) : Except PyErr (ProcessingStepM × List Json × Nat) := do
  let enhanced := P.generationTemplate query maxH
  let meta := mkRunMeta "gemma3:12b" enhanced resp
  let (hyps, k') ← generateHypotheses ids k query maxH resp meta
  pure (⟨"hypothesis_generation", "completed",
    [⟨"generation_agent",
      "Generated " ++ toString hyps.length ++ " novel hypotheses using Gemma 3 12B",
      .obj [("hypotheses", .arr hyps), ("model", .str "gemma3:12b")]⟩]⟩, hyps, k')

/-- `_run_proximity_step`, lines 135-156. -/
def runProximityStep (P : Prompts) (cfg : SearchCfg) (hyps : List Json) (resp : String) :
    Except PyErr (ProcessingStepM × List Json) := do
  let fmt ← formatKnowledgeInput hyps
  let meta := mkRunMeta "meta-llama/llama-4-scout-17b-16e-instruct" (P.knowledgeTemplate fmt) resp
  let analyses ← retrieveKnowledge cfg hyps resp meta true
  pure (⟨"knowledge_retrieval", "completed",
    [⟨"proximity_agent",
      "Retrieved knowledge context for " ++ toString hyps.length ++ " hypotheses",
      .obj [("knowledge_analyses", .arr analyses), ("model", .str "gemma2-9b-it")]⟩]⟩, analyses)

/-- `_run_reflection_step`, lines 158-179. -/
def runReflectionStep (P : Prompts) (hyps : List Json) (resp : String) :
    Except PyErr (ProcessingStepM × List Json) := do
  let fmt ← formatReflectionInput hyps
  let meta := mkRunMeta "llama-3.3-70b-versatile" (P.critiqueTemplate fmt) resp
  let critiques ← critiqueHypotheses hyps resp meta
  pure (⟨"hypothesis_critique", "completed",
    [⟨"reflection_agent",
      "Critiqued " ++ toString hyps.length ++ " hypotheses using OpenAI o3-mini",
      .obj [("critiques", .arr critiques), ("model", .str "o3-mini")]⟩]⟩, critiques)

/-- `_run_ranking_step`, lines 181-206. -/
def runRankingStep (P : Prompts) (hyps critiques : List Json) (resp : String) :
    Except PyErr (ProcessingStepM × List Json) := do
  let fmt ← formatRankingInput hyps critiques
  let meta := mkRunMeta "qwen/qwen3-32b" (P.rankingTemplate fmt) resp
  let ranked ← rankHypotheses hyps critiques resp meta
  pure (⟨"hypothesis_ranking", "completed",
    [⟨"ranking_agent",
      "Ranked " ++ toString hyps.length ++ " hypotheses by novelty and feasibility",
      .obj [("ranked_hypotheses", .arr ranked), ("model", .str "gemma2-9b-it")]⟩]⟩, ranked)

/-- `_run_evolution_step`, lines 208-235. -/
def runEvolutionStep (P : Prompts) (ids : Nat → String) (k : Nat)
    (hyps critiques : List Json) (rounds : Nat) (resps : Nat → String) :
    Except PyErr (ProcessingStepM × List Json × Nat) := do
  let (evolved, k') ← evolveHypotheses P ids hyps critiques rounds resps k
  pure (⟨"hypothesis_evolution", "completed",
    [⟨"evolution_agent",
      "Evolved " ++ toString hyps.length ++ " hypotheses through " ++
        toString rounds ++ " rounds",
      .obj [("evolved_hypotheses", .arr evolved), ("model", .str "llama-3.3-70b-versatile")]⟩]⟩,
    evolved, k')

/-- `_run_meta_review_step`, lines 237-263. -/
def runMetaReviewStep (P : Prompts) (hyps critiques rankings : List Json) (resp : String) :
    Except PyErr (ProcessingStepM × List Json) := do
  let fmt ← formatMetaReviewInput hyps critiques rankings
  let meta := mkRunMeta "llama-3.3-70b-versatile" (P.metaReviewTemplate fmt) resp
  let result ← finalReview hyps resp meta
  let frs ← dictItem result "final_reviews"
  pure (⟨"meta_review_and_planning", "completed",
    [⟨"meta_review_agent",
      "Completed final review and experimental planning for " ++
        toString hyps.length ++ " hypotheses",
      .obj [("final_reviews", frs), ("model", .str "o3-mini")]⟩]⟩, jsonElems frs)

/-- `AICoScientistWorkflow.process_scientific_query`, lines 37-110:
sequence the stages, thread outputs forward, and assemble the
`QueryResponse`.  `ids 0` models the `str(uuid.uuid4())` query id. -/
def processScientificQuery (P : Prompts) (ids : Nat → String) (cfg : WorkflowCfg)
    (R : StageResponses) (query : String) (maxH : Nat) : Except PyErr QueryResponseM := do
  let queryId := ids 0
  let (genStep, hypothesesData, k₁) ← runGenerationStep P ids 1 query maxH R.gen
  let (steps₂, knowledgeData) ←
    (if cfg.enableKnowledgeRetrieval then do
      let (proxStep, kd) ← runProximityStep P cfg.search hypothesesData R.prox
      pure ([genStep, proxStep], kd)
    else pure ([genStep], ([] : List Json)))
  let (reflStep, critiquesData) ← runReflectionStep P hypothesesData R.crit
  let (rankStep, rankedHypotheses) ← runRankingStep P hypothesesData critiquesData R.rank1
  let (steps₅, finalHypotheses, k₂) ←
    (if cfg.evolutionRounds > 0 then do
      let (evoStep, evolved, k') ← runEvolutionStep P ids k₁ (rankedHypotheses.take 3)
        critiquesData cfg.evolutionRounds R.evo
      let (rankStep2, finals) ← runRankingStep P evolved critiquesData R.rank2
      pure (steps₂ ++ [reflStep, rankStep, evoStep, rankStep2], finals, k')
    else pure (steps₂ ++ [reflStep, rankStep], rankedHypotheses, k₁))
  let (metaStep, finalReviews) ← runMetaReviewStep P finalHypotheses critiquesData
    rankedHypotheses R.metaRev
  let steps := steps₅ ++ [metaStep]
  let (finalObjs, _) ← convertToHypothesisObjects ids k₂ finalHypotheses critiquesData
    knowledgeData finalReviews
  let summary ← generateSummary query finalObjs finalReviews
  let recommendations ← generateRecommendations finalObjs finalReviews
  pure (QueryResponseM.mk queryId query finalObjs steps summary recommendations)

/-! ### Shape invariants carried along the all-fallback pipeline path -/

/-- Field `k` is present with a string value. -/
def StrVal (fs : List (String × Json)) (k : String) : Prop :=
  ∃ s, assocFind k fs = some (Json.str s)

/-- Field `k` is absent or holds a string. -/
def StrValOpt (fs : List (String × Json)) (k : String) : Prop :=
  assocFind k fs = none ∨ ∃ s, assocFind k fs = some (Json.str s)

/-- Field `k` is present with a numeric value. -/
def NumVal (fs : List (String × Json)) (k : String) : Prop :=
  ∃ q, assocFind k fs = some (Json.num q)

/-- A working hypothesis dict as produced by the fallback paths: the four
text fields the response assembly coerces into pydantic `str` fields are
strings, and `research_approach` is a string when present. -/
def HypOk (h : Json) : Prop :=
  ∃ fs, h = .obj fs ∧ StrVal fs "id" ∧ StrVal fs "title" ∧ StrVal fs "description" ∧
    StrVal fs "reasoning" ∧ StrValOpt fs "research_approach"

/-- A critique dict with numeric scores. -/
def CritOk (c : Json) : Prop :=
  ∃ fs, c = .obj fs ∧ NumVal fs "validity_score" ∧ NumVal fs "novelty_score" ∧
    NumVal fs "feasibility_score" ∧ NumVal fs "impact_score"

/-- A final review dict: a dict-valued experimental plan, a numeric
confidence and a list of collaboration recommendations. -/
def RevOk (r : Json) : Prop :=
  ∃ fs, r = .obj fs ∧ (∃ pfs, assocFind "experimental_plan" fs = some (.obj pfs)) ∧
    NumVal fs "confidence_rating" ∧
    (∃ l, assocFind "collaboration_recommendations" fs = some (.arr l))

/-- A knowledge-analysis dict whose literature recommendations are a list
of strings. -/
def KnowOk (kn : Json) : Prop :=
  ∃ fs, kn = .obj fs ∧
    (∃ ss : List String, assocFind "literature_recommendations" fs = some (.arr (ss.map Json.str)))

/-- The hypothesis dict carries `evolution_round` equal to `q`. -/
def RoundIs (q : ℚ) (h : Json) : Prop :=
  ∃ fs, h = .obj fs ∧ assocFind "evolution_round" fs = some (.num q)

/-- A concrete prompt set for witness runs (template text does not affect
control flow). -/
def cP : Prompts :=
  ⟨fun q _ => q, fun q => q, fun q => q, fun q => q, fun q _ => q, fun q => q⟩

/-- A concrete uuid supply for witness runs. -/
def cIds : Nat → String := fun n => "uuid-" ++ toString n

/-- Stage responses where every model answers prose with no extractable
JSON. -/
def cRnj : StageResponses :=
  ⟨"not json at all", "not json at all", "not json at all", "not json at all",
   fun _ => "not json at all", "not json at all", "not json at all"⟩

/-- Stage responses where the generation model answers a well-formed JSON
object carrying an empty hypothesis list and every later model answers
plain prose. -/
def cR : StageResponses :=
  ⟨"\x7b\"hypotheses\": []\x7d", "no", "no", "no", fun _ => "no", "no", "no"⟩

/-! ### Basic lemmas about the embedding -/

theorem bindE_ok {α β : Type} (a : α) (f : α → Except PyErr β) :
    (Except.ok a >>= f) = f a := rfl

theorem bindE_error {α β : Type} (e : PyErr) (f : α → Except PyErr β) :
    ((Except.error e : Except PyErr α) >>= f) = .error e := rfl

theorem runCatching_ok {α : Type} (caught : List PyErr) (v : α) (fb : Except PyErr α) :
    runCatching caught (.ok v) fb = .ok v := rfl

theorem runCatching_error {α : Type} (caught : List PyErr) (e : PyErr)
    (fb : Except PyErr α) (h : e ∈ caught) :
    runCatching caught (.error e) fb = fb := by
  simp [runCatching, h]

theorem assocFind_set_self (k : String) (v : Json) (fs : List (String × Json)) :
    assocFind k (assocSet k v fs) = some v := by
  induction fs with
  | nil => simp [assocSet, assocFind]
  | cons hd tl ih =>
      obtain ⟨k', v'⟩ := hd
      by_cases h : k' = k
      · simp [assocSet, assocFind, h]
      · simp [assocSet, assocFind, h, ih]

theorem assocFind_set_ne (k k' : String) (v : Json) (fs : List (String × Json))
    (h : k' ≠ k) : assocFind k (assocSet k' v fs) = assocFind k fs := by
  induction fs with
  | nil => simp [assocSet, assocFind, h]
  | cons hd tl ih =>
      obtain ⟨k'', v''⟩ := hd
      by_cases h2 : k'' = k'
      · subst h2
        simp [assocSet, assocFind, h]
      · by_cases h3 : k'' = k
        · simp [assocSet, assocFind, h2, h3, Ne.symm h]
        · simp [assocSet, assocFind, h2, h3, ih]

theorem mapME_length {α β : Type} (f : α → Except PyErr β) (l : List α) (l' : List β)
    (h : mapME f l = .ok l') : l'.length = l.length := by
  induction l generalizing l' with
  | nil => simp [mapME] at h; simp [← h]
  | cons x xs ih =>
      simp only [mapME] at h
      cases hf : f x with
      | error e => rw [hf] at h; simp [bindE_error] at h
      | ok y =>
          rw [hf] at h
          simp only [bindE_ok] at h
          cases hm : mapME f xs with
          | error e => rw [hm] at h; simp [bindE_error] at h
          | ok ys =>
              rw [hm] at h
              simp only [bindE_ok] at h
              cases h
              simp [ih ys hm]

theorem mapME_mem {α β : Type} (f : α → Except PyErr β) (l : List α) (l' : List β)
    (h : mapME f l = .ok l') : ∀ y ∈ l', ∃ x ∈ l, f x = .ok y := by
  induction l generalizing l' with
  | nil => simp [mapME] at h; simp [h]
  | cons x xs ih =>
      simp only [mapME] at h
      cases hf : f x with
      | error e => rw [hf] at h; simp [bindE_error] at h
      | ok y =>
          rw [hf] at h
          simp only [bindE_ok] at h
          cases hm : mapME f xs with
          | error e => rw [hm] at h; simp [bindE_error] at h
          | ok ys =>
              rw [hm] at h
              simp only [bindE_ok] at h
              cases h
              intro z hz
              rcases List.mem_cons.mp hz with hz | hz
              · exact ⟨x, List.mem_cons_self _ _, by rw [hf, hz]⟩
              · obtain ⟨x', hx', hfx'⟩ := ih ys hm z hz
                exact ⟨x', List.mem_cons_of_mem _ hx', hfx'⟩

theorem mapMEIdx_mem {α β : Type} (f : Nat → α → Except PyErr β) (s : Nat) (l : List α)
    (l' : List β) (h : mapMEIdx f s l = .ok l') :
    ∀ y ∈ l', ∃ i x, x ∈ l ∧ f i x = .ok y := by
  induction l generalizing l' s with
  | nil => simp [mapMEIdx] at h; simp [h]
  | cons x xs ih =>
      simp only [mapMEIdx] at h
      cases hf : f s x with
      | error e => rw [hf] at h; simp [bindE_error] at h
      | ok y =>
          rw [hf] at h
          simp only [bindE_ok] at h
          cases hm : mapMEIdx f (s + 1) xs with
          | error e => rw [hm] at h; simp [bindE_error] at h
          | ok ys =>
              rw [hm] at h
              simp only [bindE_ok] at h
              cases h
              intro z hz
              rcases List.mem_cons.mp hz with hz | hz
              · exact ⟨s, x, List.mem_cons_self _ _, by rw [hf, hz]⟩
              · obtain ⟨i, x', hx', hfx'⟩ := ih (s + 1) ys hm z hz
                exact ⟨i, x', List.mem_cons_of_mem _ hx', hfx'⟩

theorem mapME_ok_forall {α β : Type} (f : α → Except PyErr β) (l : List α)
    (h : ∀ x ∈ l, ∃ y, f x = .ok y) : ∃ l', mapME f l = .ok l' := by
  induction l with
  | nil => exact ⟨[], rfl⟩
  | cons x xs ih =>
      obtain ⟨y, hy⟩ := h x (List.mem_cons_self _ _)
      obtain ⟨ys, hys⟩ := ih (fun z hz => h z (List.mem_cons_of_mem _ hz))
      exact ⟨y :: ys, by simp [mapME, hy, hys, bindE_ok]⟩

/-- The literal critique-stage probe string from the spec's test 10 has
no JSON-parseable span. -/
theorem extract_not_json : extractObj "not json at all" = none := by
  with_unfolding_all rfl

theorem reflTryBody_fail (hyps : List Json) (resp : String) (meta : Json)
    (h : extractObj resp = none) :
    reflTryBody hyps resp meta = .error .jsonDecodeError := by
  simp [reflTryBody, toParsed, h, bindE_error]

/-- Parse failure routes `critique_hypotheses` to its fallback loop. -/
theorem critiqueHypotheses_fail (hyps : List Json) (resp : String) (meta : Json)
    (h : extractObj resp = none) :
    critiqueHypotheses hyps resp meta = mapME (reflFallbackOne meta) hyps := by
  simp [critiqueHypotheses, reflTryBody_fail _ _ _ h, runCatching]

/-- A successful fallback critique is exactly the documented default
record keyed by the source hypothesis's id. -/
theorem reflFallbackOne_shape (meta : Json) (hyp : Json) (c : Json)
    (h : reflFallbackOne meta hyp = .ok c) :
    ∃ hid, dictGet hyp "id" (.str "unknown") = .ok hid ∧
      c = .obj [("hypothesis_id", hid),
        ("overall_assessment", .str "Automated critique analysis needed"),
        ("validity_score", .num 0.7), ("novelty_score", .num 0.6),
        ("feasibility_score", .num 0.8), ("impact_score", .num 0.7),
        ("specific_critiques", .arr [.str "Detailed analysis pending"]),
        ("suggestions", .arr [.str "Refine experimental methodology"]),
        ("agent_metadata", meta)] := by
  cases hh : dictGet hyp "id" (.str "unknown") with
  | error e => simp [reflFallbackOne, hh, bindE_error] at h
  | ok hid =>
      refine ⟨hid, rfl, ?_⟩
      simp [reflFallbackOne, hh, bindE_ok] at h
      exact h.symm

/-- A dict hypothesis always yields a fallback critique. -/
theorem reflFallbackOne_ok_of_obj (meta : Json) (hyp : Json) (h : hyp.isObj = true) :
    ∃ c, reflFallbackOne meta hyp = .ok c := by
  cases hyp with
  | obj fs => exact ⟨_, rfl⟩
  | null => simp [Json.isObj] at h
  | bool b => simp [Json.isObj] at h
  | num q => simp [Json.isObj] at h
  | str s => simp [Json.isObj] at h
  | arr l => simp [Json.isObj] at h

theorem dictUpdate_find_ne (fs kvs : List (String × Json)) (k : String)
    (h : ∀ kv ∈ kvs, kv.1 ≠ k) :
    assocFind k (kvs.foldl (fun acc kv => assocSet kv.1 kv.2 acc) fs) = assocFind k fs := by
  induction kvs generalizing fs with
  | nil => rfl
  | cons hd tl ih =>
      simp only [List.foldl_cons]
      rw [ih _ (fun kv hkv => h kv (List.mem_cons_of_mem _ hkv))]
      exact assocFind_set_ne _ _ _ _ (h hd (List.mem_cons_self _ _))
theorem dictUpdate_obj (j u : Json) (kvs : List (String × Json))
    (h : dictUpdate j kvs = .ok u) :
    ∃ fs, j = .obj fs ∧ u = .obj (kvs.foldl (fun acc kv => assocSet kv.1 kv.2 acc) fs) := by
  cases j with
  | obj fs =>
      refine ⟨fs, rfl, ?_⟩
      simp [dictUpdate] at h
      exact h.symm
  | null => simp [dictUpdate] at h
  | bool b => simp [dictUpdate] at h
  | num q => simp [dictUpdate] at h
  | str s => simp [dictUpdate] at h
  | arr l => simp [dictUpdate] at h

theorem rankTryBody_fail (hyps : List Json) (resp : String) (meta : Json)
    (h : extractObj resp = none) :
    rankTryBody hyps resp meta = .error .jsonDecodeError := by
  simp [rankTryBody, toParsed, h, bindE_error]

theorem rankHypotheses_fail (hyps critiques : List Json) (resp : String) (meta : Json)
    (h : extractObj resp = none) :
    rankHypotheses hyps critiques resp meta =
      mapMEIdx (rankFallbackOne critiques meta) 0 hyps := by
  simp [rankHypotheses, rankTryBody_fail _ _ _ h, runCatching]

theorem rankFallbackOne_gets (critiques : List Json) (meta : Json) (i : Nat) (hyp u : Json)
    (h : rankFallbackOne critiques meta i hyp = .ok u) :
    dictGet u "rank" Json.null = .ok (.num ((i : ℚ) + 1)) ∧
    (∃ q, rankFallbackScore critiques hyp i = .ok q ∧
      dictGet u "final_score" Json.null = .ok (.num q)) ∧
    dictGet u "id" Json.null = dictGet hyp "id" Json.null := by
  unfold rankFallbackOne at h
  cases hs : rankFallbackScore critiques hyp i with
  | error e => rw [hs] at h; simp [bindE_error] at h
  | ok q =>
      rw [hs] at h
      simp only [bindE_ok] at h
      obtain ⟨fs, rfl, rfl⟩ := dictUpdate_obj _ _ _ h
      simp only [List.foldl_cons, List.foldl_nil]
      refine ⟨?_, ⟨q, rfl, ?_⟩, ?_⟩
      · simp only [dictGet]
        rw [assocFind_set_ne _ _ _ _ (by decide), assocFind_set_ne _ _ _ _ (by decide),
          assocFind_set_ne _ _ _ _ (by decide), assocFind_set_ne _ _ _ _ (by decide),
          assocFind_set_ne _ _ _ _ (by decide), assocFind_set_self]
        rfl
      · simp only [dictGet]
        rw [assocFind_set_ne _ _ _ _ (by decide), assocFind_set_ne _ _ _ _ (by decide),
          assocFind_set_ne _ _ _ _ (by decide), assocFind_set_ne _ _ _ _ (by decide),
          assocFind_set_self]
        rfl
      · simp only [dictGet]
        rw [assocFind_set_ne _ _ _ _ (by decide), assocFind_set_ne _ _ _ _ (by decide),
          assocFind_set_ne _ _ _ _ (by decide), assocFind_set_ne _ _ _ _ (by decide),
          assocFind_set_ne _ _ _ _ (by decide), assocFind_set_ne _ _ _ _ (by decide)]

theorem rankFallback_ranks (critiques : List Json) (meta : Json) :
    ∀ (hs : List Json) (s : Nat) (l : List Json),
      mapMEIdx (rankFallbackOne critiques meta) s hs = .ok l →
      l.map (fun x => dictGet x "rank" Json.null) =
        (List.range' s hs.length).map (fun i => .ok (.num ((i : ℚ) + 1))) := by
  intro hs
  induction hs with
  | nil =>
      intro s l h
      simp [mapMEIdx] at h
      simp [h, List.range']
  | cons x xs ih =>
      intro s l h
      simp only [mapMEIdx] at h
      cases hf : rankFallbackOne critiques meta s x with
      | error e => rw [hf] at h; simp [bindE_error] at h
      | ok y =>
          rw [hf] at h
          simp only [bindE_ok] at h
          cases hm : mapMEIdx (rankFallbackOne critiques meta) (s + 1) xs with
          | error e => rw [hm] at h; simp [bindE_error] at h
          | ok ys =>
              rw [hm] at h
              simp only [bindE_ok] at h
              cases h
              simp only [List.map_cons, List.length_cons, List.range']
              rw [(rankFallbackOne_gets _ _ _ _ _ hf).1, ih (s + 1) ys hm]

theorem C3_counterexample :
    (rankHypotheses [Json.obj [("id", Json.str "h1")], Json.obj [("id", Json.str "h2")]] []
        "\x7b\"rankings\": [\x7b\"hypothesis_id\": \"h1\", \"rank\": 7\x7d]\x7d" Json.null).map
      (fun l => l.map (fun x => dictGet x "rank" Json.null)) = .ok [.ok (Json.num 7)] ∧
    (rankHypotheses [Json.obj [("id", Json.str "h1")], Json.obj [("id", Json.str "h2")]] []
        "\x7b\"rankings\": [\x7b\"hypothesis_id\": \"h1\", \"rank\": 7\x7d]\x7d" Json.null).map
      List.length = .ok 1 ∧ (1 : Nat) ≠ 2 :=
  ⟨by with_unfolding_all rfl, by with_unfolding_all rfl, by decide⟩

theorem C3_amended_fallback_ranks (hyps critiques : List Json) (resp : String) (meta : Json)
    (hfail : extractObj resp = none) (l : List Json)
    (hok : rankHypotheses hyps critiques resp meta = .ok l) :
    l.map (fun x => dictGet x "rank" Json.null) =
      (List.range hyps.length).map (fun i => .ok (.num ((i : ℚ) + 1))) := by
  rw [rankHypotheses_fail _ _ _ _ hfail] at hok
  rw [List.range_eq_range']
  exact rankFallback_ranks critiques meta hyps 0 l hok

theorem C3_witness :
    extractObj "not json at all" = none ∧
    ∃ l, rankHypotheses [Json.obj [("id", Json.str "h1")], Json.obj [("id", Json.str "h2")]] []
        "not json at all" Json.null = .ok l ∧
      l.map (fun x => dictGet x "rank" Json.null) =
        (List.range ([Json.obj [("id", Json.str "h1")],
          Json.obj [("id", Json.str "h2")]] : List Json).length).map
          (fun i => .ok (.num ((i : ℚ) + 1))) := by
  refine ⟨extract_not_json, ?_⟩
  cases hok : rankHypotheses [Json.obj [("id", Json.str "h1")], Json.obj [("id", Json.str "h2")]] []
      "not json at all" Json.null with
  | error e =>
      have hisok : (rankHypotheses [Json.obj [("id", Json.str "h1")],
          Json.obj [("id", Json.str "h2")]] [] "not json at all" Json.null).isOk = true := by
        with_unfolding_all rfl
      rw [hok] at hisok
      simp [Except.isOk, Except.toBool] at hisok
  | ok l =>
      exact ⟨l, rfl, C3_amended_fallback_ranks _ _ _ _ extract_not_json l hok⟩

theorem C8_counterexample :
    (rankHypotheses [Json.obj [("id", Json.str "h1")]]
        [Json.obj [("hypothesis_id", Json.str "h1"), ("validity_score", Json.num 0.5),
          ("novelty_score", Json.num 0.5), ("feasibility_score", Json.num 0.5),
          ("impact_score", Json.num 0.5)]] "not json at all" Json.null).map
      (fun l => l.map (fun x => dictGet x "final_score" Json.null)) =
      .ok [.ok (Json.num 0.53)] ∧
    ¬ ((0.53 : ℚ) = 0.5 * 0.25 + 0.5 * 0.25 + 0.5 * 0.20 + 0.5 * 0.20 + 0.10) :=
  ⟨by with_unfolding_all rfl, by norm_num⟩

theorem mapMEIdx_singleton {α β : Type} (f : Nat → α → Except PyErr β) (s : Nat) (x : α)
    (u : β) (h : mapMEIdx f s [x] = .ok [u]) : f s x = .ok u := by
  simp only [mapMEIdx] at h
  cases hf : f s x with
  | error e => rw [hf] at h; simp [bindE_error] at h
  | ok y =>
      rw [hf] at h
      simp only [mapMEIdx, bindE_ok] at h
      cases h
      rfl

theorem rankFallback_scores_nocrit (meta : Json) :
    ∀ (hs : List Json) (s : Nat) (l : List Json),
      mapMEIdx (rankFallbackOne [] meta) s hs = .ok l →
      l.map (fun x => dictGet x "final_score" Json.null) =
        (List.range' s hs.length).map (fun i => .ok (.num (0.7 - (i : ℚ) * 0.1))) := by
  intro hs
  induction hs with
  | nil =>
      intro s l h
      simp [mapMEIdx] at h
      simp [h, List.range']
  | cons x xs ih =>
      intro s l h
      simp only [mapMEIdx] at h
      cases hf : rankFallbackOne [] meta s x with
      | error e => rw [hf] at h; simp [bindE_error] at h
      | ok y =>
          rw [hf] at h
          simp only [bindE_ok] at h
          cases hm : mapMEIdx (rankFallbackOne [] meta) (s + 1) xs with
          | error e => rw [hm] at h; simp [bindE_error] at h
          | ok ys =>
              rw [hm] at h
              simp only [bindE_ok] at h
              cases h
              obtain ⟨-, ⟨q, hq, hget⟩, -⟩ := rankFallbackOne_gets _ _ _ _ _ hf
              have : rankFallbackScore [] x s = .ok (0.7 - (s : ℚ) * 0.1) := by
                simp [rankFallbackScore, Pure.pure, Except.pure]
              rw [this] at hq
              cases hq
              simp only [List.map_cons, List.length_cons, List.range']
              rw [hget, ih (s + 1) ys hm]

theorem C8_amended (v n f im : ℚ) (idv idv2 : String) (resp : String) (meta : Json)
    (hfail : extractObj resp = none) (hne : idv2 ≠ idv) :
    (∀ u, rankHypotheses [Json.obj [("id", Json.str idv)]]
        [Json.obj [("hypothesis_id", Json.str idv), ("validity_score", Json.num v),
          ("novelty_score", Json.num n), ("feasibility_score", Json.num f),
          ("impact_score", Json.num im)]] resp meta = .ok [u] →
      dictGet u "final_score" Json.null =
        .ok (.num (v * 0.25 + n * 0.25 + f * 0.20 + im * 0.20 + 0.8 * 0.10)))
    ∧
    (∀ u, rankHypotheses [Json.obj [("id", Json.str idv2)]]
        [Json.obj [("hypothesis_id", Json.str idv), ("validity_score", Json.num v),
          ("novelty_score", Json.num n), ("feasibility_score", Json.num f),
          ("impact_score", Json.num im)]] resp meta = .ok [u] →
      dictGet u "final_score" Json.null = .ok (.num 0.6))
    ∧
    (∀ (hyps l : List Json), rankHypotheses hyps [] resp meta = .ok l →
      l.map (fun x => dictGet x "final_score" Json.null) =
        (List.range hyps.length).map (fun i => .ok (.num (0.7 - (i : ℚ) * 0.1)))) := by
  refine ⟨?_, ?_, ?_⟩
  · intro u hok
    rw [rankHypotheses_fail _ _ _ _ hfail] at hok
    have hf := mapMEIdx_singleton _ _ _ _ hok
    obtain ⟨-, ⟨q, hq, hget⟩, -⟩ := rankFallbackOne_gets _ _ _ _ _ hf
    have hscore : rankFallbackScore
        [Json.obj [("hypothesis_id", Json.str idv), ("validity_score", Json.num v),
          ("novelty_score", Json.num n), ("feasibility_score", Json.num f),
          ("impact_score", Json.num im)]] (Json.obj [("id", Json.str idv)]) 0 =
        .ok (v * 0.25 + n * 0.25 + f * 0.20 + im * 0.20 + 0.8 * 0.10) := by
      simp [rankFallbackScore, idMatch, pyFirstMatch, dictGet, assocFind, pyEq, pyMulQ, bindE_ok]
    rw [hscore] at hq
    cases hq
    exact hget
  · intro u hok
    rw [rankHypotheses_fail _ _ _ _ hfail] at hok
    have hf := mapMEIdx_singleton _ _ _ _ hok
    obtain ⟨-, ⟨q, hq, hget⟩, -⟩ := rankFallbackOne_gets _ _ _ _ _ hf
    have hne' : ¬(idv = idv2) := fun hh => hne hh.symm
    have hscore : rankFallbackScore
        [Json.obj [("hypothesis_id", Json.str idv), ("validity_score", Json.num v),
          ("novelty_score", Json.num n), ("feasibility_score", Json.num f),
          ("impact_score", Json.num im)]] (Json.obj [("id", Json.str idv2)]) 0 =
        .ok 0.6 := by
      simp [rankFallbackScore, idMatch, pyFirstMatch, dictGet, assocFind, pyEq, pyMulQ, bindE_ok,
        hne', Pure.pure, Except.pure]
    rw [hscore] at hq
    cases hq
    exact hget
  · intro hyps l hok
    rw [rankHypotheses_fail _ _ _ _ hfail] at hok
    rw [List.range_eq_range']
    exact rankFallback_scores_nocrit meta hyps 0 l hok

theorem C8_witness :
    rankHypotheses [Json.obj [("id", Json.str "h1")]]
      [Json.obj [("hypothesis_id", Json.str "h1"), ("validity_score", Json.num 0.9),
        ("novelty_score", Json.num 0.9), ("feasibility_score", Json.num 0.9),
        ("impact_score", Json.num 0.9)]] "not json at all" Json.null =
      .ok [Json.obj [("id", Json.str "h1"), ("rank", Json.num 1),
        ("final_score", Json.num 0.89),
        ("criterion_scores", Json.obj [("validity", Json.num 0.7), ("novelty", Json.num 0.6),
          ("feasibility", Json.num 0.8), ("impact", Json.num 0.7), ("clarity", Json.num 0.8)]),
        ("ranking_justification", Json.str "Fallback ranking based on available data"),
        ("ranking_confidence", Json.num 0.6), ("ranking_metadata", Json.null)]] ∧
    dictGet (Json.obj [("id", Json.str "h1"), ("rank", Json.num 1),
        ("final_score", Json.num 0.89),
        ("criterion_scores", Json.obj [("validity", Json.num 0.7), ("novelty", Json.num 0.6),
          ("feasibility", Json.num 0.8), ("impact", Json.num 0.7), ("clarity", Json.num 0.8)]),
        ("ranking_justification", Json.str "Fallback ranking based on available data"),
        ("ranking_confidence", Json.num 0.6), ("ranking_metadata", Json.null)])
      "final_score" Json.null =
      .ok (.num (0.9 * 0.25 + 0.9 * 0.25 + 0.9 * 0.20 + 0.9 * 0.20 + 0.8 * 0.10)) :=
  ⟨by with_unfolding_all rfl,
   (C8_amended 0.9 0.9 0.9 0.9 "h1" "h2" "not json at all" Json.null extract_not_json
     (by decide)).1 _ (by with_unfolding_all rfl)⟩

/-- C1 (corrected) — counterexample: a parse-success critique response
carrying `validity_score: 5.0` flows through `float()` unclamped, so the
produced Critique violates `0.0 <= score <= 1.0`. -/
theorem C1_counterexample :
    (critiqueHypotheses [Json.obj [("id", Json.str "h1")]]
        "\x7b\"critiques\": [\x7b\"hypothesis_id\": \"h1\", \"validity_score\": 5.0\x7d]\x7d"
        Json.null).map
      (fun l => l.map (fun c => dictGet c "validity_score" Json.null)) =
      .ok [.ok (Json.num 5)] ∧ ¬ ((0 : ℚ) ≤ 5 ∧ (5 : ℚ) ≤ 1) :=
  ⟨by with_unfolding_all rfl, by norm_num⟩

/-- C1 (amended): along the whole-stage fallback path every produced
critique's four scores are the in-range documented defaults; the success
path passes parsed numeric scores through `float()` without clamping. -/
theorem C1_amended_fallback_scores_in_range (hyps : List Json) (resp : String) (meta : Json)
    (hfail : extractObj resp = none) (l : List Json)
    (hok : critiqueHypotheses hyps resp meta = .ok l) :
    ∀ c ∈ l, ∀ k ∈ (["validity_score", "novelty_score", "feasibility_score",
        "impact_score"] : List String),
      ∃ q : ℚ, dictGet c k Json.null = .ok (.num q) ∧ 0 ≤ q ∧ q ≤ 1 := by
  rw [critiqueHypotheses_fail _ _ _ hfail] at hok
  intro c hc k hk
  obtain ⟨hyp, _, hf⟩ := mapME_mem _ _ _ hok c hc
  obtain ⟨hid, _, rfl⟩ := reflFallbackOne_shape _ _ _ hf
  fin_cases hk
  · exact ⟨0.7, by simp [dictGet, assocFind], by norm_num, by norm_num⟩
  · exact ⟨0.6, by simp [dictGet, assocFind], by norm_num, by norm_num⟩
  · exact ⟨0.8, by simp [dictGet, assocFind], by norm_num, by norm_num⟩
  · exact ⟨0.7, by simp [dictGet, assocFind], by norm_num, by norm_num⟩

theorem C1_witness :
    critiqueHypotheses [Json.obj [("id", Json.str "h1")]] "not json at all" Json.null =
      .ok [Json.obj [("hypothesis_id", Json.str "h1"),
        ("overall_assessment", Json.str "Automated critique analysis needed"),
        ("validity_score", Json.num 0.7), ("novelty_score", Json.num 0.6),
        ("feasibility_score", Json.num 0.8), ("impact_score", Json.num 0.7),
        ("specific_critiques", Json.arr [Json.str "Detailed analysis pending"]),
        ("suggestions", Json.arr [Json.str "Refine experimental methodology"]),
        ("agent_metadata", Json.null)]] ∧
    (∀ c ∈ [Json.obj [("hypothesis_id", Json.str "h1"),
        ("overall_assessment", Json.str "Automated critique analysis needed"),
        ("validity_score", Json.num 0.7), ("novelty_score", Json.num 0.6),
        ("feasibility_score", Json.num 0.8), ("impact_score", Json.num 0.7),
        ("specific_critiques", Json.arr [Json.str "Detailed analysis pending"]),
        ("suggestions", Json.arr [Json.str "Refine experimental methodology"]),
        ("agent_metadata", Json.null)]],
      ∀ k ∈ (["validity_score", "novelty_score", "feasibility_score",
          "impact_score"] : List String),
        ∃ q : ℚ, dictGet c k Json.null = .ok (.num q) ∧ 0 ≤ q ∧ q ≤ 1) :=
  ⟨by with_unfolding_all rfl,
   C1_amended_fallback_scores_in_range [Json.obj [("id", Json.str "h1")]] "not json at all"
     Json.null extract_not_json _ (by with_unfolding_all rfl)⟩

/-- C5 (confirmed): on the literal response "not json at all" the
critique stage produces exactly one default critique per input
hypothesis, with `validity_score == 0.7` and
`specific_critiques == ["Detailed analysis pending"]`. -/
theorem C5_critique_fallback_defaults (hyps : List Json) (meta : Json)
    (hne : hyps ≠ []) (hdict : ∀ h ∈ hyps, h.isObj = true) :
    ∃ l, critiqueHypotheses hyps "not json at all" meta = .ok l ∧
      l.length = hyps.length ∧
      ∀ c ∈ l, dictGet c "validity_score" Json.null = .ok (.num 0.7) ∧
        dictGet c "specific_critiques" Json.null =
          .ok (.arr [.str "Detailed analysis pending"]) := by
  rw [critiqueHypotheses_fail _ _ _ extract_not_json]
  obtain ⟨l, hl⟩ := mapME_ok_forall _ _ (fun x hx => reflFallbackOne_ok_of_obj meta x (hdict x hx))
  refine ⟨l, hl, mapME_length _ _ _ hl, ?_⟩
  intro c hc
  obtain ⟨hyp, _, hf⟩ := mapME_mem _ _ _ hl c hc
  obtain ⟨hid, _, rfl⟩ := reflFallbackOne_shape _ _ _ hf
  constructor <;> simp [dictGet, assocFind]

theorem C5_witness :
    ∃ l, critiqueHypotheses [Json.obj [("id", Json.str "h1")],
        Json.obj [("id", Json.str "h2")]] "not json at all" Json.null = .ok l ∧
      l.length = ([Json.obj [("id", Json.str "h1")],
        Json.obj [("id", Json.str "h2")]] : List Json).length ∧
      ∀ c ∈ l, dictGet c "validity_score" Json.null = .ok (.num 0.7) ∧
        dictGet c "specific_critiques" Json.null =
          .ok (.arr [.str "Detailed analysis pending"]) :=
  C5_critique_fallback_defaults [Json.obj [("id", Json.str "h1")],
    Json.obj [("id", Json.str "h2")]] Json.null (by simp) (by simp [Json.isObj])

theorem bind_ok_iff {α β : Type} (A : Except PyErr α) (f : α → Except PyErr β) (b : β) :
    (A >>= f) = .ok b ↔ ∃ a, A = .ok a ∧ f a = .ok b := by
  cases A with
  | ok a => simp [bindE_ok]
  | error e => simp [bindE_error]

theorem pyFirstMatch_mem (p : Json → Except PyErr Bool) (l : List Json) (x : Json)
    (h : pyFirstMatch p l = .ok (some x)) : x ∈ l := by
  induction l with
  | nil => simp [pyFirstMatch] at h
  | cons hd tl ih =>
      simp only [pyFirstMatch] at h
      cases hp : p hd with
      | error e => rw [hp] at h; simp [bindE_error] at h
      | ok b =>
          rw [hp] at h
          simp only [bindE_ok] at h
          cases b with
          | true =>
              rw [if_pos rfl] at h
              cases h
              exact List.mem_cons_self _ _
          | false =>
              rw [if_neg Bool.false_ne_true] at h
              exact List.mem_cons_of_mem _ (ih h)

theorem insertKeyed_mem (kv : Json × Json) (l l' : List (Json × Json))
    (h : insertKeyed kv l = .ok l') : ∀ x ∈ l', x = kv ∨ x ∈ l := by
  induction l generalizing l' with
  | nil =>
      simp [insertKeyed] at h
      simp [← h]
  | cons hd tl ih =>
      simp only [insertKeyed] at h
      cases hp : pyLt kv.1 hd.1 with
      | error e => rw [hp] at h; simp [bindE_error] at h
      | ok b =>
          rw [hp] at h
          simp only [bindE_ok] at h
          cases b with
          | true =>
              rw [if_pos rfl] at h
              cases h
              intro x hx
              rcases List.mem_cons.mp hx with hx | hx
              · exact Or.inl hx
              · exact Or.inr hx
          | false =>
              rw [if_neg Bool.false_ne_true] at h
              rw [bind_ok_iff] at h
              obtain ⟨tl', htl, h⟩ := h
              cases h
              intro x hx
              rcases List.mem_cons.mp hx with hx | hx
              · exact Or.inr (by simp [hx])
              · rcases ih tl' htl x hx with hx | hx
                · exact Or.inl hx
                · exact Or.inr (List.mem_cons_of_mem _ hx)

theorem insSortKeyed_mem (l : List (Json × Json)) :
    ∀ (acc l' : List (Json × Json)), insSortKeyed acc l = .ok l' →
      ∀ x ∈ l', x ∈ acc ∨ x ∈ l := by
  induction l with
  | nil =>
      intro acc l' h x hx
      simp [insSortKeyed] at h
      exact Or.inl (h ▸ hx)
  | cons hd tl ih =>
      intro acc l' h x hx
      simp only [insSortKeyed] at h
      rw [bind_ok_iff] at h
      obtain ⟨acc', hacc, h⟩ := h
      rcases ih acc' l' h x hx with hx' | hx'
      · rcases insertKeyed_mem _ _ _ hacc x hx' with hx'' | hx''
        · exact Or.inr (by simp [hx''])
        · exact Or.inl hx''
      · exact Or.inr (List.mem_cons_of_mem _ hx')

theorem pySortByRankKey_mem (l l' : List Json) (h : pySortByRankKey l = .ok l') :
    ∀ x ∈ l', x ∈ l := by
  simp only [pySortByRankKey] at h
  rw [bind_ok_iff] at h
  obtain ⟨keyed, hkeyed, h⟩ := h
  rw [bind_ok_iff] at h
  obtain ⟨sorted, hsorted, h⟩ := h
  cases h
  intro x hx
  obtain ⟨kv, hkv, rfl⟩ := List.mem_map.mp hx
  rcases insSortKeyed_mem _ _ _ hsorted kv hkv with hkv' | hkv'
  · simp at hkv'
  · obtain ⟨z, hz, hfz⟩ := mapME_mem _ _ _ hkeyed kv hkv'
    cases hr : dictGet z "rank" (.num 999) with
    | error e => rw [hr] at hfz; simp [bindE_error] at hfz
    | ok r =>
        rw [hr] at hfz
        simp only [bindE_ok] at hfz
        cases hfz
        exact hz

theorem rankMergeOne_id (hyps : List Json) (meta : Json) (r u : Json)
    (h : rankMergeOne hyps meta r = .ok (some u)) :
    ∃ hyp ∈ hyps, dictGet u "id" Json.null = dictGet hyp "id" Json.null := by
  simp only [rankMergeOne] at h
  rw [bind_ok_iff] at h
  obtain ⟨hid, hhid, h⟩ := h
  rw [bind_ok_iff] at h
  obtain ⟨origOpt, horig, h⟩ := h
  cases origOpt with
  | none => simp [Pure.pure, Except.pure] at h
  | some orig =>
      rw [bind_ok_iff] at h
      obtain ⟨rank, hrank, h⟩ := h
      rw [bind_ok_iff] at h
      obtain ⟨fj, hfj, h⟩ := h
      rw [bind_ok_iff] at h
      obtain ⟨fsco, hfsco, h⟩ := h
      rw [bind_ok_iff] at h
      obtain ⟨cs, hcs, h⟩ := h
      rw [bind_ok_iff] at h
      obtain ⟨just, hjust, h⟩ := h
      rw [bind_ok_iff] at h
      obtain ⟨cj, hcj, h⟩ := h
      rw [bind_ok_iff] at h
      obtain ⟨conf, hconf, h⟩ := h
      rw [bind_ok_iff] at h
      obtain ⟨merged, hmerged, h⟩ := h
      simp only [Pure.pure, Except.pure] at h
      cases h
      refine ⟨orig, pyFirstMatch_mem _ _ _ horig, ?_⟩
      obtain ⟨fs, rfl, rfl⟩ := dictUpdate_obj _ _ _ hmerged
      simp only [List.foldl_cons, List.foldl_nil, dictGet]
      rw [assocFind_set_ne _ _ _ _ (by decide), assocFind_set_ne _ _ _ _ (by decide),
        assocFind_set_ne _ _ _ _ (by decide), assocFind_set_ne _ _ _ _ (by decide),
        assocFind_set_ne _ _ _ _ (by decide), assocFind_set_ne _ _ _ _ (by decide)]

theorem rankMergeAll_mem (hyps : List Json) (meta : Json) (rankings : List Json) :
    ∀ (merged : List Json), rankMergeAll hyps meta rankings = .ok merged →
      ∀ u ∈ merged, ∃ r, rankMergeOne hyps meta r = .ok (some u) := by
  induction rankings with
  | nil =>
      intro merged h u hu
      simp only [rankMergeAll] at h
      cases h
      simp at hu
  | cons r rs ih =>
      intro merged h u hu
      simp only [rankMergeAll] at h
      rw [bind_ok_iff] at h
      obtain ⟨o, ho, h⟩ := h
      cases o with
      | some x =>
          rw [bind_ok_iff] at h
          obtain ⟨rest, hrest, h⟩ := h
          simp only [Pure.pure, Except.pure] at h
          cases h
          rcases List.mem_cons.mp hu with hu | hu
          · exact ⟨r, by rw [ho, hu]⟩
          · exact ih rest hrest u hu
      | none => exact ih merged h u hu

theorem rankTryBody_ids (hyps : List Json) (resp : String) (meta : Json) (l : List Json)
    (h : rankTryBody hyps resp meta = .ok l) :
    ∀ x ∈ l, ∃ hyp ∈ hyps, dictGet x "id" Json.null = dictGet hyp "id" Json.null := by
  simp only [rankTryBody] at h
  rw [bind_ok_iff] at h
  obtain ⟨parsed, hp, h⟩ := h
  rw [bind_ok_iff] at h
  obtain ⟨rv, hrv, h⟩ := h
  rw [bind_ok_iff] at h
  obtain ⟨rankings, hrankings, h⟩ := h
  rw [bind_ok_iff] at h
  obtain ⟨merged, hmerged, h⟩ := h
  intro x hx
  have hxm := pySortByRankKey_mem _ _ h x hx
  obtain ⟨r, hr⟩ := rankMergeAll_mem _ _ _ _ hmerged x hxm
  exact rankMergeOne_id _ _ _ _ hr

theorem C4_counterexample :
    (critiqueHypotheses [Json.obj [("id", Json.str "h1")]]
        "\x7b\"critiques\": [\x7b\"hypothesis_id\": \"zzz\"\x7d]\x7d" Json.null).map
      (fun l => l.map (fun c => dictGet c "hypothesis_id" Json.null)) =
      .ok [.ok (Json.str "zzz")] ∧ ("zzz" : String) ≠ "h1" :=
  ⟨by with_unfolding_all rfl, by decide⟩

theorem C4_amended_ids (hyps critiques : List Json) (resp resp' : String) (meta meta' : Json) :
    (∀ l, rankHypotheses hyps critiques resp meta = .ok l →
      ∀ x ∈ l, ∃ hyp ∈ hyps, dictGet x "id" Json.null = dictGet hyp "id" Json.null)
    ∧ (extractObj resp' = none →
       ∀ l, critiqueHypotheses hyps resp' meta' = .ok l →
       ∀ c ∈ l, ∃ hyp ∈ hyps, ∃ v, dictGet hyp "id" (.str "unknown") = .ok v ∧
         dictGet c "hypothesis_id" Json.null = .ok v) := by
  constructor
  · intro l h x hx
    unfold rankHypotheses at h
    cases hb : rankTryBody hyps resp meta with
    | ok v =>
        rw [hb, runCatching_ok] at h
        cases h
        exact rankTryBody_ids _ _ _ _ hb x hx
    | error e =>
        rw [hb] at h
        by_cases he : e ∈ ([.jsonDecodeError, .keyError, .valueError] : List PyErr)
        · rw [runCatching_error _ _ _ he] at h
          obtain ⟨i, hyp, hhyp, hf⟩ := mapMEIdx_mem _ _ _ _ h x hx
          exact ⟨hyp, hhyp, (rankFallbackOne_gets _ _ _ _ _ hf).2.2⟩
        · simp only [runCatching, if_neg he] at h
          exact absurd h (by simp)
  · intro hfail l h c hc
    rw [critiqueHypotheses_fail _ _ _ hfail] at h
    obtain ⟨hyp, hhyp, hf⟩ := mapME_mem _ _ _ h c hc
    obtain ⟨hid, hid_eq, rfl⟩ := reflFallbackOne_shape _ _ _ hf
    exact ⟨hyp, hhyp, hid, hid_eq, by simp [dictGet, assocFind]⟩

theorem C4_witness :
    ∃ hyp ∈ ([Json.obj [("id", Json.str "h1")]] : List Json),
      dictGet (Json.obj [("id", Json.str "h1"), ("rank", Json.num 1),
        ("final_score", Json.num 0.7),
        ("criterion_scores", Json.obj [("validity", Json.num 0.7), ("novelty", Json.num 0.6),
          ("feasibility", Json.num 0.8), ("impact", Json.num 0.7), ("clarity", Json.num 0.8)]),
        ("ranking_justification", Json.str "Fallback ranking based on available data"),
        ("ranking_confidence", Json.num 0.6), ("ranking_metadata", Json.null)]) "id" Json.null =
      dictGet hyp "id" Json.null :=
  (C4_amended_ids [Json.obj [("id", Json.str "h1")]] [] "not json at all" "x" Json.null Json.null).1
    _ (by with_unfolding_all rfl) _ (List.mem_singleton.mpr rfl)

theorem pyTake2_iterate_len (j j' : Json) (items : List Json)
    (h : pyTakeVal 2 j = .ok j') (h2 : pyIterate j' = .ok items) : items.length ≤ 2 := by
  cases j with
  | arr l =>
      simp [pyTakeVal] at h
      rw [← h] at h2
      simp [pyIterate] at h2
      rw [← h2]
      simpa using List.length_take_le 2 l
  | str s =>
      simp [pyTakeVal] at h
      rw [← h] at h2
      simp [pyIterate] at h2
      rw [← h2]
      simpa using List.length_take_le 2 s.toList
  | null => simp [pyTakeVal] at h
  | bool b => simp [pyTakeVal] at h
  | num q => simp [pyTakeVal] at h
  | obj fs => simp [pyTakeVal] at h

theorem collabRecsLoop_len (reviews : List Json) :
    ∀ (e : List String), collabRecsLoop reviews = .ok e → e.length ≤ 2 * reviews.length := by
  induction reviews with
  | nil =>
      intro e h
      simp only [collabRecsLoop] at h
      cases h
      simp
  | cons review rest ih =>
      intro e h
      simp only [collabRecsLoop] at h
      rw [bind_ok_iff] at h
      obtain ⟨cr, hcr, h⟩ := h
      rw [bind_ok_iff] at h
      obtain ⟨sliced, hsl, h⟩ := h
      rw [bind_ok_iff] at h
      obtain ⟨items, hit, h⟩ := h
      rw [bind_ok_iff] at h
      obtain ⟨more, hmore, h⟩ := h
      simp only [Pure.pure, Except.pure] at h
      cases h
      have h1 := pyTake2_iterate_len _ _ _ hsl hit
      have h2 := ih more hmore
      simp only [List.length_append, List.length_map, List.length_cons]
      omega

/-- C9 (confirmed): both orchestrators' recommendation lists are the
fixed boilerplate followed by at most 2 collaboration entries per
review, truncated to at most 8. -/
theorem C9_recommendations_capped (hyps : List HypothesisM) (reviews : List Json)
    (l l' : List String)
    (h : generateRecommendations hyps reviews = .ok l)
    (h' : enhancedGenerateRecommendations hyps reviews = .ok l') :
    (l.length ≤ 8 ∧ ∃ extra, l = (baseRecommendations ++ extra).take 8 ∧
      extra.length ≤ 2 * reviews.length) ∧
    (l'.length ≤ 8 ∧ ∃ extra, l' = (enhancedBaseRecommendations ++ extra).take 8 ∧
      extra.length ≤ 2 * reviews.length) := by
  constructor
  · simp only [generateRecommendations] at h
    rw [bind_ok_iff] at h
    obtain ⟨extra, hextra, h⟩ := h
    simp only [Pure.pure, Except.pure] at h
    cases h
    exact ⟨List.length_take_le _ _, extra, rfl, collabRecsLoop_len _ _ hextra⟩
  · simp only [enhancedGenerateRecommendations] at h'
    rw [bind_ok_iff] at h'
    obtain ⟨extra, hextra, h'⟩ := h'
    simp only [Pure.pure, Except.pure] at h'
    cases h'
    exact ⟨List.length_take_le _ _, extra, rfl, collabRecsLoop_len _ _ hextra⟩

theorem C9_witness :
    (baseRecommendations.length ≤ 8 ∧ ∃ extra,
      baseRecommendations = (baseRecommendations ++ extra).take 8 ∧
      extra.length ≤ 2 * ([] : List Json).length) ∧
    (enhancedBaseRecommendations.length ≤ 8 ∧ ∃ extra,
      enhancedBaseRecommendations = (enhancedBaseRecommendations ++ extra).take 8 ∧
      extra.length ≤ 2 * ([] : List Json).length) :=
  C9_recommendations_capped [] [] baseRecommendations enhancedBaseRecommendations
    (by with_unfolding_all rfl) (by with_unfolding_all rfl)

/-- C10 (confirmed): `BaseCoScientistAgent.run` is total — it always
returns the agent name, the three-key metadata dict, and converts a
failing primary call followed by a failing backup call into the
error-text output string instead of an exception. -/
theorem C10_run_total (a : AgentCfg) (env : LLMEnv) (input : String) (ctx : Option Json) :
    (agentRun a env input ctx).agent_name = a.name ∧
    (agentRun a env input ctx).metadata =
      .obj [("model_used", .str a.model), ("input_length", .num input.length),
        ("output_length", .num (agentRun a env input ctx).output.length)] ∧
    (∀ e₁ e₂, a.model = "gemma3:12b" → env.askGemmaAvailable = true →
      env.groqAvailable = true → (∀ s, env.gemmaCall s = .error e₁) →
      (∀ s₁ s₂ s₃, env.groqCall s₁ s₂ s₃ = .error e₂) →
      (agentRun a env input ctx).output =
        "[TEST MODE] Error: Unable to generate response - " ++ e₁) := by
  refine ⟨rfl, rfl, ?_⟩
  intro e₁ e₂ hm hg hq hgc hqc
  simp [agentRun, generateResponse, hm, hg, hq, hgc, hqc]

theorem C10_witness :
    (agentRun ⟨"generation_agent", "sys", "gemma3:12b"⟩
      ⟨true, true, fun _ => .error "boom", fun _ _ _ => .error "groq down", fun _ => .ok "x"⟩
      "input" none).output = "[TEST MODE] Error: Unable to generate response - boom" ∧
    (agentRun ⟨"generation_agent", "sys", "gemma3:12b"⟩
      ⟨true, true, fun _ => .error "boom", fun _ _ _ => .error "groq down", fun _ => .ok "x"⟩
      "input" none).agent_name = "generation_agent" :=
  ⟨(C10_run_total ⟨"generation_agent", "sys", "gemma3:12b"⟩
      ⟨true, true, fun _ => .error "boom", fun _ _ _ => .error "groq down", fun _ => .ok "x"⟩
      "input" none).2.2 "boom" "groq down" rfl rfl rfl (fun _ => rfl) (fun _ _ _ => rfl),
   (C10_run_total ⟨"generation_agent", "sys", "gemma3:12b"⟩
      ⟨true, true, fun _ => .error "boom", fun _ _ _ => .error "groq down", fun _ => .ok "x"⟩
      "input" none).1⟩

theorem lookupMapping_mem (t : String) (l : List (String × String × String))
    (m r : String) (h : lookupMapping t l = some (m, r)) : (t, m, r) ∈ l := by
  induction l with
  | nil => simp [lookupMapping] at h
  | cons hd tl ih =>
      obtain ⟨t', m', r'⟩ := hd
      simp only [lookupMapping] at h
      by_cases ht : t' = t
      · rw [if_pos ht] at h
        cases h
        subst ht
        exact List.mem_cons_self _ _
      · rw [if_neg ht] at h
        exact List.mem_cons_of_mem _ (ih h)

theorem fallbackModel_in_registry (tt td : String) :
    (MODEL_STRENGTHS.map Prod.fst).contains
      (getFallbackRecommendation tt td).recommended_model = true := by
  unfold getFallbackRecommendation
  cases h : lookupMapping tt fallbackMappings with
  | none => rfl
  | some mr =>
      obtain ⟨m, r⟩ := mr
      have hmem := lookupMapping_mem _ _ _ _ h
      simp only [fallbackMappings] at hmem
      simp only [List.mem_cons, List.not_mem_nil, or_false, Prod.mk.injEq] at hmem
      rcases hmem with ⟨-, rfl, -⟩ | ⟨-, rfl, -⟩ | ⟨-, rfl, -⟩ | ⟨-, rfl, -⟩ | ⟨-, rfl, -⟩ |
        ⟨-, rfl, -⟩ | ⟨-, rfl, -⟩ | ⟨-, rfl, -⟩ | ⟨-, rfl, -⟩ | ⟨-, rfl, -⟩ | ⟨-, rfl, -⟩ <;>
        rfl

theorem validateRecommendation_cases (parsed : Json) (tt td : String) (r : Recommendation)
    (h : validateRecommendation parsed tt td = .ok r) :
    (MODEL_STRENGTHS.map Prod.fst).contains r.recommended_model = true ∧
    (r.fallback_used = true → r = getFallbackRecommendation tt td) := by
  simp only [validateRecommendation] at h
  rw [bind_ok_iff] at h
  obtain ⟨ta, hta, h⟩ := h
  rw [bind_ok_iff] at h
  obtain ⟨rm, hrm, h⟩ := h
  rw [bind_ok_iff] at h
  obtain ⟨rs, hrs, h⟩ := h
  rw [bind_ok_iff] at h
  obtain ⟨cj, hcj, h⟩ := h
  rw [bind_ok_iff] at h
  obtain ⟨conf, hconf, h⟩ := h
  rw [bind_ok_iff] at h
  obtain ⟨alts, halts, h⟩ := h
  by_cases hc : (MODEL_STRENGTHS.map Prod.fst).contains (pyStr rm) = true
  · rw [if_pos hc] at h
    simp only [Pure.pure, Except.pure] at h
    cases h
    exact ⟨hc, fun hf => by simp at hf⟩
  · rw [if_neg hc] at h
    simp only [Pure.pure, Except.pure] at h
    cases h
    constructor
    · exact fallbackModel_in_registry tt td
    · intro _
      rfl

/-- C7 (confirmed; `MODEL_STRENGTHS` modelled from the spec): the
advisor is total, its recommended model is always a registry key, a
fallback-flagged result is exactly the static rule-table recommendation,
and a failed advisor call always produces that fallback. -/
theorem C7_advisor_recommendation (callRes : Except PyErr String) (tt td : String) :
    (MODEL_STRENGTHS.map Prod.fst).contains
      (analyzeAndAssignModel callRes tt td).recommended_model = true ∧
    ((analyzeAndAssignModel callRes tt td).fallback_used = true →
      analyzeAndAssignModel callRes tt td = getFallbackRecommendation tt td) ∧
    (∀ e, callRes = .error e →
      analyzeAndAssignModel callRes tt td = getFallbackRecommendation tt td ∧
      (getFallbackRecommendation tt td).fallback_used = true) := by
  simp only [analyzeAndAssignModel]
  cases callRes with
  | error e =>
      simp only [bindE_error]
      exact ⟨fallbackModel_in_registry tt td, fun _ => by trivial, fun _ _ => ⟨by trivial, by trivial⟩⟩
  | ok s =>
      simp only [bindE_ok]
      cases hex : extractObj s with
      | none =>
          simp only [toParsed, hex, bindE_error]
          exact ⟨fallbackModel_in_registry tt td, fun _ => by trivial, fun e he => by cases he⟩
      | some parsed =>
          simp only [toParsed, hex, bindE_ok]
          cases hv : validateRecommendation parsed tt td with
          | error e =>
              exact ⟨fallbackModel_in_registry tt td, fun _ => by trivial, fun e' he => by cases he⟩
          | ok r =>
              obtain ⟨h1, h2⟩ := validateRecommendation_cases _ _ _ _ hv
              exact ⟨h1, h2, fun e' he => by cases he⟩

theorem C7_witness :
    (MODEL_STRENGTHS.map Prod.fst).contains
      (analyzeAndAssignModel (.error .typeError) "hypothesis_ranking" "rank them").recommended_model
      = true ∧
    analyzeAndAssignModel (.error .typeError) "hypothesis_ranking" "rank them" =
      getFallbackRecommendation "hypothesis_ranking" "rank them" :=
  ⟨(C7_advisor_recommendation (.error .typeError) "hypothesis_ranking" "rank them").1,
   ((C7_advisor_recommendation (.error .typeError) "hypothesis_ranking" "rank them").2.2
     .typeError rfl).1⟩

theorem generateHypotheses_fail (ids : Nat → String) (k : Nat) (query : String) (maxH : Nat)
    (out : String) (meta : Json) (h : extractGen out = none) :
    generateHypotheses ids k query maxH out meta = .ok (genFallback ids k query out meta) := by
  simp [generateHypotheses, genTryBody, toParsed, h, bindE_error, runCatching]

theorem retrieveKnowledge_fail (cfg : SearchCfg) (hyps : List Json) (out : String)
    (meta : Json) (ps : Bool) (h : extractObj out = none) :
    retrieveKnowledge cfg hyps out meta ps = mapME (proxFallbackOne cfg meta ps) hyps := by
  simp [retrieveKnowledge, proxTryBody, toParsed, h, bindE_error, runCatching]

theorem evolveOneRound_fail (ids : Nat → String) (k : Nat) (roundNum : Nat)
    (current : List Json) (out : String) (meta : Json) (h : extractObj out = none) :
    evolveOneRound ids k roundNum current out meta =
      (do
        let l ← mapMEIdx (evoFallbackOne ids meta roundNum k) 0 current
        pure (l, k + current.length)) := by
  simp [evolveOneRound, evoTryBody, toParsed, h, bindE_error, runCatching]

theorem finalReview_fail (hyps : List Json) (out : String) (meta : Json)
    (h : extractObj out = none) :
    finalReview hyps out meta =
      (do
        let l ← mapME (metaFallbackOne meta) hyps
        pure (Json.obj [("final_reviews", .arr l),
          ("research_priorities", .str "All hypotheses show promise and warrant investigation"),
          ("overall_assessment", .str "Solid portfolio of research directions with good potential"),
          ("meta_review_metadata", meta)])) := by
  simp [finalReview, metaTryBody, toParsed, h, bindE_error, runCatching]

theorem HypOk_isObj (h : Json) (hh : HypOk h) : h.isObj = true := by
  obtain ⟨fs, rfl, -⟩ := hh
  rfl

theorem CritOk_isObj (c : Json) (hc : CritOk c) : c.isObj = true := by
  obtain ⟨fs, rfl, -⟩ := hc
  rfl

theorem RevOk_isObj (r : Json) (hr : RevOk r) : r.isObj = true := by
  obtain ⟨fs, rfl, -⟩ := hr
  rfl

theorem isObj_exists (x : Json) (hx : x.isObj = true) : ∃ fs, x = .obj fs := by
  cases x <;> simp [Json.isObj] at hx ⊢

theorem mapMEIdx_ok_forall {α β : Type} (f : Nat → α → Except PyErr β) (l : List α) :
    ∀ (s : Nat), (∀ i x, x ∈ l → ∃ y, f i x = .ok y) → ∃ l', mapMEIdx f s l = .ok l' := by
  induction l with
  | nil => exact fun s _ => ⟨[], rfl⟩
  | cons x xs ih =>
      intro s h
      obtain ⟨y, hy⟩ := h s x (List.mem_cons_self _ _)
      obtain ⟨ys, hys⟩ := ih (s + 1) (fun i z hz => h i z (List.mem_cons_of_mem _ hz))
      exact ⟨y :: ys, by simp [mapMEIdx, hy, hys, bindE_ok]⟩

theorem mapMEIdx_length {α β : Type} (f : Nat → α → Except PyErr β) :
    ∀ (l : List α) (s : Nat) (l' : List β), mapMEIdx f s l = .ok l' → l'.length = l.length := by
  intro l
  induction l with
  | nil => intro s l' h; simp [mapMEIdx] at h; simp [h]
  | cons x xs ih =>
      intro s l' h
      simp only [mapMEIdx] at h
      rw [bind_ok_iff] at h
      obtain ⟨y, hy, h⟩ := h
      rw [bind_ok_iff] at h
      obtain ⟨ys, hys, h⟩ := h
      simp only [Pure.pure, Except.pure] at h
      cases h
      simp [ih _ _ hys]

theorem pyFirstMatch_ok (p : Json → Except PyErr Bool) (l : List Json)
    (h : ∀ x ∈ l, ∃ b, p x = .ok b) :
    ∃ o, pyFirstMatch p l = .ok o ∧ ∀ x, o = some x → x ∈ l := by
  induction l with
  | nil => exact ⟨none, rfl, by simp⟩
  | cons hd tl ih =>
      obtain ⟨b, hb⟩ := h hd (List.mem_cons_self _ _)
      obtain ⟨o, ho, hmem⟩ := ih (fun x hx => h x (List.mem_cons_of_mem _ hx))
      cases b with
      | true =>
          refine ⟨some hd, ?_, ?_⟩
          · simp [pyFirstMatch, hb, bindE_ok, Pure.pure, Except.pure]
          · intro x hx
            cases hx
            exact List.mem_cons_self _ _
      | false =>
          refine ⟨o, ?_, ?_⟩
          · simp [pyFirstMatch, hb, bindE_ok, ho]
          · intro x hx
            exact List.mem_cons_of_mem _ (hmem x hx)

theorem dictGet_obj (fs : List (String × Json)) (k : String) (d : Json) :
    dictGet (.obj fs) k d = .ok ((assocFind k fs).getD d) := rfl

theorem pydStrList_map_str (ss : List String) :
    pydStrList (.arr (ss.map Json.str)) = .ok ss := by
  simp only [pydStrList]
  induction ss with
  | nil => rfl
  | cons s tl ih => simp [mapME, pydStr, bindE_ok, ih, Pure.pure, Except.pure]

theorem idMatch_ok (key : String) (hyp x : Json) (hh : hyp.isObj = true)
    (hx : x.isObj = true) : ∃ b, idMatch key hyp x = .ok b := by
  obtain ⟨hfs, rfl⟩ := isObj_exists hyp hh
  obtain ⟨xfs, rfl⟩ := isObj_exists x hx
  exact ⟨_, rfl⟩

/-! ### Success of the formatting helpers on dict-shaped inputs -/

theorem formatKnowledgeOne_ok (i : Nat) (x : Json) (hx : x.isObj = true) :
    ∃ y, formatKnowledgeOne i x = .ok y := by
  obtain ⟨fs, rfl⟩ := isObj_exists x hx
  cases hra : (assocFind "research_approach" fs).isSome <;>
    simp [formatKnowledgeOne, dictGet, pyContains, bindE_ok, hra, Pure.pure, Except.pure]

theorem formatKnowledgeInput_ok (hyps : List Json) (hh : ∀ h ∈ hyps, h.isObj = true) :
    ∃ s, formatKnowledgeInput hyps = .ok s := by
  obtain ⟨chunks, hch⟩ := mapMEIdx_ok_forall formatKnowledgeOne hyps 0
    (fun i x hx => formatKnowledgeOne_ok i x (hh x hx))
  refine ⟨"HYPOTHESES FOR KNOWLEDGE GROUNDING:\n\n" ++ String.join chunks, ?_⟩
  simp [formatKnowledgeInput, hch, bindE_ok, Pure.pure, Except.pure]

theorem formatReflectionOne_ok (i : Nat) (x : Json) (hx : x.isObj = true) :
    ∃ y, formatReflectionOne i x = .ok y := by
  obtain ⟨fs, rfl⟩ := isObj_exists x hx
  simp [formatReflectionOne, dictGet, bindE_ok, Pure.pure, Except.pure]

theorem formatReflectionInput_ok (hyps : List Json) (hh : ∀ h ∈ hyps, h.isObj = true) :
    ∃ s, formatReflectionInput hyps = .ok s := by
  obtain ⟨chunks, hch⟩ := mapMEIdx_ok_forall formatReflectionOne hyps 0
    (fun i x hx => formatReflectionOne_ok i x (hh x hx))
  refine ⟨String.join chunks, ?_⟩
  simp [formatReflectionInput, hch, bindE_ok, Pure.pure, Except.pure]

theorem ok_exists {α : Type} (m : Except PyErr α) (h : m.isOk = true) : ∃ v, m = .ok v := by
  cases m with
  | ok v => exact ⟨v, rfl⟩
  | error e => simp [Except.isOk, Except.toBool] at h

theorem formatRankCritique_ok (critiques : List Json) (hyp : Json)
    (hc : ∀ c ∈ critiques, c.isObj = true) (hh : hyp.isObj = true) :
    ∃ s, formatRankCritique critiques hyp = .ok s := by
  cases hemp : critiques.isEmpty with
  | true => exact ⟨"", by simp [formatRankCritique, hemp, Pure.pure, Except.pure]⟩
  | false =>
      obtain ⟨o, ho, hmem⟩ := pyFirstMatch_ok (idMatch "hypothesis_id" hyp) critiques
        (fun x hx => idMatch_ok _ _ _ hh (hc x hx))
      refine ok_exists _ ?_
      cases o with
      | none =>
          simp [formatRankCritique, hemp, ho, bindE_ok, Pure.pure, Except.pure,
            Except.isOk, Except.toBool]
      | some c =>
          obtain ⟨cfs, rfl⟩ := isObj_exists c (hc c (hmem c rfl))
          simp [formatRankCritique, hemp, ho, bindE_ok, dictGet, Pure.pure, Except.pure,
            Except.isOk, Except.toBool]

theorem formatEvoCritique_ok (critiques : List Json) (hyp : Json)
    (hc : ∀ c ∈ critiques, c.isObj = true) (hh : hyp.isObj = true) :
    ∃ s, formatEvoCritique critiques hyp = .ok s := by
  cases hemp : critiques.isEmpty with
  | true => exact ⟨"", by simp [formatEvoCritique, hemp, Pure.pure, Except.pure]⟩
  | false =>
      obtain ⟨o, ho, hmem⟩ := pyFirstMatch_ok (idMatch "hypothesis_id" hyp) critiques
        (fun x hx => idMatch_ok _ _ _ hh (hc x hx))
      refine ok_exists _ ?_
      cases o with
      | none =>
          simp [formatEvoCritique, hemp, ho, bindE_ok, Pure.pure, Except.pure,
            Except.isOk, Except.toBool]
      | some c =>
          obtain ⟨cfs, rfl⟩ := isObj_exists c (hc c (hmem c rfl))
          simp [formatEvoCritique, hemp, ho, bindE_ok, dictGet, Pure.pure, Except.pure,
            Except.isOk, Except.toBool]

theorem formatMetaRanking_ok (rankings : List Json) (hyp : Json)
    (hr : ∀ r ∈ rankings, r.isObj = true) (hh : hyp.isObj = true) :
    ∃ s, formatMetaRanking rankings hyp = .ok s := by
  cases hemp : rankings.isEmpty with
  | true => exact ⟨"", by simp [formatMetaRanking, hemp, Pure.pure, Except.pure]⟩
  | false =>
      obtain ⟨o, ho, hmem⟩ := pyFirstMatch_ok (idMatch "id" hyp) rankings
        (fun x hx => idMatch_ok _ _ _ hh (hr x hx))
      refine ok_exists _ ?_
      cases o with
      | none =>
          simp [formatMetaRanking, hemp, ho, bindE_ok, Pure.pure, Except.pure,
            Except.isOk, Except.toBool]
      | some c =>
          obtain ⟨cfs, rfl⟩ := isObj_exists c (hr c (hmem c rfl))
          simp [formatMetaRanking, hemp, ho, bindE_ok, dictGet, Pure.pure, Except.pure,
            Except.isOk, Except.toBool]

theorem formatMetaCritique_ok (critiques : List Json) (hyp : Json)
    (hc : ∀ c ∈ critiques, c.isObj = true) (hh : hyp.isObj = true) :
    ∃ s, formatMetaCritique critiques hyp = .ok s := by
  cases hemp : critiques.isEmpty with
  | true => exact ⟨"", by simp [formatMetaCritique, hemp, Pure.pure, Except.pure]⟩
  | false =>
      obtain ⟨o, ho, hmem⟩ := pyFirstMatch_ok (idMatch "hypothesis_id" hyp) critiques
        (fun x hx => idMatch_ok _ _ _ hh (hc x hx))
      refine ok_exists _ ?_
      cases o with
      | none =>
          simp [formatMetaCritique, hemp, ho, bindE_ok, Pure.pure, Except.pure,
            Except.isOk, Except.toBool]
      | some c =>
          obtain ⟨cfs, rfl⟩ := isObj_exists c (hc c (hmem c rfl))
          simp [formatMetaCritique, hemp, ho, bindE_ok, dictGet, Pure.pure, Except.pure,
            Except.isOk, Except.toBool]

theorem formatRankingOne_ok (critiques : List Json) (i : Nat) (x : Json)
    (hc : ∀ c ∈ critiques, c.isObj = true) (hx : x.isObj = true) :
    ∃ y, formatRankingOne critiques i x = .ok y := by
  obtain ⟨cs, hcs⟩ := formatRankCritique_ok critiques x hc hx
  obtain ⟨fs, rfl⟩ := isObj_exists x hx
  refine ok_exists _ ?_
  simp [formatRankingOne, dictGet, hcs, bindE_ok, Pure.pure, Except.pure,
    Except.isOk, Except.toBool]

theorem formatRankingInput_ok (hyps critiques : List Json)
    (hh : ∀ h ∈ hyps, h.isObj = true) (hc : ∀ c ∈ critiques, c.isObj = true) :
    ∃ s, formatRankingInput hyps critiques = .ok s := by
  obtain ⟨chunks, hch⟩ := mapMEIdx_ok_forall (formatRankingOne critiques) hyps 0
    (fun i x hx => formatRankingOne_ok critiques i x hc (hh x hx))
  refine ok_exists _ ?_
  simp [formatRankingInput, hch, bindE_ok, Pure.pure, Except.pure, Except.isOk, Except.toBool]

theorem formatEvolutionOne_ok (critiques : List Json) (i : Nat) (x : Json)
    (hc : ∀ c ∈ critiques, c.isObj = true) (hx : x.isObj = true) :
    ∃ y, formatEvolutionOne critiques i x = .ok y := by
  obtain ⟨cs, hcs⟩ := formatEvoCritique_ok critiques x hc hx
  obtain ⟨fs, rfl⟩ := isObj_exists x hx
  refine ok_exists _ ?_
  cases het : (assocFind "evolution_type" fs).isSome <;>
    simp [formatEvolutionOne, dictGet, pyContains, het, hcs, bindE_ok, Pure.pure, Except.pure,
      Except.isOk, Except.toBool]

theorem formatEvolutionInput_ok (hyps critiques : List Json)
    (hh : ∀ h ∈ hyps, h.isObj = true) (hc : ∀ c ∈ critiques, c.isObj = true) :
    ∃ s, formatEvolutionInput hyps critiques = .ok s := by
  obtain ⟨chunks, hch⟩ := mapMEIdx_ok_forall (formatEvolutionOne critiques) hyps 0
    (fun i x hx => formatEvolutionOne_ok critiques i x hc (hh x hx))
  refine ok_exists _ ?_
  simp [formatEvolutionInput, hch, bindE_ok, Pure.pure, Except.pure, Except.isOk, Except.toBool]

theorem formatMetaReviewOne_ok (critiques rankings : List Json) (i : Nat) (x : Json)
    (hc : ∀ c ∈ critiques, c.isObj = true) (hr : ∀ r ∈ rankings, r.isObj = true)
    (hx : x.isObj = true) :
    ∃ y, formatMetaReviewOne critiques rankings i x = .ok y := by
  obtain ⟨rs, hrs⟩ := formatMetaRanking_ok rankings x hr hx
  obtain ⟨cs, hcs⟩ := formatMetaCritique_ok critiques x hc hx
  obtain ⟨fs, rfl⟩ := isObj_exists x hx
  refine ok_exists _ ?_
  cases het : (assocFind "evolution_type" fs).isSome <;>
    simp [formatMetaReviewOne, dictGet, pyContains, het, hrs, hcs, bindE_ok,
      Pure.pure, Except.pure, Except.isOk, Except.toBool]

theorem formatMetaReviewInput_ok (hyps critiques rankings : List Json)
    (hh : ∀ h ∈ hyps, h.isObj = true) (hc : ∀ c ∈ critiques, c.isObj = true)
    (hr : ∀ r ∈ rankings, r.isObj = true) :
    ∃ s, formatMetaReviewInput hyps critiques rankings = .ok s := by
  obtain ⟨chunks, hch⟩ := mapMEIdx_ok_forall (formatMetaReviewOne critiques rankings) hyps 0
    (fun i x hx => formatMetaReviewOne_ok critiques rankings i x hc hr (hh x hx))
  refine ok_exists _ ?_
  simp [formatMetaReviewInput, hch, bindE_ok, Pure.pure, Except.pure, Except.isOk, Except.toBool]

/-! ### Shape of the per-hypothesis fallback records -/

theorem genFallback_singleton (ids : Nat → String) (k : Nat) (query out : String)
    (meta : Json) : ∃ hyp, (genFallback ids k query out meta).1 = [hyp] ∧ HypOk hyp := by
  refine ⟨_, rfl, ?_⟩
  exact ⟨_, rfl, ⟨_, rfl⟩, ⟨_, rfl⟩, ⟨_, rfl⟩, ⟨_, rfl⟩, Or.inr ⟨_, rfl⟩⟩

theorem HypOk_after_update (fs : List (String × Json)) (upds : List (String × Json))
    (hks : ∀ kv ∈ upds, kv.1 ≠ "id" ∧ kv.1 ≠ "title" ∧ kv.1 ≠ "description" ∧
      kv.1 ≠ "reasoning" ∧ kv.1 ≠ "research_approach")
    (hh : HypOk (.obj fs)) :
    HypOk (.obj (upds.foldl (fun acc kv => assocSet kv.1 kv.2 acc) fs)) := by
  obtain ⟨fs0, heq, h1, h2, h3, h4, h5⟩ := hh
  injection heq with heq
  subst heq
  refine ⟨_, rfl, ?_, ?_, ?_, ?_, ?_⟩
  · obtain ⟨s, hs⟩ := h1
    exact ⟨s, by rw [dictUpdate_find_ne fs upds _ (fun kv hkv => (hks kv hkv).1)]; exact hs⟩
  · obtain ⟨s, hs⟩ := h2
    exact ⟨s, by rw [dictUpdate_find_ne fs upds _ (fun kv hkv => (hks kv hkv).2.1)]; exact hs⟩
  · obtain ⟨s, hs⟩ := h3
    exact ⟨s, by rw [dictUpdate_find_ne fs upds _ (fun kv hkv => (hks kv hkv).2.2.1)]; exact hs⟩
  · obtain ⟨s, hs⟩ := h4
    exact ⟨s, by rw [dictUpdate_find_ne fs upds _ (fun kv hkv => (hks kv hkv).2.2.2.1)]; exact hs⟩
  · rcases h5 with hnone | ⟨s, hs⟩
    · exact Or.inl (by
        rw [dictUpdate_find_ne fs upds _ (fun kv hkv => (hks kv hkv).2.2.2.2)]; exact hnone)
    · exact Or.inr ⟨s, by
        rw [dictUpdate_find_ne fs upds _ (fun kv hkv => (hks kv hkv).2.2.2.2)]; exact hs⟩

theorem assocFind_foldl_of_set (k : String) (v : Json) (pre post : List (String × Json))
    (fields : List (String × Json)) (hpre : ∀ kv ∈ pre, True) (hpost : ∀ kv ∈ post, kv.1 ≠ k) :
    assocFind k ((pre ++ (k, v) :: post).foldl (fun acc kv => assocSet kv.1 kv.2 acc) fields) =
      some v := by
  rw [List.foldl_append, List.foldl_cons]
  rw [dictUpdate_find_ne _ _ _ hpost]
  exact assocFind_set_self k v _

theorem proxFallbackOne_ok (cfg : SearchCfg) (meta : Json) (ps : Bool) (hyp : Json)
    (hh : HypOk hyp) : ∃ kn, proxFallbackOne cfg meta ps hyp = .ok kn ∧ KnowOk kn := by
  obtain ⟨fs, rfl, ⟨idS, hid⟩, ⟨tS, ht⟩, ⟨dS, hd⟩, -, -⟩ := hh
  simp only [proxFallbackOne, dictGet, hid, ht, hd, Option.getD, bindE_ok,
    pyConcatWithSpace, pyTakeVal, pyTruthy]
  cases ps with
  | false =>
      simp only [Bool.false_and]
      rw [if_neg Bool.false_ne_true]
      refine ⟨_, rfl, ?_⟩
      exact ⟨_, rfl, ⟨["Recent peer-reviewed literature"], rfl⟩⟩
  | true =>
      simp only [List.isEmpty_cons, Bool.not_false, Bool.true_and]
      rw [if_pos (by trivial)]
      simp only [pyTakeVal, bindE_ok, performWebSearch]
      cases hsvc : cfg.hasService with
      | true =>
          try simp only [hsvc]
          rw [if_pos (by trivial)]
          simp only [Pure.pure, Except.pure, bindE_ok, dictUpdate]
          refine ⟨_, rfl, ?_⟩
          exact ⟨_, rfl, ⟨["Recent peer-reviewed literature"], rfl⟩⟩
      | false =>
          try simp only [hsvc]
          rw [if_neg Bool.false_ne_true]
          simp only [pyIterate, bindE_ok, mapME, Pure.pure, Except.pure, dictUpdate]
          refine ⟨_, rfl, ?_⟩
          exact ⟨_, rfl, ⟨["Recent peer-reviewed literature"], rfl⟩⟩

theorem reflFallbackOne_CritOk (meta hyp : Json) (hh : hyp.isObj = true) :
    ∃ c, reflFallbackOne meta hyp = .ok c ∧ CritOk c := by
  obtain ⟨fs, rfl⟩ := isObj_exists hyp hh
  refine ⟨_, rfl, ?_⟩
  exact ⟨_, rfl, ⟨0.7, rfl⟩, ⟨0.6, rfl⟩, ⟨0.8, rfl⟩, ⟨0.7, rfl⟩⟩

theorem rankFallbackScore_ok (critiques : List Json) (hyp : Json) (i : Nat)
    (hc : ∀ c ∈ critiques, CritOk c) (hh : hyp.isObj = true) :
    ∃ q, rankFallbackScore critiques hyp i = .ok q := by
  cases hemp : critiques.isEmpty with
  | true => exact ⟨0.7 - (i : ℚ) * 0.1, by
      simp [rankFallbackScore, hemp, Pure.pure, Except.pure]⟩
  | false =>
      obtain ⟨o, ho, hmem⟩ := pyFirstMatch_ok (idMatch "hypothesis_id" hyp) critiques
        (fun x hx => idMatch_ok _ _ _ hh (CritOk_isObj x (hc x hx)))
      cases o with
      | none => exact ⟨0.6, by
          simp [rankFallbackScore, hemp, ho, bindE_ok, Pure.pure, Except.pure]⟩
      | some c =>
          obtain ⟨cfs, rfl, ⟨v, hv⟩, ⟨n, hn⟩, ⟨f, hf⟩, ⟨im, him⟩⟩ := hc c (hmem c rfl)
          refine ok_exists _ ?_
          simp [rankFallbackScore, hemp, ho, bindE_ok, dictGet, hv, hn, hf, him, pyMulQ,
            Pure.pure, Except.pure, Except.isOk, Except.toBool]

theorem rankFallbackOne_ok (critiques : List Json) (meta : Json) (i : Nat) (hyp : Json)
    (hc : ∀ c ∈ critiques, CritOk c) (hh : HypOk hyp) :
    ∃ u, rankFallbackOne critiques meta i hyp = .ok u ∧ HypOk u := by
  obtain ⟨q, hq⟩ := rankFallbackScore_ok critiques hyp i hc (HypOk_isObj _ hh)
  obtain ⟨fs, heq, hflds⟩ := hh
  subst heq
  have hex : ∃ u, rankFallbackOne critiques meta i (.obj fs) = .ok u := by
    refine ok_exists _ ?_
    simp [rankFallbackOne, hq, bindE_ok, dictUpdate, Except.isOk, Except.toBool]
  obtain ⟨u, hu⟩ := hex
  refine ⟨u, hu, ?_⟩
  simp only [rankFallbackOne, hq, bindE_ok] at hu
  obtain ⟨fs2, hj, hu2⟩ := dictUpdate_obj _ _ _ hu
  injection hj with hj
  subst hj
  subst hu2
  refine HypOk_after_update fs _ ?_ ⟨fs, rfl, hflds⟩
  intro kv hkv
  fin_cases hkv <;> refine ⟨?_, ?_, ?_, ?_, ?_⟩ <;> simp

theorem evoFallbackOne_ok (ids : Nat → String) (meta : Json) (roundNum k i : Nat)
    (hyp : Json) (hh : HypOk hyp) :
    ∃ u, evoFallbackOne ids meta roundNum k i hyp = .ok u ∧ HypOk u := by
  obtain ⟨fs, heq, h1, h2, ⟨dS, hd⟩, ⟨rS, hr⟩, h5⟩ := hh
  subst heq
  have hex : ∃ u, evoFallbackOne ids meta roundNum k i (.obj fs) = .ok u := by
    refine ok_exists _ ?_
    simp [evoFallbackOne, dictGet, bindE_ok, dictUpdate, Except.isOk, Except.toBool]
  obtain ⟨u, hu⟩ := hex
  refine ⟨u, hu, ?_⟩
  simp only [evoFallbackOne, dictGet, bindE_ok] at hu
  obtain ⟨fs, hj, hu2⟩ := dictUpdate_obj _ _ _ hu
  injection hj with hj
  subst hj
  subst hu2
  refine ⟨_, rfl, ?_, ?_, ?_, ?_, ?_⟩
  · refine ⟨ids (k + i), ?_⟩
    have h := assocFind_foldl_of_set "id" (.str (ids (k + i))) []
      [("original_id", ((assocFind "id" fs).getD (.str "unknown"))),
       ("title", .str ("Evolved: " ++ pyStr ((assocFind "title" fs).getD (.str "Hypothesis")))),
       ("evolution_type", .str "refinement"),
       ("improvements", .arr [.str "Enhanced specificity", .str "Improved testability"]),
       ("evolution_justification", .str "Systematic refinement applied"),
       ("evolution_round", .num (roundNum + 1)), ("agent_metadata", meta)] fs
      (fun kv hkv => trivial) ?_
    · simpa using h
    · intro kv hkv
      fin_cases hkv <;> simp
  · refine ⟨"Evolved: " ++ pyStr ((assocFind "title" fs).getD (.str "Hypothesis")), ?_⟩
    have h := assocFind_foldl_of_set "title"
      (.str ("Evolved: " ++ pyStr ((assocFind "title" fs).getD (.str "Hypothesis"))))
      [("id", .str (ids (k + i))),
       ("original_id", ((assocFind "id" fs).getD (.str "unknown")))]
      [("evolution_type", .str "refinement"),
       ("improvements", .arr [.str "Enhanced specificity", .str "Improved testability"]),
       ("evolution_justification", .str "Systematic refinement applied"),
       ("evolution_round", .num (roundNum + 1)), ("agent_metadata", meta)] fs
      (fun kv hkv => trivial) ?_
    · simpa using h
    · intro kv hkv
      fin_cases hkv <;> simp
  · refine ⟨dS, ?_⟩
    rw [dictUpdate_find_ne fs _ _ ?_]
    · exact hd
    · intro kv hkv
      fin_cases hkv <;> simp
  · refine ⟨rS, ?_⟩
    rw [dictUpdate_find_ne fs _ _ ?_]
    · exact hr
    · intro kv hkv
      fin_cases hkv <;> simp
  · rcases h5 with hnone | ⟨s, hs⟩
    · refine Or.inl ?_
      rw [dictUpdate_find_ne fs _ _ ?_]
      · exact hnone
      · intro kv hkv
        fin_cases hkv <;> simp
    · refine Or.inr ⟨s, ?_⟩
      rw [dictUpdate_find_ne fs _ _ ?_]
      · exact hs
      · intro kv hkv
        fin_cases hkv <;> simp

theorem metaFallbackOne_RevOk (meta hyp : Json) (hh : hyp.isObj = true) :
    ∃ r, metaFallbackOne meta hyp = .ok r ∧ RevOk r := by
  obtain ⟨fs, rfl⟩ := isObj_exists hyp hh
  refine ⟨_, rfl, ?_⟩
  exact ⟨_, rfl, ⟨_, rfl⟩, ⟨0.7, rfl⟩, ⟨_, rfl⟩⟩

theorem mapME_ok_pred {α β : Type} (f : α → Except PyErr β) (P : β → Prop) (l : List α)
    (h : ∀ x ∈ l, ∃ y, f x = .ok y ∧ P y) :
    ∃ l', mapME f l = .ok l' ∧ (∀ y ∈ l', P y) ∧ l'.length = l.length := by
  induction l with
  | nil => exact ⟨[], rfl, by simp, rfl⟩
  | cons x xs ih =>
      obtain ⟨y, hy, hP⟩ := h x (List.mem_cons_self _ _)
      obtain ⟨ys, hys, hPs, hlen⟩ := ih (fun z hz => h z (List.mem_cons_of_mem _ hz))
      refine ⟨y :: ys, ?_, ?_, by simp [hlen]⟩
      · simp [mapME, hy, hys, bindE_ok, Pure.pure, Except.pure]
      · intro z hz
        rcases List.mem_cons.mp hz with rfl | hz2
        · exact hP
        · exact hPs z hz2

theorem mapMEIdx_ok_pred {α β : Type} (f : Nat → α → Except PyErr β) (P : β → Prop)
    (l : List α) : ∀ (s : Nat), (∀ i x, x ∈ l → ∃ y, f i x = .ok y ∧ P y) →
    ∃ l', mapMEIdx f s l = .ok l' ∧ (∀ y ∈ l', P y) ∧ l'.length = l.length := by
  induction l with
  | nil => exact fun s _ => ⟨[], rfl, by simp, rfl⟩
  | cons x xs ih =>
      intro s h
      obtain ⟨y, hy, hP⟩ := h s x (List.mem_cons_self _ _)
      obtain ⟨ys, hys, hPs, hlen⟩ := ih (s + 1) (fun i z hz => h i z (List.mem_cons_of_mem _ hz))
      refine ⟨y :: ys, ?_, ?_, by simp [hlen]⟩
      · simp [mapMEIdx, hy, hys, bindE_ok, Pure.pure, Except.pure]
      · intro z hz
        rcases List.mem_cons.mp hz with rfl | hz2
        · exact hP
        · exact hPs z hz2

/-! ### Each stage executor succeeds along the all-fallback path -/

theorem runGenerationStep_fallback (P : Prompts) (ids : Nat → String) (k : Nat)
    (query : String) (maxH : Nat) (resp : String) (hg : extractGen resp = none) :
    ∃ st hyps, runGenerationStep P ids k query maxH resp = .ok (st, hyps, k + 1) ∧
      hyps.length = 1 ∧ (∀ h ∈ hyps, HypOk h) ∧ st.step_name = "hypothesis_generation" := by
  refine ⟨?st, ?hyps, ?heq, ?hlen, ?hmem, ?hname⟩
  case heq =>
    simp only [runGenerationStep, generateHypotheses_fail _ _ _ _ _ _ hg, bindE_ok, genFallback,
      Pure.pure, Except.pure]
    exact rfl
  · rfl
  · intro h hm
    rcases List.mem_singleton.mp hm with rfl
    exact ⟨_, rfl, ⟨_, rfl⟩, ⟨_, rfl⟩, ⟨_, rfl⟩, ⟨_, rfl⟩, Or.inr ⟨_, rfl⟩⟩
  · rfl

theorem runProximityStep_fallback (P : Prompts) (cfg : SearchCfg) (hyps : List Json)
    (resp : String) (hp : extractObj resp = none) (hh : ∀ h ∈ hyps, HypOk h) :
    ∃ st kd, runProximityStep P cfg hyps resp = .ok (st, kd) ∧
      (∀ kn ∈ kd, KnowOk kn) ∧ st.step_name = "knowledge_retrieval" := by
  obtain ⟨fmt, hfmt⟩ := formatKnowledgeInput_ok hyps (fun h hm => HypOk_isObj h (hh h hm))
  obtain ⟨kd, hkd, hK, hlen⟩ := mapME_ok_pred
    (proxFallbackOne cfg (mkRunMeta "meta-llama/llama-4-scout-17b-16e-instruct"
      (P.knowledgeTemplate fmt) resp) true) KnowOk hyps
    (fun x hx => proxFallbackOne_ok cfg _ true x (hh x hx))
  refine ⟨?st, kd, ?heq, hK, ?hname⟩
  case heq =>
    simp only [runProximityStep, hfmt, bindE_ok, retrieveKnowledge_fail _ _ _ _ _ hp, hkd,
      Pure.pure, Except.pure]
    exact rfl
  case hname => rfl

theorem runReflectionStep_fallback (P : Prompts) (hyps : List Json) (resp : String)
    (hcr : extractObj resp = none) (hh : ∀ h ∈ hyps, HypOk h) :
    ∃ st cd, runReflectionStep P hyps resp = .ok (st, cd) ∧
      (∀ c ∈ cd, CritOk c) ∧ cd.length = hyps.length ∧
      st.step_name = "hypothesis_critique" := by
  obtain ⟨fmt, hfmt⟩ := formatReflectionInput_ok hyps (fun h hm => HypOk_isObj h (hh h hm))
  obtain ⟨cd, hcd, hC, hlen⟩ := mapME_ok_pred
    (reflFallbackOne (mkRunMeta "llama-3.3-70b-versatile" (P.critiqueTemplate fmt) resp))
    CritOk hyps
    (fun x hx => reflFallbackOne_CritOk _ x (HypOk_isObj x (hh x hx)))
  refine ⟨?st, cd, ?heq, hC, hlen, ?hname⟩
  case heq =>
    simp only [runReflectionStep, hfmt, bindE_ok, critiqueHypotheses_fail _ _ _ hcr, hcd,
      Pure.pure, Except.pure]
    exact rfl
  case hname => rfl

theorem runRankingStep_fallback (P : Prompts) (hyps critiques : List Json) (resp : String)
    (hr : extractObj resp = none) (hh : ∀ h ∈ hyps, HypOk h)
    (hcc : ∀ c ∈ critiques, CritOk c) :
    ∃ st rd, runRankingStep P hyps critiques resp = .ok (st, rd) ∧
      (∀ h ∈ rd, HypOk h) ∧ rd.length = hyps.length ∧
      st.step_name = "hypothesis_ranking" := by
  obtain ⟨fmt, hfmt⟩ := formatRankingInput_ok hyps critiques
    (fun h hm => HypOk_isObj h (hh h hm)) (fun c hm => CritOk_isObj c (hcc c hm))
  obtain ⟨rd, hrd, hH, hlen⟩ := mapMEIdx_ok_pred
    (rankFallbackOne critiques (mkRunMeta "qwen/qwen3-32b" (P.rankingTemplate fmt) resp))
    HypOk hyps 0
    (fun i x hx => rankFallbackOne_ok critiques _ i x hcc (hh x hx))
  refine ⟨?st, rd, ?heq, hH, hlen, ?hname⟩
  case heq =>
    simp only [runRankingStep, hfmt, bindE_ok, rankHypotheses_fail _ _ _ _ hr, hrd,
      Pure.pure, Except.pure]
    exact rfl
  case hname => rfl

theorem runEvolutionStep_fallback (P : Prompts) (ids : Nat → String) (k : Nat)
    (hyps critiques : List Json) (resps : Nat → String)
    (he : extractObj (resps 0) = none) (hh : ∀ h ∈ hyps, HypOk h)
    (hcc : ∀ c ∈ critiques, CritOk c) :
    ∃ st ed, runEvolutionStep P ids k hyps critiques 1 resps =
        .ok (st, ed, k + hyps.length) ∧
      (∀ h ∈ ed, HypOk h) ∧ ed.length = hyps.length ∧
      st.step_name = "hypothesis_evolution" := by
  obtain ⟨fmt, hfmt⟩ := formatEvolutionInput_ok hyps critiques
    (fun h hm => HypOk_isObj h (hh h hm)) (fun c hm => CritOk_isObj c (hcc c hm))
  obtain ⟨ed, hed, hH, hlen⟩ := mapMEIdx_ok_pred
    (evoFallbackOne ids (mkRunMeta "llama-3.3-70b-versatile"
      (P.evolutionTemplate fmt (0 + 1)) (resps 0)) 0 k)
    HypOk hyps 0
    (fun i x hx => evoFallbackOne_ok ids _ 0 k i x (hh x hx))
  refine ⟨?st, ed, ?heq, hH, hlen, ?hname⟩
  case heq =>
    simp only [runEvolutionStep, evolveHypotheses, evolveLoop, hfmt, bindE_ok,
      evolveOneRound_fail _ _ _ _ _ _ he, hed, Pure.pure, Except.pure]
    exact rfl
  case hname => rfl

theorem runMetaReviewStep_fallback (P : Prompts) (hyps critiques rankings : List Json)
    (resp : String) (hmr : extractObj resp = none) (hh : ∀ h ∈ hyps, HypOk h)
    (hcc : ∀ c ∈ critiques, CritOk c) (hrr : ∀ r ∈ rankings, HypOk r) :
    ∃ st rv, runMetaReviewStep P hyps critiques rankings resp = .ok (st, rv) ∧
      (∀ r ∈ rv, RevOk r) ∧ rv.length = hyps.length ∧
      st.step_name = "meta_review_and_planning" := by
  obtain ⟨fmt, hfmt⟩ := formatMetaReviewInput_ok hyps critiques rankings
    (fun h hm => HypOk_isObj h (hh h hm)) (fun c hm => CritOk_isObj c (hcc c hm))
    (fun r hm => HypOk_isObj r (hrr r hm))
  obtain ⟨rv, hrv, hR, hlen⟩ := mapME_ok_pred
    (metaFallbackOne (mkRunMeta "llama-3.3-70b-versatile" (P.metaReviewTemplate fmt) resp))
    RevOk hyps
    (fun x hx => metaFallbackOne_RevOk _ x (HypOk_isObj x (hh x hx)))
  refine ⟨?st, rv, ?heq, hR, hlen, ?hname⟩
  case heq =>
    simp only [runMetaReviewStep, hfmt, bindE_ok, finalReview_fail _ _ _ hmr, hrv,
      Pure.pure, Except.pure, dictItem, assocFind, jsonElems]
    simp only [String.reduceEq, reduceIte, bindE_ok]
    exact rfl
  case hname => rfl

theorem KnowOk_isObj (kn : Json) (hk : KnowOk kn) : kn.isObj = true := by
  obtain ⟨fs, rfl, -⟩ := hk
  rfl

theorem dictGetEager_obj_ok (fields : List (String × Json)) (k : String) (v : Json) :
    dictGetEager (.obj fields) k (.ok v) = .ok ((assocFind k fields).getD v) := rfl

theorem convertOne_ok (ids : Nat → String) (critiquesData knowledgeData reviewsData : List Json)
    (k i : Nat) (hypData : Json) (hh : HypOk hypData)
    (hc : ∀ c ∈ critiquesData, CritOk c) (hk : ∀ kn ∈ knowledgeData, KnowOk kn)
    (hr : ∀ r ∈ reviewsData, RevOk r) :
    ∃ hm, convertOne ids critiquesData knowledgeData reviewsData k i hypData = .ok hm := by
  have hobj := HypOk_isObj _ hh
  obtain ⟨co, hco, hcmem⟩ := pyFirstMatch_ok (idMatch "hypothesis_id" hypData) critiquesData
    (fun x hx => idMatch_ok _ _ _ hobj (CritOk_isObj x (hc x hx)))
  obtain ⟨ro, hro, hrmem⟩ := pyFirstMatch_ok (idMatch "hypothesis_id" hypData) reviewsData
    (fun x hx => idMatch_ok _ _ _ hobj (RevOk_isObj x (hr x hx)))
  obtain ⟨ko, hko, hkmem⟩ := pyFirstMatch_ok (idMatch "hypothesis_id" hypData) knowledgeData
    (fun x hx => idMatch_ok _ _ _ hobj (KnowOk_isObj x (hk x hx)))
  obtain ⟨fs, heq, ⟨idS, hid⟩, ⟨tS, ht⟩, ⟨dS, hd⟩, ⟨reS, hre⟩, hra⟩ := hh
  subst heq
  have hnovfea : ∃ n f, dictGet (co.getD (.obj [])) "novelty_score" (.num 0.7) = .ok (.num n) ∧
      dictGet (co.getD (.obj [])) "feasibility_score" (.num 0.7) = .ok (.num f) := by
    cases co with
    | none => exact ⟨0.7, 0.7, rfl, rfl⟩
    | some c =>
        obtain ⟨cfs, rfl, -, ⟨n, hn⟩, ⟨f, hf⟩, -⟩ := hc c (hcmem c rfl)
        exact ⟨n, f, by simp [dictGet_obj, hn], by simp [dictGet_obj, hf]⟩
  obtain ⟨nov, fea, hnov, hfea⟩ := hnovfea
  have hconf : ∃ cq, dictGet (ro.getD (.obj [])) "confidence_rating" (.num 0.7) =
      .ok (.num cq) := by
    cases ro with
    | none => exact ⟨0.7, rfl⟩
    | some r =>
        obtain ⟨rfs, rfl, -, ⟨cq, hcq⟩, -⟩ := hr r (hrmem r rfl)
        exact ⟨cq, by simp [dictGet_obj, hcq]⟩
  obtain ⟨confQ, hconfQ⟩ := hconf
  have hcit : ∃ cl cits,
      dictGet (ko.getD (.obj [])) "literature_recommendations" (.arr []) = .ok cl ∧
      pydStrList (if !(pyTruthy cl) then
        Json.arr [.str "Literature review pending", .str "Domain-specific references needed"]
        else cl) = .ok cits := by
    cases ko with
    | none =>
        refine ⟨.arr [], ["Literature review pending", "Domain-specific references needed"],
          rfl, ?_⟩
        simp [pyTruthy, pydStrList, mapME, pydStr, bindE_ok, Pure.pure, Except.pure]
    | some kn =>
        obtain ⟨kfs, rfl, ⟨ss, hss⟩⟩ := hk kn (hkmem kn rfl)
        cases ss with
        | nil =>
            refine ⟨.arr [], ["Literature review pending", "Domain-specific references needed"],
              by simp [dictGet_obj, hss], ?_⟩
            simp [pyTruthy, pydStrList, mapME, pydStr, bindE_ok, Pure.pure, Except.pure]
        | cons s st =>
            refine ⟨.arr ((s :: st).map Json.str), s :: st, by simp [dictGet_obj, hss], ?_⟩
            rw [if_neg (by simp [pyTruthy])]
            exact pydStrList_map_str _
  obtain ⟨citL, citS, hcitL, hcitS⟩ := hcit
  simp only [Bool.not_eq_true'] at hcitS
  have hpc : ∃ b, pyContains (ro.getD (.obj [])) "experimental_plan" = .ok b ∧
      (b = true → ∃ pfs, dictItem (ro.getD (.obj [])) "experimental_plan" = .ok (.obj pfs)) := by
    cases ro with
    | none => exact ⟨false, rfl, by simp⟩
    | some r =>
        obtain ⟨rfs, rfl, ⟨pfs, hp⟩, -, -⟩ := hr r (hrmem r rfl)
        exact ⟨true, by simp [pyContains, hp], fun _ => ⟨pfs, by simp [dictItem, hp]⟩⟩
  obtain ⟨pb, hpb, hpbd⟩ := hpc
  refine ok_exists _ ?_
  cases pb with
  | true =>
      obtain ⟨pfs, hpd⟩ := hpbd rfl
      simp [convertOne, hco, hro, hko, bindE_ok, hpb, hpd, hnov, hfea, hconfQ, hcitL, hcitS,
        dictGetEager_obj_ok, dictGet_obj, hid, ht, hd, hre, pydStr, pydFloat,
        Pure.pure, Except.pure, Except.isOk, Except.toBool]
  | false =>
      rcases hra with hra | ⟨raS, hra⟩ <;>
        simp [convertOne, hco, hro, hko, bindE_ok, hpb, hnov, hfea, hconfQ, hcitL, hcitS,
          dictGetEager_obj_ok, dictGet_obj, hid, ht, hd, hre, hra, pydStr, pydFloat,
          Pure.pure, Except.pure, Except.isOk, Except.toBool]

theorem convertToHypothesisObjects_ok (ids : Nat → String) (k : Nat)
    (hypsData critiquesData knowledgeData reviewsData : List Json)
    (hh : ∀ h ∈ hypsData, HypOk h) (hc : ∀ c ∈ critiquesData, CritOk c)
    (hk : ∀ kn ∈ knowledgeData, KnowOk kn) (hr : ∀ r ∈ reviewsData, RevOk r) :
    ∃ objs, convertToHypothesisObjects ids k hypsData critiquesData knowledgeData reviewsData =
      .ok (objs, k + hypsData.length) ∧ objs.length = hypsData.length := by
  obtain ⟨objs, hobjs, -, hlen⟩ := mapMEIdx_ok_pred
    (convertOne ids critiquesData knowledgeData reviewsData k) (fun _ => True) hypsData 0
    (fun i x hx => by
      obtain ⟨y, hy⟩ := convertOne_ok ids critiquesData knowledgeData reviewsData k i x
        (hh x hx) hc hk hr
      exact ⟨y, hy, trivial⟩)
  exact ⟨objs, by simp [convertToHypothesisObjects, hobjs, bindE_ok, Pure.pure, Except.pure],
    hlen⟩

theorem collabRecsLoop_ok (reviews : List Json) (hr : ∀ r ∈ reviews, RevOk r) :
    ∃ l, collabRecsLoop reviews = .ok l := by
  induction reviews with
  | nil => exact ⟨[], rfl⟩
  | cons r rest ih =>
      obtain ⟨l2, hl2⟩ := ih (fun x hx => hr x (List.mem_cons_of_mem _ hx))
      obtain ⟨rfs, rfl, -, -, ⟨cl, hcl⟩⟩ := hr r (List.mem_cons_self _ _)
      refine ok_exists _ ?_
      simp [collabRecsLoop, dictGet_obj, hcl, pyTakeVal, pyIterate, bindE_ok, hl2,
        Pure.pure, Except.pure, Except.isOk, Except.toBool, Option.getD]

theorem generateRecommendations_ok (hyps : List HypothesisM) (reviews : List Json)
    (hr : ∀ r ∈ reviews, RevOk r) :
    ∃ l, generateRecommendations hyps reviews = .ok l := by
  obtain ⟨l2, hl2⟩ := collabRecsLoop_ok reviews hr
  refine ok_exists _ ?_
  simp [generateRecommendations, hl2, bindE_ok, Pure.pure, Except.pure,
    Except.isOk, Except.toBool]

theorem generateSummary_ok (query : String) (hyps : List HypothesisM) (reviews : List Json)
    (hne : hyps.length ≠ 0) : ∃ s, generateSummary query hyps reviews = .ok s := by
  refine ok_exists _ ?_
  simp [generateSummary, hne, Except.isOk, Except.toBool]

/-- C2 (amended): for every validated input (non-empty query, max
hypotheses in 1..10) and every family of stage responses from which no
JSON can be extracted, the default-configuration pipeline (one evolution
round, knowledge retrieval enabled, any search collaborator) returns a
complete `QueryResponse` whose hypothesis list is the single fallback
hypothesis; no exception escapes on this all-fallback path.  (The
original claim quantified over all response texts; the counterexample
shows a parseable generation response with an empty hypothesis list
makes `_generate_summary` raise ZeroDivisionError.) -/
theorem C2_amended (P : Prompts) (ids : Nat → String) (search : SearchCfg)
    (R : StageResponses) (query : String) (maxH : Nat)
    (hq : pyStrip query.toList ≠ []) (hmax : 1 ≤ maxH ∧ maxH ≤ 10)
    (hg : extractGen R.gen = none) (hp : extractObj R.prox = none)
    (hcr : extractObj R.crit = none) (hr1 : extractObj R.rank1 = none)
    (hev : extractObj (R.evo 0) = none) (hr2 : extractObj R.rank2 = none)
    (hmr : extractObj R.metaRev = none) :
    ∃ r, processScientificQuery P ids ⟨1, true, search⟩ R query maxH = .ok r ∧
      r.hypotheses.length = 1 := by
  obtain ⟨st1, hyps1, h1, hlen1, hH1, -⟩ := runGenerationStep_fallback P ids 1 query maxH R.gen hg
  obtain ⟨st2, kd, h2, hK, -⟩ := runProximityStep_fallback P search hyps1 R.prox hp hH1
  obtain ⟨st3, cd, h3, hC, hclen, -⟩ := runReflectionStep_fallback P hyps1 R.crit hcr hH1
  obtain ⟨st4, rd, h4, hR4, hrlen, -⟩ := runRankingStep_fallback P hyps1 cd R.rank1 hr1 hH1 hC
  have hthr : rd.take 3 = rd := List.take_of_length_le (by rw [hrlen, hlen1]; omega)
  obtain ⟨st5, ed, h5, hHe, helen, -⟩ := runEvolutionStep_fallback P ids 2 (rd.take 3) cd R.evo
    hev (fun x hx => hR4 x (hthr ▸ hx)) hC
  obtain ⟨st6, fin, h6, hHf, hflen, -⟩ := runRankingStep_fallback P ed cd R.rank2 hr2 hHe hC
  obtain ⟨st7, rv, h7, hRv, hrvlen, -⟩ := runMetaReviewStep_fallback P fin cd rd R.metaRev hmr
    hHf hC hR4
  obtain ⟨objs, hconv, holen⟩ := convertToHypothesisObjects_ok ids (2 + (rd.take 3).length)
    fin cd kd rv hHf hC hK hRv
  have hfin1 : fin.length = 1 := by rw [hflen, helen, hthr, hrlen, hlen1]
  obtain ⟨summ, hsumm⟩ := generateSummary_ok query objs rv (by rw [holen, hfin1]; decide)
  obtain ⟨recs, hrecs⟩ := generateRecommendations_ok objs rv hRv
  refine ⟨?r, ?heq, ?hl⟩
  case heq =>
    simp only [processScientificQuery, h1, h2, h3, h4, h5, h6, h7, hconv, hsumm, hrecs,
      bindE_ok, Nat.reduceAdd, Nat.reduceGT, Nat.reduceLT, reduceIte, gt_iff_lt,
      Nat.lt_irrefl, Nat.zero_lt_one, if_true, if_false, Pure.pure, Except.pure]
    exact rfl
  case hl =>
    show objs.length = 1
    rw [holen, hfin1]

theorem evoFallbackOne_round (ids : Nat → String) (meta : Json) (roundNum k i : Nat)
    (hyp u : Json) (hobj : hyp.isObj = true)
    (h : evoFallbackOne ids meta roundNum k i hyp = .ok u) :
    RoundIs ((roundNum : ℚ) + 1) u := by
  obtain ⟨fs, rfl⟩ := isObj_exists hyp hobj
  simp only [evoFallbackOne, dictGet_obj, bindE_ok] at h
  obtain ⟨fs2, hj, hu⟩ := dictUpdate_obj _ _ _ h
  injection hj with hj
  subst hj
  subst hu
  refine ⟨_, rfl, ?_⟩
  have hfind := assocFind_foldl_of_set "evolution_round" (.num ((roundNum : ℚ) + 1))
    [("id", .str (ids (k + i))),
     ("original_id", ((assocFind "id" fs).getD (.str "unknown"))),
     ("title", .str ("Evolved: " ++ pyStr ((assocFind "title" fs).getD (.str "Hypothesis")))),
     ("evolution_type", .str "refinement"),
     ("improvements", .arr [.str "Enhanced specificity", .str "Improved testability"]),
     ("evolution_justification", .str "Systematic refinement applied")]
    [("agent_metadata", meta)] fs (fun kv hkv => trivial) ?_
  · simpa using hfind
  · intro kv hkv
    fin_cases hkv <;> simp

theorem rankFallbackOne_round (critiques : List Json) (meta : Json) (i : Nat) (hyp u : Json)
    (q : ℚ) (h : rankFallbackOne critiques meta i hyp = .ok u) (hev : RoundIs q hyp) :
    RoundIs q u := by
  obtain ⟨fs, rfl, hfind⟩ := hev
  simp only [rankFallbackOne] at h
  rw [bind_ok_iff] at h
  obtain ⟨sc, hsc, h⟩ := h
  obtain ⟨fs2, hj, hu⟩ := dictUpdate_obj _ _ _ h
  injection hj with hj
  subst hj
  subst hu
  refine ⟨_, rfl, ?_⟩
  rw [dictUpdate_find_ne _ _ _ ?_]
  · exact hfind
  · intro kv hkv
    fin_cases hkv <;> simp

theorem runRankingStep_fallback_round (P : Prompts) (hyps critiques : List Json)
    (resp : String) (q : ℚ) (hr : extractObj resp = none)
    (hh : ∀ h ∈ hyps, HypOk h ∧ RoundIs q h) (hcc : ∀ c ∈ critiques, CritOk c) :
    ∃ st rd, runRankingStep P hyps critiques resp = .ok (st, rd) ∧
      (∀ h ∈ rd, HypOk h ∧ RoundIs q h) ∧ rd.length = hyps.length ∧
      st.step_name = "hypothesis_ranking" ∧
      st.agent_outputs = [⟨"ranking_agent",
        "Ranked " ++ toString hyps.length ++ " hypotheses by novelty and feasibility",
        .obj [("ranked_hypotheses", .arr rd), ("model", .str "gemma2-9b-it")]⟩] := by
  obtain ⟨fmt, hfmt⟩ := formatRankingInput_ok hyps critiques
    (fun h hm => HypOk_isObj h (hh h hm).1) (fun c hm => CritOk_isObj c (hcc c hm))
  obtain ⟨rd, hrd, hH, hlen⟩ := mapMEIdx_ok_pred
    (rankFallbackOne critiques (mkRunMeta "qwen/qwen3-32b" (P.rankingTemplate fmt) resp))
    (fun u => HypOk u ∧ RoundIs q u) hyps 0
    (fun i x hx => by
      obtain ⟨u, hu, hHu⟩ := rankFallbackOne_ok critiques _ i x hcc (hh x hx).1
      exact ⟨u, hu, hHu, rankFallbackOne_round _ _ _ _ _ _ hu (hh x hx).2⟩)
  refine ⟨?st, rd, ?heq, hH, hlen, ?hname, ?hout⟩
  case heq =>
    simp only [runRankingStep, hfmt, bindE_ok, rankHypotheses_fail _ _ _ _ hr, hrd,
      Pure.pure, Except.pure]
    exact rfl
  case hname => rfl
  case hout => rfl

theorem runEvolutionStep_fallback2 (P : Prompts) (ids : Nat → String) (k : Nat)
    (hyps critiques : List Json) (resps : Nat → String)
    (he0 : extractObj (resps 0) = none) (he1 : extractObj (resps 1) = none)
    (hh : ∀ h ∈ hyps, HypOk h) (hcc : ∀ c ∈ critiques, CritOk c) :
    ∃ st ed, runEvolutionStep P ids k hyps critiques 2 resps =
        .ok (st, ed, k + hyps.length + hyps.length) ∧
      (∀ h ∈ ed, HypOk h ∧ RoundIs 2 h) ∧ ed.length = hyps.length ∧
      st.step_name = "hypothesis_evolution" := by
  obtain ⟨fmt0, hfmt0⟩ := formatEvolutionInput_ok hyps critiques
    (fun h hm => HypOk_isObj h (hh h hm)) (fun c hm => CritOk_isObj c (hcc c hm))
  obtain ⟨m1, hm1, hH1, hlen1⟩ := mapMEIdx_ok_pred
    (evoFallbackOne ids (mkRunMeta "llama-3.3-70b-versatile"
      (P.evolutionTemplate fmt0 (0 + 1)) (resps 0)) 0 k)
    HypOk hyps 0
    (fun i x hx => evoFallbackOne_ok ids _ 0 k i x (hh x hx))
  obtain ⟨fmt1, hfmt1⟩ := formatEvolutionInput_ok m1 critiques
    (fun h hm => HypOk_isObj h (hH1 h hm)) (fun c hm => CritOk_isObj c (hcc c hm))
  obtain ⟨ed, hed, hH2, hlen2⟩ := mapMEIdx_ok_pred
    (evoFallbackOne ids (mkRunMeta "llama-3.3-70b-versatile"
      (P.evolutionTemplate fmt1 (1 + 1)) (resps 1)) 1 (k + hyps.length))
    (fun u => HypOk u ∧ RoundIs 2 u) m1 0
    (fun i x hx => by
      obtain ⟨u, hu, hHu⟩ := evoFallbackOne_ok ids _ 1 (k + hyps.length) i x (hH1 x hx)
      refine ⟨u, hu, hHu, ?_⟩
      have := evoFallbackOne_round ids _ 1 (k + hyps.length) i x u
        (HypOk_isObj x (hH1 x hx)) hu
      norm_num at this ⊢
      exact this)
  refine ⟨?st, ed, ?heq, hH2, ?hlen, ?hname⟩
  case heq =>
    simp only [runEvolutionStep, evolveHypotheses, evolveLoop, hfmt0, bindE_ok,
      evolveOneRound_fail _ _ _ _ _ _ he0, hm1, Pure.pure, Except.pure, Nat.reduceAdd]
    simp only [hfmt1, bindE_ok, evolveOneRound_fail _ _ _ _ _ _ he1, hed, hlen1,
      Pure.pure, Except.pure, Nat.reduceAdd]
    exact rfl
  case hlen => rw [hlen2, hlen1]
  case hname => rfl

theorem pipeline_two_rounds_fallback (P : Prompts) (ids : Nat → String) (search : SearchCfg)
    (R : StageResponses) (query : String) (maxH : Nat)
    (hg : extractGen R.gen = none) (hp : extractObj R.prox = none)
    (hcr : extractObj R.crit = none) (hr1 : extractObj R.rank1 = none)
    (he0 : extractObj (R.evo 0) = none) (he1 : extractObj (R.evo 1) = none)
    (hr2 : extractObj R.rank2 = none) (hmr : extractObj R.metaRev = none) :
    ∃ r, processScientificQuery P ids ⟨2, true, search⟩ R query maxH = .ok r ∧
      r.processing_steps.map (fun s => s.step_name) =
        ["hypothesis_generation", "knowledge_retrieval", "hypothesis_critique",
         "hypothesis_ranking", "hypothesis_evolution", "hypothesis_ranking",
         "meta_review_and_planning"] ∧
      (∃ st, r.processing_steps.get? 5 = some st ∧ st.step_name = "hypothesis_ranking" ∧
        ∃ ao finals, st.agent_outputs = [ao] ∧
          dictItem ao.metadata "ranked_hypotheses" = .ok (.arr finals) ∧
          ∀ h ∈ finals, ∃ fs, h = .obj fs ∧
            assocFind "evolution_round" fs = some (.num 2)) := by
  obtain ⟨st1, hyps1, h1, hlen1, hH1, hn1⟩ := runGenerationStep_fallback P ids 1 query maxH R.gen hg
  obtain ⟨st2, kd, h2, hK, hn2⟩ := runProximityStep_fallback P search hyps1 R.prox hp hH1
  obtain ⟨st3, cd, h3, hC, hclen, hn3⟩ := runReflectionStep_fallback P hyps1 R.crit hcr hH1
  obtain ⟨st4, rd, h4, hR4, hrlen, hn4⟩ := runRankingStep_fallback P hyps1 cd R.rank1 hr1 hH1 hC
  have hthr : rd.take 3 = rd := List.take_of_length_le (by rw [hrlen, hlen1]; omega)
  obtain ⟨st5, ed, h5, hHe, helen, hn5⟩ := runEvolutionStep_fallback2 P ids 2 (rd.take 3) cd
    R.evo he0 he1 (fun x hx => hR4 x (hthr ▸ hx)) hC
  obtain ⟨st6, fin, h6, hHf, hflen, hn6, hout6⟩ := runRankingStep_fallback_round P ed cd
    R.rank2 2 hr2 hHe hC
  obtain ⟨st7, rv, h7, hRv, hrvlen, hn7⟩ := runMetaReviewStep_fallback P fin cd rd R.metaRev hmr
    (fun h hm => (hHf h hm).1) hC hR4
  obtain ⟨objs, hconv, holen⟩ := convertToHypothesisObjects_ok ids
    (2 + (rd.take 3).length + (rd.take 3).length) fin cd kd rv
    (fun h hm => (hHf h hm).1) hC hK hRv
  have hfin1 : fin.length = 1 := by rw [hflen, helen, hthr, hrlen, hlen1]
  obtain ⟨summ, hsumm⟩ := generateSummary_ok query objs rv (by rw [holen, hfin1]; decide)
  obtain ⟨recs, hrecs⟩ := generateRecommendations_ok objs rv hRv
  refine ⟨?r, ?heq, ?hmap, ?hstep⟩
  case heq =>
    simp only [processScientificQuery, h1, h2, h3, h4, h5, h6, h7, hconv, hsumm, hrecs,
      bindE_ok, Nat.reduceAdd, Nat.reduceGT, Nat.reduceLT, reduceIte, gt_iff_lt,
      Nat.lt_irrefl, Nat.zero_lt_one, if_true, if_false, Pure.pure, Except.pure]
    exact rfl
  case hmap =>
    show (([st1, st2] ++ [st3, st4, st5, st6] ++ [st7]).map (fun s => s.step_name)) = _
    simp [hn1, hn2, hn3, hn4, hn5, hn6, hn7]
  case hstep =>
    refine ⟨st6, ?_, hn6, ?_⟩
    · show ([st1, st2] ++ [st3, st4, st5, st6] ++ [st7]).get? 5 = some st6
      simp
    · refine ⟨_, fin, hout6, ?_, ?_⟩
      · simp [dictItem, assocFind]
      · intro h hm
        exact (hHf h hm).2

theorem pipeline_zero_rounds_fallback (P : Prompts) (ids : Nat → String) (search : SearchCfg)
    (R : StageResponses) (query : String) (maxH : Nat)
    (hg : extractGen R.gen = none) (hp : extractObj R.prox = none)
    (hcr : extractObj R.crit = none) (hr1 : extractObj R.rank1 = none)
    (hmr : extractObj R.metaRev = none) :
    ∃ r, processScientificQuery P ids ⟨0, true, search⟩ R query maxH = .ok r ∧
      r.processing_steps.map (fun s => s.step_name) =
        ["hypothesis_generation", "knowledge_retrieval", "hypothesis_critique",
         "hypothesis_ranking", "meta_review_and_planning"] := by
  obtain ⟨st1, hyps1, h1, hlen1, hH1, hn1⟩ := runGenerationStep_fallback P ids 1 query maxH R.gen hg
  obtain ⟨st2, kd, h2, hK, hn2⟩ := runProximityStep_fallback P search hyps1 R.prox hp hH1
  obtain ⟨st3, cd, h3, hC, hclen, hn3⟩ := runReflectionStep_fallback P hyps1 R.crit hcr hH1
  obtain ⟨st4, rd, h4, hR4, hrlen, hn4⟩ := runRankingStep_fallback P hyps1 cd R.rank1 hr1 hH1 hC
  obtain ⟨st7, rv, h7, hRv, hrvlen, hn7⟩ := runMetaReviewStep_fallback P rd cd rd R.metaRev hmr
    hR4 hC hR4
  obtain ⟨objs, hconv, holen⟩ := convertToHypothesisObjects_ok ids 2 rd cd kd rv hR4 hC hK hRv
  have hfin1 : rd.length = 1 := by rw [hrlen, hlen1]
  obtain ⟨summ, hsumm⟩ := generateSummary_ok query objs rv (by rw [holen, hfin1]; decide)
  obtain ⟨recs, hrecs⟩ := generateRecommendations_ok objs rv hRv
  refine ⟨?r, ?heq, ?hmap⟩
  case heq =>
    simp only [processScientificQuery, h1, h2, h3, h4, h7, hconv, hsumm, hrecs,
      bindE_ok, Nat.reduceAdd, Nat.reduceGT, Nat.reduceLT, reduceIte, gt_iff_lt,
      Nat.lt_irrefl, Nat.zero_lt_one, if_true, if_false, Pure.pure, Except.pure]
    exact rfl
  case hmap =>
    show (([st1, st2] ++ [st3, st4] ++ [st7]).map (fun s => s.step_name)) = _
    simp [hn1, hn2, hn3, hn4, hn7]

theorem extractGen_not_json : extractGen "not json at all" = none := by
  with_unfolding_all rfl

/-- C2 counterexample: a validated input (non-empty query, max
hypotheses 3) and a generation response that parses to an empty
hypothesis list drive the final hypothesis list empty, and
`_generate_summary` divides by `len(hypotheses) = 0`: the pipeline
raises ZeroDivisionError instead of returning a QueryResponse. -/
theorem C2_counterexample :
    pyStrip "is there a cure".toList ≠ [] ∧ ((1 : Nat) ≤ 3 ∧ (3 : Nat) ≤ 10) ∧
    processScientificQuery cP cIds ⟨1, true, ⟨false, id⟩⟩ cR "is there a cure" 3 =
      .error .zeroDivisionError := by
  refine ⟨by decide, ⟨by decide, by decide⟩, ?_⟩
  with_unfolding_all rfl

/-- C6 counterexample: with `evolution_rounds = 2` the trace of a run
holds exactly one `hypothesis_evolution` record (the loop over rounds
lives inside `evolve_hypotheses`, inside a single step) and one
re-ranking record — not the two evolve+re-rank record pairs the spec
claims. -/
theorem C6_counterexample :
    (processScientificQuery cP cIds ⟨2, true, ⟨false, id⟩⟩ cRnj "q" 3).map
      (fun r => r.processing_steps.map (fun s => s.step_name)) =
      .ok ["hypothesis_generation", "knowledge_retrieval", "hypothesis_critique",
        "hypothesis_ranking", "hypothesis_evolution", "hypothesis_ranking",
        "meta_review_and_planning"] ∧
    (processScientificQuery cP cIds ⟨2, true, ⟨false, id⟩⟩ cRnj "q" 3).map
      (fun r => (r.processing_steps.filter
        (fun s => s.step_name == "hypothesis_evolution")).length) = .ok 1 ∧
    (1 : Nat) ≠ 2 := by
  refine ⟨?_, ?_, by decide⟩
  · with_unfolding_all rfl
  · with_unfolding_all rfl

/-- C2 witness: the amended theorem applied at a concrete validated
input with the prose response everywhere. -/
theorem C2_witness :
    ∃ r, processScientificQuery cP cIds ⟨1, true, ⟨false, id⟩⟩ cRnj "q" 3 = .ok r ∧
      r.hypotheses.length = 1 :=
  C2_amended cP cIds ⟨false, id⟩ cRnj "q" 3 (by decide) ⟨by decide, by decide⟩
    extractGen_not_json extract_not_json extract_not_json extract_not_json
    extract_not_json extract_not_json extract_not_json

/-- C6 (amended): with `evolution_rounds = 2` and stage responses with no
extractable JSON, the run succeeds and its trace contains the seven step
records generation, knowledge-retrieval, critique, ranking, one single
evolution record, one re-ranking record, and meta-review; the final
(step 5) re-ranked hypothesis list all carry `evolution_round = 2`; and
`evolution_rounds = 0` disables evolution entirely, leaving the
five-step trace whose final ranking is the post-critique one. -/
theorem C6_amended (P : Prompts) (ids : Nat → String) (search : SearchCfg)
    (R : StageResponses) (query : String) (maxH : Nat)
    (hg : extractGen R.gen = none) (hp : extractObj R.prox = none)
    (hcr : extractObj R.crit = none) (hr1 : extractObj R.rank1 = none)
    (he0 : extractObj (R.evo 0) = none) (he1 : extractObj (R.evo 1) = none)
    (hr2 : extractObj R.rank2 = none) (hmr : extractObj R.metaRev = none) :
    (∃ r, processScientificQuery P ids ⟨2, true, search⟩ R query maxH = .ok r ∧
      r.processing_steps.map (fun s => s.step_name) =
        ["hypothesis_generation", "knowledge_retrieval", "hypothesis_critique",
         "hypothesis_ranking", "hypothesis_evolution", "hypothesis_ranking",
         "meta_review_and_planning"] ∧
      (∃ st, r.processing_steps.get? 5 = some st ∧ st.step_name = "hypothesis_ranking" ∧
        ∃ ao finals, st.agent_outputs = [ao] ∧
          dictItem ao.metadata "ranked_hypotheses" = .ok (.arr finals) ∧
          ∀ h ∈ finals, ∃ fs, h = .obj fs ∧
            assocFind "evolution_round" fs = some (.num 2))) ∧
    (∃ r0, processScientificQuery P ids ⟨0, true, search⟩ R query maxH = .ok r0 ∧
      r0.processing_steps.map (fun s => s.step_name) =
        ["hypothesis_generation", "knowledge_retrieval", "hypothesis_critique",
         "hypothesis_ranking", "meta_review_and_planning"]) :=
  ⟨pipeline_two_rounds_fallback P ids search R query maxH hg hp hcr hr1 he0 he1 hr2 hmr,
   pipeline_zero_rounds_fallback P ids search R query maxH hg hp hcr hr1 hmr⟩

/-- C6 witness: the amended theorem applied at a concrete input with the
prose response everywhere. -/
theorem C6_witness :
    ∃ r, processScientificQuery cP cIds ⟨2, true, ⟨false, id⟩⟩ cRnj "q" 3 = .ok r ∧
      r.processing_steps.map (fun s => s.step_name) =
        ["hypothesis_generation", "knowledge_retrieval", "hypothesis_critique",
         "hypothesis_ranking", "hypothesis_evolution", "hypothesis_ranking",
         "meta_review_and_planning"] := by
  obtain ⟨r, heq, hmap, -⟩ := (C6_amended cP cIds ⟨false, id⟩ cRnj "q" 3
    extractGen_not_json extract_not_json extract_not_json extract_not_json
    extract_not_json extract_not_json extract_not_json extract_not_json).1
  exact ⟨r, heq, hmap⟩
